import Mathlib

/-!
# Subscription service: date model, domain service and store

A shallow embedding of `internal/service/subscription/subscription.go`,
`internal/repository/postgres/postgres.go` and `internal/transport/http/handlers.go`.

Go strings are modelled as Lean `String`s (lists of code points).  Every separator,
pattern character and digit the code looks at is ASCII, so working on code points
instead of bytes does not change any result.
-/

namespace Market

/-! ## Errors (`internal/errors/errors.go`) -/

/-- The sentinel errors of package `errs`, an error wrapped by the store with
`fmt.Errorf("failed to ...: %w", err)`, and the run-time panic of an index out of range,
which leaves every caller as an error does. -/
inductive Err where
  | ErrNotFound
  | ErrAlreadyExists
  | ErrInvalidData
  | ErrInvalidDateFormat
  | ErrInvalidUUID
  | ErrInvalidDateRange
  | ErrInvalidPrice
  | ErrInvalidPagination
  | wrapped (op : String) (cause : String)
  | indexOutOfRange
  deriving DecidableEq, Repr

deriving instance DecidableEq for Except

/-! ## Library functions used by the date model -/

/-- The fragment of RE2 syntax that the date pattern uses. -/
inductive Regex where
  | eps
  | beginText
  | endText
  | lit (c : Char)
  | range (lo hi : Char)
  | cat (a b : Regex)
  | alt (a b : Regex)

/-- The repetition `r{n}`: `n` copies of `r` in sequence. -/
def Regex.rep (r : Regex) : Nat → Regex
  | 0 => Regex.eps
  | n + 1 => Regex.cat r (Regex.rep r n)

/-- Backtracking match of `r` at the head of `s`; `atStart` says whether the position is the
beginning of the text, and `k` receives the position after the match. -/
def Regex.matchFrom : Regex → Bool → List Char → (Bool → List Char → Bool) → Bool
  | Regex.eps, st, s, k => k st s
  | Regex.beginText, st, s, k => st && k st s
  | Regex.endText, st, s, k => s.isEmpty && k st s
  | Regex.lit c, _, s, k =>
    match s with
    | [] => false
    | x :: xs => (x == c) && k false xs
  | Regex.range lo hi, _, s, k =>
    match s with
    | [] => false
    | x :: xs => (decide (lo.toNat ≤ x.toNat) && decide (x.toNat ≤ hi.toNat)) && k false xs
  | Regex.cat a b, st, s, k => a.matchFrom st s (fun st1 s1 => b.matchFrom st1 s1 k)
  | Regex.alt a b, st, s, k => a.matchFrom st s k || b.matchFrom st s k

/-- Does `re` match somewhere in the text, the search starting at the current position or
any later one. -/
def Regex.search (re : Regex) : Bool → List Char → Bool
  | st, [] => re.matchFrom st [] (fun _ _ => true)
  | st, c :: cs => re.matchFrom st (c :: cs) (fun _ _ => true) || Regex.search re false cs

/-- Function `regexp.MatchString`: does the string contain any match of the pattern. -/
def regexp.MatchString (re : Regex) (s : String) : Bool :=
  re.search true s.data

/-- The pattern `^(0[1-9]|1[0-2])-\d{4}$` of `validateDateFormat`. -/
def datePattern : Regex :=
  Regex.cat Regex.beginText
    (Regex.cat
      (Regex.alt (Regex.cat (Regex.lit '0') (Regex.range '1' '9'))
                 (Regex.cat (Regex.lit '1') (Regex.range '0' '2')))
      (Regex.cat (Regex.lit '-')
        (Regex.cat (Regex.rep (Regex.range '0' '9') 4) Regex.endText)))

/-- Function `strings.Split(s, sep)` for a separator of one byte: the pieces between the
occurrences of `sep`; there is always at least one piece. -/
def strings.Split : List Char → Char → List (List Char)
  | [], _ => [[]]
  | c :: cs, sep =>
    if c = sep then [] :: strings.Split cs sep
    else
      match strings.Split cs sep with
      | p :: ps => (c :: p) :: ps
      | [] => [[c]]

/-- Largest and smallest `int` of a 64-bit platform. -/
def maxInt : Int := 9223372036854775807

/-- Smallest `int` of a 64-bit platform. -/
def minInt : Int := -9223372036854775808

/-- An ASCII decimal digit. -/
def isDigit (c : Char) : Bool := decide (48 ≤ c.toNat) && decide (c.toNat ≤ 57)

/-- Function `strconv.Atoi`: an optional sign followed by one or more decimal digits.  The result is
the value and whether the returned error is nil; on a syntax error the value is 0, on a
range error it is the nearest `int`. -/
def strconv.Atoi (s : List Char) : Int × Bool :=
  let neg : Bool := match s with
    | '-' :: _ => true
    | _ => false
  let ds : List Char := match s with
    | '-' :: r => r
    | '+' :: r => r
    | _ => s
  if ds.isEmpty || !ds.all isDigit then (0, false)
  else
    let n : Int := ds.foldl (fun acc ch => acc * 10 + ((ch.toNat - 48 : Nat) : Int)) 0
    let v : Int := if neg then -n else n
    if v > maxInt then (maxInt, false)
    else if v < minInt then (minInt, false)
    else (v, true)

/-- An instant: seconds since 1 January of year 1, 00:00:00 UTC, and nanoseconds within
the second. -/
structure Time where
  sec : Int
  nsec : Int
  deriving DecidableEq, Repr

/-- Days from 1 January of year 1 to 1 January of `year` in the proleptic Gregorian
calendar. -/
def daysSinceEpoch (year : Int) : Int :=
  let y := year - 1
  365 * y + y / 4 - y / 100 + y / 400

/-- Leap year of the Gregorian calendar. -/
def isLeap (year : Int) : Bool :=
  year % 4 == 0 && (year % 100 != 0 || year % 400 == 0)

/-- Days of a non-leap year before the month with index `m` (January is 0). -/
def daysBefore (m : Int) : Int :=
  if m = 0 then 0 else if m = 1 then 31 else if m = 2 then 59 else if m = 3 then 90
  else if m = 4 then 120 else if m = 5 then 151 else if m = 6 then 181
  else if m = 7 then 212 else if m = 8 then 243 else if m = 9 then 273
  else if m = 10 then 304 else 334

/-- Function `time.Date(year, month, day, hour, min, sec, nsec, time.UTC)`: months outside 1..12
overflow into the year, the other fields add up. -/
def time.Date (year month day hour min sec nsec : Int) : Time :=
  let m := (month - 1) % 12
  let y := year + (month - 1) / 12
  let d := daysSinceEpoch y + daysBefore m + (if isLeap y && decide (2 ≤ m) then 1 else 0)
    + (day - 1)
  { sec := d * 86400 + hour * 3600 + min * 60 + sec + nsec / 1000000000,
    nsec := nsec % 1000000000 }

/-- Method `t.After(u)`: is the instant `t` after `u`. -/
def Time.After (t u : Time) : Bool :=
  decide (t.sec > u.sec) || (decide (t.sec = u.sec) && decide (t.nsec > u.nsec))

/-! ## Date model (`subscription.go`) -/

/-- Method `validateDateFormat`: `none` is a nil error.  `currentYear` is `time.Now().Year()`. -/
def validateDateFormat (currentYear : Int) (date : String) : Option Err :=
  if !regexp.MatchString datePattern date then some Err.ErrInvalidDateFormat
  else
    match strings.Split date.data '-' with
    | p0 :: p1 :: _ =>
      let month := (strconv.Atoi p0).1
      let year := (strconv.Atoi p1).1
      if month < 1 || month > 12 then some Err.ErrInvalidDateFormat
      else if year < 2000 || year > currentYear + 10 then some Err.ErrInvalidDateFormat
      else none
    | _ => some Err.indexOutOfRange

/-- Method `validateDateRange`; the two dates are split and parsed again after both
passed `validateDateFormat`. -/
def validateDateRange (currentYear : Int) (startDate endDate : String) : Option Err :=
  match validateDateFormat currentYear startDate with
  | some err => some err
  | none =>
    match validateDateFormat currentYear endDate with
    | some err => some err
    | none =>
      match strings.Split startDate.data '-', strings.Split endDate.data '-' with
      | s0 :: s1 :: _, e0 :: e1 :: _ =>
        let startYear := (strconv.Atoi s1).1
        let startMonth := (strconv.Atoi s0).1
        let endYear := (strconv.Atoi e1).1
        let endMonth := (strconv.Atoi e0).1
        let startTime := time.Date startYear startMonth 1 0 0 0 0
        let endTime := time.Date endYear endMonth 1 0 0 0 0
        if startTime.After endTime then some Err.ErrInvalidDateRange else none
      | _, _ => some Err.indexOutOfRange

/-- The surroundings of the service: `validateUUID` calls `uuid.Parse` of the library `github.com/google/uuid`, and
`validateDateFormat` reads the clock; both are parameters of the service. -/
structure Env where
  /-- The value of `time.Now().Year()`; far from the bounds of `int`, so `currentYear + 10` is exact. -/
  currentYear : Int
  /-- Does `uuid.Parse(s)` return a nil error. -/
  uuidParse : String → Bool

/-- Method `validateUUID`. -/
def validateUUID (env : Env) (uuidStr : String) : Option Err :=
  if env.uuidParse uuidStr then none else some Err.ErrInvalidUUID

/-- Function `unicode.IsSpace`: the white space characters of Unicode. -/
def isSpace (c : Char) : Bool :=
  let n := c.toNat
  n == 9 || n == 10 || n == 11 || n == 12 || n == 13 || n == 32 || n == 0x85 || n == 0xA0
    || n == 0x1680 || (decide (0x2000 ≤ n) && decide (n ≤ 0x200A)) || n == 0x2028
    || n == 0x2029 || n == 0x202F || n == 0x205F || n == 0x3000

/-- Function `strings.TrimSpace`: the string without its leading and trailing white space. -/
def strings.TrimSpace (s : String) : String :=
  ⟨((s.data.dropWhile isSpace).reverse.dropWhile isSpace).reverse⟩

/-! ## Models (`internal/models/models.go`) -/

/-- Type `models.Subscription`; a nil `EndDate` is `none`. -/
structure Subscription where
  ID : Int
  ServiceName : String
  Price : Int
  UserID : String
  StartDate : String
  EndDate : Option String
  CreatedAt : Time
  UpdatedAt : Time
  deriving DecidableEq, Repr

/-- Type `models.CreateSubscriptionRequest`. -/
structure CreateSubscriptionRequest where
  ServiceName : String
  Price : Int
  UserID : String
  StartDate : String
  EndDate : Option String
  deriving DecidableEq, Repr

/-- Type `models.UpdateSubscriptionRequest`: every field is a pointer, nil when absent. -/
structure UpdateSubscriptionRequest where
  ServiceName : Option String
  Price : Option Int
  EndDate : Option String
  deriving DecidableEq, Repr

/-- Type `models.SubscriptionFilters`. -/
structure SubscriptionFilters where
  UserID : Option String
  ServiceName : Option String
  Limit : Int
  Offset : Int
  deriving DecidableEq, Repr

/-- Type `models.CostCalculationRequest`. -/
structure CostCalculationRequest where
  UserID : Option String
  ServiceName : Option String
  StartDate : String
  EndDate : String
  deriving DecidableEq, Repr

/-- Type `models.CostCalculationResponse`. -/
structure CostCalculationResponse where
  TotalCost : Int
  StartDate : String
  EndDate : String
  UserID : Option String
  ServiceName : Option String
  deriving DecidableEq, Repr

/-- Type `models.SubscriptionListResponse`. -/
structure SubscriptionListResponse where
  Subscriptions : List Subscription
  Total : Int
  Limit : Int
  Offset : Int
  deriving DecidableEq, Repr

/-! ## Store interface (`internal/repository/repository.go`) -/

/-- The interface `repository.Repository` over a store state `σ`.  A method returns its
value or its error, and the state after the call. -/
structure Repository (σ : Type) where
  CreateSubscription : Subscription → σ → Except Err Subscription × σ
  GetSubscriptionByID : Int → σ → Except Err Subscription × σ
  GetSubscriptions : SubscriptionFilters → σ → Except Err (List Subscription) × σ
  UpdateSubscription : Int → UpdateSubscriptionRequest → σ → Except Err Subscription × σ
  DeleteSubscription : Int → σ → Option Err × σ
  CalculateCost : CostCalculationRequest → σ → Except Err Int × σ

/-- A call of a store method with its arguments. -/
inductive Call where
  | CreateSubscription (subscription : Subscription)
  | GetSubscriptionByID (id : Int)
  | GetSubscriptions (filters : SubscriptionFilters)
  | UpdateSubscription (id : Int) (updates : UpdateSubscriptionRequest)
  | DeleteSubscription (id : Int)
  | CalculateCost (req : CostCalculationRequest)
  deriving DecidableEq, Repr

/-- What an operation leaves behind: its result, the store state and the store calls it
made, in order. -/
structure Run (σ : Type) (α : Type) where
  result : α
  state : σ
  calls : List Call

/-! ## Domain service (`internal/service/subscription/subscription.go`) -/

/-- Method `(*subscription).CreateSubscription`. -/
def subscription.CreateSubscription {σ : Type} (env : Env) (repo : Repository σ)
    (req : CreateSubscriptionRequest) (st : σ) : Run σ (Except Err Subscription) :=
  match validateUUID env req.UserID with
  | some err => { result := Except.error err, state := st, calls := [] }
  | none =>
    match validateDateFormat env.currentYear req.StartDate with
    | some err => { result := Except.error err, state := st, calls := [] }
    | none =>
      let rangeErr : Option Err :=
        match req.EndDate with
        | some endDate => validateDateRange env.currentYear req.StartDate endDate
        | none => none
      match rangeErr with
      | some err => { result := Except.error err, state := st, calls := [] }
      | none =>
        if req.Price ≤ 0 then
          { result := Except.error Err.ErrInvalidPrice, state := st, calls := [] }
        else
          let subscription : Subscription :=
            { ID := 0,
              ServiceName := strings.TrimSpace req.ServiceName,
              Price := req.Price,
              UserID := req.UserID,
              StartDate := req.StartDate,
              EndDate := req.EndDate,
              CreatedAt := { sec := 0, nsec := 0 },
              UpdatedAt := { sec := 0, nsec := 0 } }
          let r := repo.CreateSubscription subscription st
          { result := r.1, state := r.2, calls := [Call.CreateSubscription subscription] }

/-- Method `(*subscription).GetSubscriptionByID`. -/
def subscription.GetSubscriptionByID {σ : Type} (repo : Repository σ) (id : Int) (st : σ) :
    Run σ (Except Err Subscription) :=
  if id ≤ 0 then { result := Except.error Err.ErrInvalidData, state := st, calls := [] }
  else
    let r := repo.GetSubscriptionByID id st
    { result := r.1, state := r.2, calls := [Call.GetSubscriptionByID id] }

/-- Method `(*subscription).GetSubscriptions`. -/
def subscription.GetSubscriptions {σ : Type} (env : Env) (repo : Repository σ)
    (filters : SubscriptionFilters) (st : σ) : Run σ (Except Err SubscriptionListResponse) :=
  let filters1 : SubscriptionFilters :=
    if filters.Limit ≤ 0 then { filters with Limit := 10 } else filters
  let filters2 : SubscriptionFilters :=
    if filters1.Limit > 100 then { filters1 with Limit := 100 } else filters1
  let filters3 : SubscriptionFilters :=
    if filters2.Offset < 0 then { filters2 with Offset := 0 } else filters2
  let uuidErr : Option Err :=
    match filters3.UserID with
    | some userID => validateUUID env userID
    | none => none
  match uuidErr with
  | some err => { result := Except.error err, state := st, calls := [] }
  | none =>
    let r := repo.GetSubscriptions filters3 st
    match r.1 with
    | Except.error err =>
      { result := Except.error err, state := r.2, calls := [Call.GetSubscriptions filters3] }
    | Except.ok subscriptions =>
      { result := Except.ok
          { Subscriptions := subscriptions,
            Total := subscriptions.length,
            Limit := filters3.Limit,
            Offset := filters3.Offset },
        state := r.2,
        calls := [Call.GetSubscriptions filters3] }

/-- Method `(*subscription).UpdateSubscription`. -/
def subscription.UpdateSubscription {σ : Type} (env : Env) (repo : Repository σ) (id : Int)
    (req : UpdateSubscriptionRequest) (st : σ) : Run σ (Except Err Subscription) :=
  if id ≤ 0 then { result := Except.error Err.ErrInvalidData, state := st, calls := [] }
  else
    let r := repo.GetSubscriptionByID id st
    match r.1 with
    | Except.error err =>
      { result := Except.error err, state := r.2, calls := [Call.GetSubscriptionByID id] }
    | Except.ok existing =>
      let rangeErr : Option Err :=
        match req.EndDate with
        | some endDate => validateDateRange env.currentYear existing.StartDate endDate
        | none => none
      match rangeErr with
      | some err =>
        { result := Except.error err, state := r.2, calls := [Call.GetSubscriptionByID id] }
      | none =>
        let badPrice : Bool :=
          match req.Price with
          | some price => decide (price ≤ 0)
          | none => false
        if badPrice then
          { result := Except.error Err.ErrInvalidPrice, state := r.2,
            calls := [Call.GetSubscriptionByID id] }
        else
          let req1 : UpdateSubscriptionRequest :=
            match req.ServiceName with
            | some name => { req with ServiceName := some (strings.TrimSpace name) }
            | none => req
          let r2 := repo.UpdateSubscription id req1 r.2
          { result := r2.1, state := r2.2,
            calls := [Call.GetSubscriptionByID id, Call.UpdateSubscription id req1] }

/-- Method `(*subscription).DeleteSubscription`. -/
def subscription.DeleteSubscription {σ : Type} (repo : Repository σ) (id : Int) (st : σ) :
    Run σ (Option Err) :=
  if id ≤ 0 then { result := some Err.ErrInvalidData, state := st, calls := [] }
  else
    let r := repo.DeleteSubscription id st
    { result := r.1, state := r.2, calls := [Call.DeleteSubscription id] }

/-- Method `(*subscription).CalculateCost`. -/
def subscription.CalculateCost {σ : Type} (env : Env) (repo : Repository σ)
    (req : CostCalculationRequest) (st : σ) : Run σ (Except Err CostCalculationResponse) :=
  match validateDateRange env.currentYear req.StartDate req.EndDate with
  | some err => { result := Except.error err, state := st, calls := [] }
  | none =>
    let uuidErr : Option Err :=
      match req.UserID with
      | some userID => validateUUID env userID
      | none => none
    match uuidErr with
    | some err => { result := Except.error err, state := st, calls := [] }
    | none =>
      let r := repo.CalculateCost req st
      match r.1 with
      | Except.error err =>
        { result := Except.error err, state := r.2, calls := [Call.CalculateCost req] }
      | Except.ok totalCost =>
        { result := Except.ok
            { TotalCost := totalCost,
              StartDate := req.StartDate,
              EndDate := req.EndDate,
              UserID := req.UserID,
              ServiceName := req.ServiceName },
          state := r.2,
          calls := [Call.CalculateCost req] }

/-! ## Postgres store (`internal/repository/postgres/postgres.go`)

The statements are built as in the source, with numbered placeholders and an argument
list, and then run on a table of rows. -/

/-- The order that `<=` and `>=` apply to the columns `start_date` and `end_date`.  The
table declaration (`db/migrations`) is not among the sources, so the store takes the order
of these columns as a parameter. -/
abbrev DateOrder := String → String → Bool

/-- Order of character data: the first position where two texts differ decides, and a
proper beginning of a text comes before it. -/
def textLeChars : List Char → List Char → Bool
  | [], _ => true
  | _ :: _, [] => false
  | a :: as, b :: bs =>
    if a.toNat < b.toNat then true
    else if b.toNat < a.toNat then false
    else textLeChars as bs

/-- The order of `start_date` and `end_date` as the Go code uses these columns: it binds
Go strings holding `MM-YYYY` text to them and scans them back into Go strings, so they hold
character data, which the database compares as text.  On two texts of the shape `MM-YYYY`
every collation agrees with the order by position used here. -/
def textLe : DateOrder := fun a b => textLeChars a.data b.data

/-- Does `f` hold of the text or of one of its endings. -/
def anyEnding (f : List Char → Bool) : List Char → Bool
  | [] => f []
  | c :: cs => f (c :: cs) || anyEnding f cs

/-- The operator `LIKE`: in the pattern `%` stands for any text, `_` for any one character,
and a backslash takes the next character literally. -/
def likeMatch : List Char → List Char → Bool
  | [], s => s.isEmpty
  | '%' :: p, s => anyEnding (fun t => likeMatch p t) s
  | '_' :: p, s =>
    match s with
    | [] => false
    | _ :: t => likeMatch p t
  | ['\\'], _ => false
  | '\\' :: c :: p, s =>
    match s with
    | [] => false
    | x :: t => x == c && likeMatch p t
  | c :: p, s =>
    match s with
    | [] => false
    | x :: t => x == c && likeMatch p t

/-- The operator `ILIKE`: `LIKE` without regard to the case of letters (ASCII letters in
this model; the folding of other letters depends on the locale of the database). -/
def ilike (text pattern : String) : Bool :=
  likeMatch (pattern.data.map Char.toLower) (text.data.map Char.toLower)

/-- An argument bound to a placeholder. -/
inductive SqlArg where
  | text (s : String)
  | nullableText (s : Option String)
  | int (i : Int)
  | timestamp (t : Time)
  deriving DecidableEq, Repr

/-- The argument bound to placeholder `$n`. -/
def param (args : List SqlArg) (n : Nat) : Option SqlArg :=
  if n = 0 then none else args.get? (n - 1)

/-- A condition of a `WHERE` clause, with the number of its placeholder. -/
inductive Cond where
  /-- The condition `1=1`. -/
  | oneEqOne
  /-- The condition `user_id = $n`. -/
  | userIdEq (n : Nat)
  /-- The condition `service_name ILIKE $n`. -/
  | serviceNameILike (n : Nat)
  /-- The condition `start_date <= $n`. -/
  | startDateLe (n : Nat)
  /-- The condition `(end_date IS NULL OR end_date >= $n)`. -/
  | endDateNullOrGe (n : Nat)
  deriving DecidableEq, Repr

/-- The placeholder of a condition. -/
def Cond.placeholder : Cond → Option Nat
  | Cond.oneEqOne => none
  | Cond.userIdEq n => some n
  | Cond.serviceNameILike n => some n
  | Cond.startDateLe n => some n
  | Cond.endDateNullOrGe n => some n

/-- The value of a condition on a row; `none` when its placeholder has no text bound. -/
def Cond.eval (le : DateOrder) (args : List SqlArg) (row : Subscription) : Cond → Option Bool
  | Cond.oneEqOne => some true
  | Cond.userIdEq n =>
    match param args n with
    | some (SqlArg.text v) => some (row.UserID == v)
    | _ => none
  | Cond.serviceNameILike n =>
    match param args n with
    | some (SqlArg.text v) => some (ilike row.ServiceName v)
    | _ => none
  | Cond.startDateLe n =>
    match param args n with
    | some (SqlArg.text v) => some (le row.StartDate v)
    | _ => none
  | Cond.endDateNullOrGe n =>
    match param args n with
    | some (SqlArg.text v) =>
      some (match row.EndDate with
        | none => true
        | some endDate => le v endDate)
    | _ => none

/-- The conjunction of the conditions on a row. -/
def whereClause (le : DateOrder) (args : List SqlArg) (row : Subscription) :
    List Cond → Option Bool
  | [] => some true
  | c :: cs =>
    match c.eval le args row, whereClause le args row cs with
    | some b, some bs => some (b && bs)
    | _, _ => none

/-- The rows of the table that satisfy the conditions. -/
def selectRows (le : DateOrder) (args : List SqlArg) (conds : List Cond) :
    List Subscription → Option (List Subscription)
  | [] => some []
  | r :: rs =>
    match whereClause le args r conds, selectRows le args conds rs with
    | some b, some out => some (if b then r :: out else out)
    | _, _ => none

/-- A statement binds exactly the placeholders `$1 .. $n` it mentions. -/
def bindOk (used : List Nat) (args : List SqlArg) : Bool :=
  (List.range args.length).all (fun i => used.contains (i + 1)) &&
    used.all (fun n => decide (1 ≤ n) && decide (n ≤ args.length))

/-- The aggregate `SUM`: NULL over no rows. -/
def sqlSum : List Int → Option Int
  | [] => none
  | x :: xs => some (x + xs.sum)

/-- The function `COALESCE(v, d)`. -/
def coalesce (v : Option Int) (d : Int) : Option Int :=
  match v with
  | some x => some x
  | none => some d

/-- Scanning a column into a Go `int`: NULL cannot be scanned. -/
def scanInt : Option Int → Except String Int
  | some x => Except.ok x
  | none => Except.error "converting NULL to int is unsupported"

/-- The database: the rows of table `subscriptions` in insertion order, the sequence of
ids, the clock, and a failure of the driver or connection, which makes every statement
fail when present. -/
structure DB where
  rows : List Subscription
  nextID : Int
  now : Time
  fault : Option String

/-- The statement `SELECT COALESCE(SUM(price), 0) as total_cost FROM subscriptions WHERE ...`,
read with `GetContext` into an `int`. -/
def DB.getTotalCost (db : DB) (le : DateOrder) (conds : List Cond) (args : List SqlArg) :
    Except String Int :=
  match db.fault with
  | some cause => Except.error cause
  | none =>
    if !bindOk (conds.filterMap Cond.placeholder) args then
      Except.error "wrong number of parameters"
    else
      match selectRows le args conds db.rows with
      | none => Except.error "wrong type of parameter"
      | some rows => scanInt (coalesce (sqlSum (rows.map (fun r => r.Price))) 0)

/-- Method `(*postgres).CalculateCost`. -/
def postgres.CalculateCost (le : DateOrder) (req : CostCalculationRequest) (db : DB) :
    Except Err Int × DB :=
  let query : List Cond := [Cond.oneEqOne]
  let conditions : List Cond := []
  let args : List SqlArg := []
  let argIndex : Nat := 1
  let s1 : List Cond × List SqlArg × Nat :=
    match req.UserID with
    | some userID =>
      (conditions ++ [Cond.userIdEq argIndex], args ++ [SqlArg.text userID], argIndex + 1)
    | none => (conditions, args, argIndex)
  let s2 : List Cond × List SqlArg × Nat :=
    match req.ServiceName with
    | some serviceName =>
      (s1.1 ++ [Cond.serviceNameILike s1.2.2],
        s1.2.1 ++ [SqlArg.text ("%" ++ serviceName ++ "%")], s1.2.2 + 1)
    | none => s1
  let s3 : List Cond × List SqlArg × Nat :=
    (s2.1 ++ [Cond.startDateLe s2.2.2], s2.2.1 ++ [SqlArg.text req.EndDate], s2.2.2 + 1)
  let s4 : List Cond × List SqlArg × Nat :=
    (s3.1 ++ [Cond.endDateNullOrGe s3.2.2], s3.2.1 ++ [SqlArg.text req.StartDate],
      s3.2.2 + 1)
  let query1 : List Cond := if s4.1.length > 0 then query ++ s4.1 else query
  match db.getTotalCost le query1 s4.2.1 with
  | Except.error cause => (Except.error (Err.wrapped "failed to calculate cost" cause), db)
  | Except.ok totalCost => (Except.ok totalCost, db)

/-- Method `(*postgres).CreateSubscription`: the statement `INSERT ... VALUES ($1, $2, $3, $4, $5)
RETURNING ...`.  The id comes from the sequence and both timestamps from the clock;
constraints of the table are not modelled. -/
def postgres.CreateSubscription (subscription : Subscription) (db : DB) :
    Except Err Subscription × DB :=
  let args : List SqlArg :=
    [SqlArg.text subscription.ServiceName, SqlArg.int subscription.Price,
      SqlArg.text subscription.UserID, SqlArg.text subscription.StartDate,
      SqlArg.nullableText subscription.EndDate]
  match db.fault with
  | some cause => (Except.error (Err.wrapped "failed to create subscription" cause), db)
  | none =>
    match args with
    | [SqlArg.text serviceName, SqlArg.int price, SqlArg.text userID, SqlArg.text startDate,
        SqlArg.nullableText endDate] =>
      let row : Subscription :=
        { ID := db.nextID, ServiceName := serviceName, Price := price, UserID := userID,
          StartDate := startDate, EndDate := endDate, CreatedAt := db.now,
          UpdatedAt := db.now }
      (Except.ok row, { db with rows := db.rows ++ [row], nextID := db.nextID + 1 })
    | _ =>
      (Except.error (Err.wrapped "failed to create subscription" "wrong parameters"), db)

/-- Method `(*postgres).GetSubscriptionByID`: `SELECT ... WHERE id = $1`; no row is
`sql.ErrNoRows`. -/
def postgres.GetSubscriptionByID (id : Int) (db : DB) : Except Err Subscription × DB :=
  match db.fault with
  | some cause => (Except.error (Err.wrapped "failed to get subscription" cause), db)
  | none =>
    match db.rows.find? (fun r => r.ID == id) with
    | some row => (Except.ok row, db)
    | none => (Except.error Err.ErrNotFound, db)

/-- Insertion of a row into a list ordered by `created_at` descending. -/
def insertByCreatedAtDesc (r : Subscription) : List Subscription → List Subscription
  | [] => [r]
  | x :: xs =>
    if decide (x.CreatedAt.sec < r.CreatedAt.sec) ||
        (decide (x.CreatedAt.sec = r.CreatedAt.sec) &&
          decide (x.CreatedAt.nsec < r.CreatedAt.nsec))
    then r :: x :: xs
    else x :: insertByCreatedAtDesc r xs

/-- The clause `ORDER BY created_at DESC`. -/
def orderByCreatedAtDesc : List Subscription → List Subscription
  | [] => []
  | r :: rs => insertByCreatedAtDesc r (orderByCreatedAtDesc rs)

/-- Method `(*postgres).GetSubscriptions`: the filters, then `ORDER BY created_at DESC LIMIT $n
OFFSET $m`; a negative limit or offset is an error of the database. -/
def postgres.GetSubscriptions (filters : SubscriptionFilters) (db : DB) :
    Except Err (List Subscription) × DB :=
  let conditions : List Cond := []
  let args : List SqlArg := []
  let argIndex : Nat := 1
  let s1 : List Cond × List SqlArg × Nat :=
    match filters.UserID with
    | some userID =>
      (conditions ++ [Cond.userIdEq argIndex], args ++ [SqlArg.text userID], argIndex + 1)
    | none => (conditions, args, argIndex)
  let s2 : List Cond × List SqlArg × Nat :=
    match filters.ServiceName with
    | some serviceName =>
      (s1.1 ++ [Cond.serviceNameILike s1.2.2],
        s1.2.1 ++ [SqlArg.text ("%" ++ serviceName ++ "%")], s1.2.2 + 1)
    | none => s1
  let limitParam : Nat := s2.2.2
  let offsetParam : Nat := s2.2.2 + 1
  let args1 : List SqlArg := s2.2.1 ++ [SqlArg.int filters.Limit, SqlArg.int filters.Offset]
  let failed (cause : String) : Except Err (List Subscription) × DB :=
    (Except.error (Err.wrapped "failed to get subscriptions" cause), db)
  match db.fault with
  | some cause => failed cause
  | none =>
    if !bindOk (s2.1.filterMap Cond.placeholder ++ [limitParam, offsetParam]) args1 then
      failed "wrong number of parameters"
    else
      match selectRows textLe args1 s2.1 db.rows, param args1 limitParam,
        param args1 offsetParam with
      | some rows, some (SqlArg.int limit), some (SqlArg.int offset) =>
        if limit < 0 then failed "LIMIT must not be negative"
        else if offset < 0 then failed "OFFSET must not be negative"
        else
          (Except.ok (((orderByCreatedAtDesc rows).drop offset.toNat).take limit.toNat), db)
      | _, _, _ => failed "wrong type of parameter"

/-- A column assigned by the `UPDATE` statement. -/
inductive Column where
  | service_name
  | price
  | end_date
  | updated_at
  deriving DecidableEq, Repr

/-- The statement `UPDATE subscriptions SET ... WHERE id = $n RETURNING ...`: the
assignments `column = $k` in order, and the placeholder of the id. -/
structure UpdateStmt where
  setParts : List (Column × Nat)
  whereId : Nat
  deriving DecidableEq, Repr

/-- One assignment `column = $k` applied to a row. -/
def applySet (args : List SqlArg) (row : Subscription) : Column × Nat → Option Subscription
  | (Column.service_name, k) =>
    match param args k with
    | some (SqlArg.text v) => some { row with ServiceName := v }
    | _ => none
  | (Column.price, k) =>
    match param args k with
    | some (SqlArg.int v) => some { row with Price := v }
    | _ => none
  | (Column.end_date, k) =>
    match param args k with
    | some (SqlArg.text v) => some { row with EndDate := some v }
    | _ => none
  | (Column.updated_at, k) =>
    match param args k with
    | some (SqlArg.timestamp v) => some { row with UpdatedAt := v }
    | _ => none

/-- All assignments of a statement applied to a row, in order. -/
def applySets (args : List SqlArg) : Subscription → List (Column × Nat) → Option Subscription
  | row, [] => some row
  | row, p :: ps =>
    match applySet args row p with
    | some row1 => applySets args row1 ps
    | none => none

/-- The `UPDATE` statement run on the table: the updated row, or `none` for
`sql.ErrNoRows`. -/
def DB.runUpdate (db : DB) (stmt : UpdateStmt) (args : List SqlArg) :
    Except String (Option Subscription × DB) :=
  match db.fault with
  | some cause => Except.error cause
  | none =>
    if !bindOk (stmt.setParts.map (fun p => p.2) ++ [stmt.whereId]) args then
      Except.error "wrong number of parameters"
    else
      match param args stmt.whereId with
      | some (SqlArg.int id) =>
        match db.rows.find? (fun r => r.ID == id) with
        | none => Except.ok (none, db)
        | some row =>
          match applySets args row stmt.setParts with
          | none => Except.error "wrong type of parameter"
          | some row1 =>
            Except.ok (some row1,
              { db with rows := db.rows.map (fun r => if r.ID == id then row1 else r) })
      | _ => Except.error "wrong type of parameter"

/-- The statement and arguments that `(*postgres).UpdateSubscription` builds, or
`ErrInvalidData` for a patch without fields.  `now` is `time.Now()`. -/
def postgres.buildUpdate (id : Int) (updates : UpdateSubscriptionRequest) (now : Time) :
    Except Err (UpdateStmt × List SqlArg) :=
  let setParts : List (Column × Nat) := []
  let args : List SqlArg := []
  let argIndex : Nat := 1
  let s1 : List (Column × Nat) × List SqlArg × Nat :=
    match updates.ServiceName with
    | some serviceName =>
      (setParts ++ [(Column.service_name, argIndex)], args ++ [SqlArg.text serviceName],
        argIndex + 1)
    | none => (setParts, args, argIndex)
  let s2 : List (Column × Nat) × List SqlArg × Nat :=
    match updates.Price with
    | some price =>
      (s1.1 ++ [(Column.price, s1.2.2)], s1.2.1 ++ [SqlArg.int price], s1.2.2 + 1)
    | none => s1
  let s3 : List (Column × Nat) × List SqlArg × Nat :=
    match updates.EndDate with
    | some endDate =>
      (s2.1 ++ [(Column.end_date, s2.2.2)], s2.2.1 ++ [SqlArg.text endDate], s2.2.2 + 1)
    | none => s2
  if s3.1.length = 0 then Except.error Err.ErrInvalidData
  else
    let s4 : List (Column × Nat) × List SqlArg × Nat :=
      (s3.1 ++ [(Column.updated_at, s3.2.2)], s3.2.1 ++ [SqlArg.timestamp now], s3.2.2 + 1)
    Except.ok ({ setParts := s4.1, whereId := s4.2.2 }, s4.2.1 ++ [SqlArg.int id])

/-- Method `(*postgres).UpdateSubscription`. -/
def postgres.UpdateSubscription (id : Int) (updates : UpdateSubscriptionRequest) (db : DB) :
    Except Err Subscription × DB :=
  match postgres.buildUpdate id updates db.now with
  | Except.error err => (Except.error err, db)
  | Except.ok (stmt, args) =>
    match db.runUpdate stmt args with
    | Except.error cause =>
      (Except.error (Err.wrapped "failed to update subscription" cause), db)
    | Except.ok (none, db1) => (Except.error Err.ErrNotFound, db1)
    | Except.ok (some row, db1) => (Except.ok row, db1)

/-- Method `(*postgres).DeleteSubscription`: `DELETE FROM subscriptions WHERE id = $1`; no
affected row is `ErrNotFound`. -/
def postgres.DeleteSubscription (id : Int) (db : DB) : Option Err × DB :=
  match db.fault with
  | some cause => (some (Err.wrapped "failed to delete subscription" cause), db)
  | none =>
    let rowsAffected := (db.rows.filter (fun r => r.ID == id)).length
    let db1 : DB := { db with rows := db.rows.filter (fun r => !(r.ID == id)) }
    if rowsAffected = 0 then (some Err.ErrNotFound, db1) else (none, db1)

/-- Function `NewRepository`: the store as a `repository.Repository`. -/
def postgres.NewRepository (le : DateOrder) : Repository DB :=
  { CreateSubscription := postgres.CreateSubscription,
    GetSubscriptionByID := postgres.GetSubscriptionByID,
    GetSubscriptions := postgres.GetSubscriptions,
    UpdateSubscription := postgres.UpdateSubscription,
    DeleteSubscription := postgres.DeleteSubscription,
    CalculateCost := postgres.CalculateCost le }

/-! ## HTTP handlers (`internal/transport/http/handlers.go`)

A handler takes what the request decodes to and gives the response; `none` for a body is a
body that `json.Decode` rejects. -/

/-- The message `err.Error()`. -/
def Err.Error : Err → String
  | Err.ErrNotFound => "subscription not found"
  | Err.ErrAlreadyExists => "subscription already exists"
  | Err.ErrInvalidData => "invalid data provided"
  | Err.ErrInvalidDateFormat => "invalid date format, expected MM-YYYY"
  | Err.ErrInvalidUUID => "invalid UUID format"
  | Err.ErrInvalidDateRange =>
    "invalid date range: start date must be before or equal to end date"
  | Err.ErrInvalidPrice => "price must be a positive integer"
  | Err.ErrInvalidPagination => "invalid pagination parameters"
  | Err.wrapped op cause => op ++ ": " ++ cause
  | Err.indexOutOfRange => "runtime error: index out of range"

/-- The body of a response. -/
inductive Body where
  | error (msg : String)
  | subscription (s : Subscription)
  | list (r : SubscriptionListResponse)
  | cost (r : CostCalculationResponse)
  | empty
  deriving DecidableEq, Repr

/-- A response: status code and body. -/
structure Response where
  status : Nat
  body : Body
  deriving DecidableEq, Repr

/-- Function `ResponseWithError`: status code and error body. -/
def ResponseWithError (msg : String) (code : Nat) : Response :=
  { status := code, body := Body.error msg }

/-- Method `(*handler).CreateSubscription`. -/
def handler.CreateSubscription {σ : Type} (env : Env) (repo : Repository σ)
    (body : Option CreateSubscriptionRequest) (st : σ) : Run σ Response :=
  match body with
  | none =>
    { result := ResponseWithError "invalid JSON format" 400, state := st, calls := [] }
  | some req =>
    if req.ServiceName = "" then
      { result := ResponseWithError "service_name is required" 400, state := st, calls := [] }
    else if req.UserID = "" then
      { result := ResponseWithError "user_id is required" 400, state := st, calls := [] }
    else if req.StartDate = "" then
      { result := ResponseWithError "start_date is required" 400, state := st, calls := [] }
    else if req.Price ≤ 0 then
      { result := ResponseWithError "price must be positive" 400, state := st, calls := [] }
    else
      let r := subscription.CreateSubscription env repo req st
      match r.result with
      | Except.error err =>
        if err = Err.ErrInvalidUUID ∨ err = Err.ErrInvalidDateFormat ∨
            err = Err.ErrInvalidDateRange ∨ err = Err.ErrInvalidPrice then
          { result := ResponseWithError err.Error 400, state := r.state, calls := r.calls }
        else
          { result := ResponseWithError "internal server error" 500, state := r.state,
            calls := r.calls }
      | Except.ok subscription =>
        { result := { status := 201, body := Body.subscription subscription },
          state := r.state, calls := r.calls }

/-- Method `(*handler).GetSubscription`; `idStr` is the path value `id`. -/
def handler.GetSubscription {σ : Type} (repo : Repository σ) (idStr : String) (st : σ) :
    Run σ Response :=
  let a := strconv.Atoi idStr.data
  if !a.2 then
    { result := ResponseWithError "invalid subscription ID" 400, state := st, calls := [] }
  else
    let r := subscription.GetSubscriptionByID repo a.1 st
    match r.result with
    | Except.error err =>
      if err = Err.ErrNotFound then
        { result := ResponseWithError "subscription not found" 404, state := r.state,
          calls := r.calls }
      else
        { result := ResponseWithError "internal server error" 500, state := r.state,
          calls := r.calls }
    | Except.ok subscription =>
      { result := { status := 200, body := Body.subscription subscription },
        state := r.state, calls := r.calls }

/-- The query parameters of the list request; `query.Get` gives the empty string for a
parameter that is absent. -/
structure ListQuery where
  user_id : String
  service_name : String
  limit : String
  offset : String
  deriving DecidableEq, Repr

/-- The filters that `(*handler).GetSubscriptions` reads from the query parameters. -/
def handler.parseFilters (query : ListQuery) : SubscriptionFilters :=
  let filters : SubscriptionFilters :=
    { UserID := none, ServiceName := none, Limit := 10, Offset := 0 }
  let filters1 : SubscriptionFilters :=
    if query.user_id ≠ "" then { filters with UserID := some query.user_id } else filters
  let filters2 : SubscriptionFilters :=
    if query.service_name ≠ "" then { filters1 with ServiceName := some query.service_name }
    else filters1
  let filters3 : SubscriptionFilters :=
    if query.limit ≠ "" then
      let a := strconv.Atoi query.limit.data
      if a.2 && decide (a.1 > 0) then { filters2 with Limit := a.1 } else filters2
    else filters2
  let filters4 : SubscriptionFilters :=
    if query.offset ≠ "" then
      let a := strconv.Atoi query.offset.data
      if a.2 && decide (a.1 ≥ 0) then { filters3 with Offset := a.1 } else filters3
    else filters3
  filters4

/-- Method `(*handler).GetSubscriptions`. -/
def handler.GetSubscriptions {σ : Type} (env : Env) (repo : Repository σ) (query : ListQuery)
    (st : σ) : Run σ Response :=
  let r := subscription.GetSubscriptions env repo (handler.parseFilters query) st
  match r.result with
  | Except.error err =>
    if err = Err.ErrInvalidUUID then
      { result := ResponseWithError err.Error 400, state := r.state, calls := r.calls }
    else
      { result := ResponseWithError "internal server error" 500, state := r.state,
        calls := r.calls }
  | Except.ok response =>
    { result := { status := 200, body := Body.list response }, state := r.state,
      calls := r.calls }

/-- Method `(*handler).UpdateSubscription`. -/
def handler.UpdateSubscription {σ : Type} (env : Env) (repo : Repository σ) (idStr : String)
    (body : Option UpdateSubscriptionRequest) (st : σ) : Run σ Response :=
  let a := strconv.Atoi idStr.data
  if !a.2 then
    { result := ResponseWithError "invalid subscription ID" 400, state := st, calls := [] }
  else
    match body with
    | none =>
      { result := ResponseWithError "invalid JSON format" 400, state := st, calls := [] }
    | some req =>
      if req.ServiceName = none ∧ req.Price = none ∧ req.EndDate = none then
        { result := ResponseWithError "at least one field must be provided for update" 400,
          state := st, calls := [] }
      else
        let badPrice : Bool :=
          match req.Price with
          | some price => decide (price ≤ 0)
          | none => false
        if badPrice then
          { result := ResponseWithError "price must be positive" 400, state := st,
            calls := [] }
        else
          let r := subscription.UpdateSubscription env repo a.1 req st
          match r.result with
          | Except.error err =>
            if err = Err.ErrNotFound then
              { result := ResponseWithError "subscription not found" 404, state := r.state,
                calls := r.calls }
            else if err = Err.ErrInvalidDateFormat ∨ err = Err.ErrInvalidDateRange ∨
                err = Err.ErrInvalidPrice ∨ err = Err.ErrInvalidData then
              { result := ResponseWithError err.Error 400, state := r.state,
                calls := r.calls }
            else
              { result := ResponseWithError "internal server error" 500, state := r.state,
                calls := r.calls }
          | Except.ok subscription =>
            { result := { status := 200, body := Body.subscription subscription },
              state := r.state, calls := r.calls }

/-- Method `(*handler).DeleteSubscription`. -/
def handler.DeleteSubscription {σ : Type} (repo : Repository σ) (idStr : String) (st : σ) :
    Run σ Response :=
  let a := strconv.Atoi idStr.data
  if !a.2 then
    { result := ResponseWithError "invalid subscription ID" 400, state := st, calls := [] }
  else
    let r := subscription.DeleteSubscription repo a.1 st
    match r.result with
    | some err =>
      if err = Err.ErrNotFound then
        { result := ResponseWithError "subscription not found" 404, state := r.state,
          calls := r.calls }
      else
        { result := ResponseWithError "internal server error" 500, state := r.state,
          calls := r.calls }
    | none =>
      { result := { status := 204, body := Body.empty }, state := r.state, calls := r.calls }

/-- Method `(*handler).CalculateCost`. -/
def handler.CalculateCost {σ : Type} (env : Env) (repo : Repository σ)
    (body : Option CostCalculationRequest) (st : σ) : Run σ Response :=
  match body with
  | none =>
    { result := ResponseWithError "invalid JSON format" 400, state := st, calls := [] }
  | some req =>
    if req.StartDate = "" then
      { result := ResponseWithError "start_date is required" 400, state := st, calls := [] }
    else if req.EndDate = "" then
      { result := ResponseWithError "end_date is required" 400, state := st, calls := [] }
    else
      let r := subscription.CalculateCost env repo req st
      match r.result with
      | Except.error err =>
        if err = Err.ErrInvalidUUID ∨ err = Err.ErrInvalidDateFormat ∨
            err = Err.ErrInvalidDateRange then
          { result := ResponseWithError err.Error 400, state := r.state, calls := r.calls }
        else
          { result := ResponseWithError "internal server error" 500, state := r.state,
            calls := r.calls }
      | Except.ok response =>
        { result := { status := 200, body := Body.cost response }, state := r.state,
          calls := r.calls }

/-! ## Definitions used to state the properties -/

/-- The shape the date pattern describes, position by position. -/
def DateShape (s : List Char) : Prop :=
  ∃ a b c d e f : Char, s = [a, b, '-', c, d, e, f] ∧
    ((a = '0' ∧ 49 ≤ b.toNat ∧ b.toNat ≤ 57) ∨ (a = '1' ∧ 48 ≤ b.toNat ∧ b.toNat ≤ 50)) ∧
    (48 ≤ c.toNat ∧ c.toNat ≤ 57) ∧ (48 ≤ d.toNat ∧ d.toNat ≤ 57) ∧
    (48 ≤ e.toNat ∧ e.toNat ≤ 57) ∧ (48 ≤ f.toNat ∧ f.toNat ≤ 57)

/-- Value of a decimal digit. -/
def digitVal (c : Char) : Nat := c.toNat - 48

/-- Month number written at positions 0 and 1 of a month date. -/
def monthOf (s : String) : Nat :=
  10 * digitVal (s.data.getD 0 '0') + digitVal (s.data.getD 1 '0')

/-- Year number written at positions 3 to 6 of a month date. -/
def yearOf (s : String) : Nat :=
  1000 * digitVal (s.data.getD 3 '0') + 100 * digitVal (s.data.getD 4 '0')
    + 10 * digitVal (s.data.getD 5 '0') + digitVal (s.data.getD 6 '0')

/-- The ASCII character of a decimal digit. -/
def digitChar (k : Nat) : Char := Char.ofNat (48 + k)

/-- The text `MM-YYYY` of month `m` and year `y`: two zero-padded digits, a hyphen and four
digits. -/
def formatMonthDate (m y : Nat) : String :=
  ⟨[digitChar (m / 10), digitChar (m % 10), '-', digitChar (y / 1000),
    digitChar (y / 100 % 10), digitChar (y / 10 % 10), digitChar (y % 10)]⟩

/-- Month date `a` is after month date `b`: the year is compared first, then the month. -/
def monthDateAfter (a b : String) : Bool :=
  decide (yearOf a > yearOf b ∨ (yearOf a = yearOf b ∧ monthOf a > monthOf b))

/-- Month date `a` is at or before month date `b` in the order by year, then month. -/
def monthDateLe (a b : String) : Bool :=
  decide (yearOf a < yearOf b ∨ (yearOf a = yearOf b ∧ monthOf a ≤ monthOf b))

/-- The `WHERE` clause of the cost query read condition by condition on one row: the
owner and service-name conditions when their filter is present, and the two period
conditions, in the order `le` of the date columns. -/
def costCondition (le : DateOrder) (req : CostCalculationRequest) (row : Subscription) :
    Bool :=
  (match req.UserID with
    | some userID => row.UserID == userID
    | none => true) &&
  ((match req.ServiceName with
    | some serviceName => ilike row.ServiceName ("%" ++ serviceName ++ "%")
    | none => true) &&
  (le row.StartDate req.EndDate &&
  (match row.EndDate with
    | some endDate => le req.StartDate endDate
    | none => true)))

/-- The overlap of a subscription with the period from `qStart` to `qEnd` as the data
model defines it, in the order by year, then month. -/
def overlapsPeriod (row : Subscription) (qStart qEnd : String) : Bool :=
  monthDateLe row.StartDate qEnd &&
    (match row.EndDate with
      | some endDate => monthDateLe qStart endDate
      | none => true)

/-- A hexadecimal digit. -/
def isHexDigit (c : Char) : Bool :=
  let n := c.toNat
  (decide (48 ≤ n) && decide (n ≤ 57)) || (decide (65 ≤ n) && decide (n ≤ 70))
    || (decide (97 ≤ n) && decide (n ≤ 102))

/-- A UUID parser for the examples: it accepts the form
`xxxxxxxx-xxxx-xxxx-xxxx-xxxxxxxxxxxx` of 36 characters, hexadecimal digits with hyphens
at positions 8, 13, 18 and 23. -/
def uuidParseCanonical (s : String) : Bool :=
  decide (s.data.length = 36) &&
    (List.range 36).all (fun i =>
      if i = 8 ∨ i = 13 ∨ i = 18 ∨ i = 23 then s.data.getD i ' ' == '-'
      else isHexDigit (s.data.getD i ' '))

/-- The environment of the examples: the year 2025. -/
def exampleEnv : Env := { currentYear := 2025, uuidParse := uuidParseCanonical }

/-- An owner id of the examples. -/
def exampleUser : String := "60601fee-2bf1-4721-ae6f-7636e79a0cba"

/-- A database without failure holding the given rows. -/
def tableOf (rows : List Subscription) : DB :=
  { rows := rows, nextID := 1, now := { sec := 0, nsec := 0 }, fault := none }

/-- A subscription of the examples with the given price and dates. -/
def exampleRow (price : Int) (startDate : String) (endDate : Option String) : Subscription :=
  { ID := 1, ServiceName := "Netflix", Price := price, UserID := exampleUser,
    StartDate := startDate, EndDate := endDate, CreatedAt := { sec := 0, nsec := 0 },
    UpdatedAt := { sec := 0, nsec := 0 } }

/-- A cost query without filters for the period from `startDate` to `endDate`. -/
def periodQuery (startDate endDate : String) : CostCalculationRequest :=
  { UserID := none, ServiceName := none, StartDate := startDate, EndDate := endDate }

/-- The subscription that `CreateSubscription` hands to the store: the fields of the
request with the service name trimmed; the id and the timestamps are zero values, the store
assigns them. -/
def draftOf (req : CreateSubscriptionRequest) : Subscription :=
  { ID := 0,
    ServiceName := strings.TrimSpace req.ServiceName,
    Price := req.Price,
    UserID := req.UserID,
    StartDate := req.StartDate,
    EndDate := req.EndDate,
    CreatedAt := { sec := 0, nsec := 0 },
    UpdatedAt := { sec := 0, nsec := 0 } }

/-- The limit that `GetSubscriptions` uses for a requested limit. -/
def clampLimit (limit : Int) : Int :=
  if limit ≤ 0 then 10 else if limit > 100 then 100 else limit

/-- The offset that `GetSubscriptions` uses for a requested offset. -/
def clampOffset (offset : Int) : Int :=
  if offset < 0 then 0 else offset

/-- A create request whose service name is three blanks and whose other fields are
valid. -/
def blankNameRequest : CreateSubscriptionRequest :=
  { ServiceName := "   ", Price := 100, UserID := exampleUser, StartDate := "01-2024",
    EndDate := none }

/-- The filters that `GetSubscriptions` hands to the store: limit and offset clamped, the
other filters unchanged. -/
def clampFilters (filters : SubscriptionFilters) : SubscriptionFilters :=
  { UserID := filters.UserID, ServiceName := filters.ServiceName,
    Limit := clampLimit filters.Limit, Offset := clampOffset filters.Offset }

/-- The invariant of the data model on a stored subscription: when the end date is
present, the start date is not after it in the order by year, then month. -/
def dateOrderHolds (row : Subscription) : Bool :=
  match row.EndDate with
  | some endDate => !monthDateAfter row.StartDate endDate
  | none => true


/-- The patch without fields: service name, price and end date are all absent. -/
def emptyPatch : UpdateSubscriptionRequest :=
  { ServiceName := none, Price := none, EndDate := none }

/-- The patch that `UpdateSubscription` of the service hands to the store: the service
name, when supplied, is trimmed; price and end date are those of the request. -/
def trimmedPatch (req : UpdateSubscriptionRequest) : UpdateSubscriptionRequest :=
  { ServiceName := req.ServiceName.map strings.TrimSpace, Price := req.Price,
    EndDate := req.EndDate }

/-- A row after a patch: the fields present in the patch take its values, `updated_at`
takes the time of the update, and every other field keeps its value. -/
def patchRow (req : UpdateSubscriptionRequest) (now : Time) (old : Subscription) :
    Subscription :=
  { ID := old.ID,
    ServiceName := req.ServiceName.getD old.ServiceName,
    Price := req.Price.getD old.Price,
    UserID := old.UserID,
    StartDate := old.StartDate,
    EndDate := (match req.EndDate with
      | some endDate => some endDate
      | none => old.EndDate),
    CreatedAt := old.CreatedAt,
    UpdatedAt := now }

/-- The columns a patch assigns, in the order of the statement. -/
def patchColumns (req : UpdateSubscriptionRequest) : List Column :=
  (if req.ServiceName.isSome then [Column.service_name] else []) ++
    (if req.Price.isSome then [Column.price] else []) ++
    (if req.EndDate.isSome then [Column.end_date] else []) ++ [Column.updated_at]

/-- The arguments of the update statement in the order they are appended: the values of
the fields present in the patch, the time of the update, and the id. -/
def patchArgs (id : Int) (req : UpdateSubscriptionRequest) (now : Time) : List SqlArg :=
  (match req.ServiceName with
    | some serviceName => [SqlArg.text serviceName]
    | none => []) ++
  (match req.Price with
    | some price => [SqlArg.int price]
    | none => []) ++
  (match req.EndDate with
    | some endDate => [SqlArg.text endDate]
    | none => []) ++ [SqlArg.timestamp now, SqlArg.int id]

/-- The table after the update of the rows with the given id to the patched row; the other
rows stay as they are. -/
def patchRows (id : Int) (newRow : Subscription) (rows : List Subscription) :
    List Subscription :=
  rows.map (fun r => if r.ID == id then newRow else r)

/-- The validation errors of the domain service. -/
def isValidationErr (e : Err) : Bool :=
  e == Err.ErrInvalidData || e == Err.ErrInvalidDateFormat || e == Err.ErrInvalidUUID
    || e == Err.ErrInvalidDateRange || e == Err.ErrInvalidPrice

/-- Does the text begin with the given characters. -/
def startsWithChars : List Char → List Char → Bool
  | [], _ => true
  | _ :: _, [] => false
  | a :: as, b :: bs => a == b && startsWithChars as bs

/-- The service-name filter of the data model: the text contains the filter as a
substring, without regard to the case of ASCII letters. -/
def containsIgnoreCase (text sub : String) : Bool :=
  anyEnding (fun t => startsWithChars (sub.data.map Char.toLower) t)
    (text.data.map Char.toLower)

/-- A row matches a cost query in the sense of the data model: the owner is the one of the
filter, the service name contains the one of the filter, and the subscription overlaps the
period in the order by year, then month. -/
def matchesQuery (req : CostCalculationRequest) (row : Subscription) : Bool :=
  (match req.UserID with
    | some userID => row.UserID == userID
    | none => true) &&
  ((match req.ServiceName with
    | some serviceName => containsIgnoreCase row.ServiceName serviceName
    | none => true) &&
  overlapsPeriod row req.StartDate req.EndDate)

/-! ## Lemmas on the date pattern -/

theorem search_not_at_start (s : List Char) : datePattern.search false s = false := by
  induction s with
  | nil => simp [Regex.search, datePattern, Regex.matchFrom]
  | cons c cs ih =>
    rw [Regex.search, ih]
    simp [datePattern, Regex.matchFrom]

theorem matchFrom_datePattern (s : List Char) :
    datePattern.matchFrom true s (fun _ _ => true) = true ↔ DateShape s := by
  unfold DateShape
  constructor
  · intro h
    rcases s with _ | ⟨a, _ | ⟨b, _ | ⟨c0, _ | ⟨c, _ | ⟨d, _ | ⟨e, _ | ⟨f, _ | ⟨g, t⟩⟩⟩⟩⟩⟩⟩⟩ <;>
      simp [datePattern, Regex.matchFrom, Regex.rep] at h
    refine ⟨a, b, c, d, e, f, ?_, ?_⟩
    · rcases h with h | h <;> simp [h.2.2.1]
    · rcases h with ⟨h0, h1, -, h2⟩ | ⟨h0, h1, -, h2⟩
      · exact ⟨Or.inl ⟨h0, h1⟩, h2.1, h2.2.1, h2.2.2.1, h2.2.2.2⟩
      · exact ⟨Or.inr ⟨h0, h1⟩, h2.1, h2.2.1, h2.2.2.1, h2.2.2.2⟩
  · rintro ⟨a, b, c, d, e, f, rfl, h⟩
    simp [datePattern, Regex.matchFrom, Regex.rep]
    rcases h with ⟨⟨h0, h1⟩ | ⟨h0, h1⟩, h2⟩
    · exact Or.inl ⟨h0, h1, h2⟩
    · exact Or.inr ⟨h0, h1, h2⟩

theorem matchString_datePattern (s : String) :
    regexp.MatchString datePattern s = true ↔ DateShape s.data := by
  unfold regexp.MatchString
  rw [← matchFrom_datePattern]
  cases hs : s.data with
  | nil => simp [Regex.search]
  | cons c cs => simp [Regex.search, search_not_at_start]

theorem ne_dash_of_digit {c : Char} (h : 48 ≤ c.toNat) : c ≠ '-' := by
  intro hc
  rw [hc] at h
  revert h
  decide

theorem ne_plus_of_digit {c : Char} (h : 48 ≤ c.toNat) : c ≠ '+' := by
  intro hc
  rw [hc] at h
  revert h
  decide

theorem split_dateShape (a b c d e f : Char) (ha : 48 ≤ a.toNat) (hb : 48 ≤ b.toNat)
    (hc : 48 ≤ c.toNat) (hd : 48 ≤ d.toNat) (he : 48 ≤ e.toNat) (hf : 48 ≤ f.toNat) :
    strings.Split [a, b, '-', c, d, e, f] '-' = [[a, b], [c, d, e, f]] := by
  simp [strings.Split, ne_dash_of_digit ha, ne_dash_of_digit hb, ne_dash_of_digit hc,
    ne_dash_of_digit hd, ne_dash_of_digit he, ne_dash_of_digit hf]

theorem atoi_two (a b : Char) (ha : 48 ≤ a.toNat ∧ a.toNat ≤ 57)
    (hb : 48 ≤ b.toNat ∧ b.toNat ≤ 57) :
    strconv.Atoi [a, b] = (((10 * digitVal a + digitVal b : Nat) : Int), true) := by
  have h1 := ne_dash_of_digit ha.1
  have h2 := ne_plus_of_digit ha.1
  simp [strconv.Atoi, h1, h2, isDigit, ha, hb, digitVal, maxInt, minInt]
  split_ifs with g1 g2
  · omega
  · omega
  · simp only [Prod.mk.injEq, and_true]
    omega

theorem atoi_four (c d e f : Char) (hc : 48 ≤ c.toNat ∧ c.toNat ≤ 57)
    (hd : 48 ≤ d.toNat ∧ d.toNat ≤ 57) (he : 48 ≤ e.toNat ∧ e.toNat ≤ 57)
    (hf : 48 ≤ f.toNat ∧ f.toNat ≤ 57) :
    strconv.Atoi [c, d, e, f] =
      (((1000 * digitVal c + 100 * digitVal d + 10 * digitVal e + digitVal f : Nat) : Int),
        true) := by
  have h1 := ne_dash_of_digit hc.1
  have h2 := ne_plus_of_digit hc.1
  simp [strconv.Atoi, h1, h2, isDigit, hc, hd, he, hf, digitVal, maxInt, minInt]
  split_ifs with g1 g2
  · omega
  · omega
  · simp only [Prod.mk.injEq, and_true]
    omega

theorem dateShape_bounds {l : List Char} (h : DateShape l) :
    ∃ a b c d e f : Char, l = [a, b, '-', c, d, e, f] ∧
      (48 ≤ a.toNat ∧ a.toNat ≤ 57) ∧ (48 ≤ b.toNat ∧ b.toNat ≤ 57) ∧
      (48 ≤ c.toNat ∧ c.toNat ≤ 57) ∧ (48 ≤ d.toNat ∧ d.toNat ≤ 57) ∧
      (48 ≤ e.toNat ∧ e.toNat ≤ 57) ∧ (48 ≤ f.toNat ∧ f.toNat ≤ 57) ∧
      1 ≤ 10 * digitVal a + digitVal b ∧ 10 * digitVal a + digitVal b ≤ 12 := by
  obtain ⟨a, b, c, d, e, f, rfl, hab, hc, hd, he, hf⟩ := h
  refine ⟨a, b, c, d, e, f, rfl, ?_, ?_, hc, hd, he, hf, ?_, ?_⟩ <;>
    rcases hab with ⟨rfl, h1, h2⟩ | ⟨rfl, h1, h2⟩ <;>
    first
      | omega
      | decide
      | (simp [digitVal]; omega)

theorem validateDateFormat_of_shape (Y : Int) (s : String) (h : DateShape s.data) :
    validateDateFormat Y s =
      if (yearOf s : Int) < 2000 ∨ (yearOf s : Int) > Y + 10
      then some Err.ErrInvalidDateFormat else none := by
  have hm := (matchString_datePattern s).2 h
  obtain ⟨a, b, c, d, e, f, hs, ha, hb, hc, hd, he, hf, hm1, hm2⟩ := dateShape_bounds h
  simp only [validateDateFormat, hm, hs, split_dateShape a b c d e f ha.1 hb.1 hc.1 hd.1 he.1 hf.1,
    atoi_two a b ha hb, atoi_four c d e f hc hd he hf, yearOf]
  simp
  intro hx
  omega

theorem validateDateFormat_of_not_shape (Y : Int) (s : String) (h : ¬ DateShape s.data) :
    validateDateFormat Y s = some Err.ErrInvalidDateFormat := by
  have hm : regexp.MatchString datePattern s = false := by
    rw [← Bool.not_eq_true, matchString_datePattern]
    exact h
  simp [validateDateFormat, hm]

theorem toNat_digitChar (k : Nat) (h : k ≤ 9) : (digitChar k).toNat = 48 + k := by
  interval_cases k <;> rfl

theorem digitVal_digitChar (k : Nat) (h : k ≤ 9) : digitVal (digitChar k) = k := by
  simp [digitVal, toNat_digitChar k h]

theorem digitChar_digitVal (c : Char) (h : 48 ≤ c.toNat ∧ c.toNat ≤ 57) :
    digitChar (digitVal c) = c := by
  unfold digitChar digitVal
  have e : 48 + (c.toNat - 48) = c.toNat := by omega
  rw [e, Char.ofNat_toNat]

theorem formatMonthDate_digits (a b c d e f : Char)
    (ha : 48 ≤ a.toNat ∧ a.toNat ≤ 57) (hb : 48 ≤ b.toNat ∧ b.toNat ≤ 57)
    (hc : 48 ≤ c.toNat ∧ c.toNat ≤ 57) (hd : 48 ≤ d.toNat ∧ d.toNat ≤ 57)
    (he : 48 ≤ e.toNat ∧ e.toNat ≤ 57) (hf : 48 ≤ f.toNat ∧ f.toNat ≤ 57) :
    formatMonthDate (10 * digitVal a + digitVal b)
      (1000 * digitVal c + 100 * digitVal d + 10 * digitVal e + digitVal f) =
      ⟨[a, b, '-', c, d, e, f]⟩ := by
  have e1 : (10 * digitVal a + digitVal b) / 10 = digitVal a := by unfold digitVal; omega
  have e2 : (10 * digitVal a + digitVal b) % 10 = digitVal b := by unfold digitVal; omega
  have e3 : (1000 * digitVal c + 100 * digitVal d + 10 * digitVal e + digitVal f) / 1000
      = digitVal c := by unfold digitVal; omega
  have e4 : (1000 * digitVal c + 100 * digitVal d + 10 * digitVal e + digitVal f) / 100 % 10
      = digitVal d := by unfold digitVal; omega
  have e5 : (1000 * digitVal c + 100 * digitVal d + 10 * digitVal e + digitVal f) / 10 % 10
      = digitVal e := by unfold digitVal; omega
  have e6 : (1000 * digitVal c + 100 * digitVal d + 10 * digitVal e + digitVal f) % 10
      = digitVal f := by unfold digitVal; omega
  unfold formatMonthDate
  rw [e1, e2, e3, e4, e5, e6, digitChar_digitVal a ha, digitChar_digitVal b hb,
    digitChar_digitVal c hc, digitChar_digitVal d hd, digitChar_digitVal e he,
    digitChar_digitVal f hf]

theorem dateShape_formatMonthDate (m y : Nat) (h1 : 1 ≤ m) (h2 : m ≤ 12) (hy : y ≤ 9999) :
    DateShape (formatMonthDate m y).data := by
  have k1 : y / 1000 ≤ 9 := by omega
  have k2 : y / 100 % 10 ≤ 9 := by omega
  have k3 : y / 10 % 10 ≤ 9 := by omega
  have k4 : y % 10 ≤ 9 := by omega
  refine ⟨_, _, _, _, _, _, rfl, ?_, ?_, ?_, ?_, ?_⟩
  · interval_cases m <;> decide
  · rw [toNat_digitChar _ k1]; omega
  · rw [toNat_digitChar _ k2]; omega
  · rw [toNat_digitChar _ k3]; omega
  · rw [toNat_digitChar _ k4]; omega

theorem yearOf_formatMonthDate (m y : Nat) (hy : y ≤ 9999) :
    yearOf (formatMonthDate m y) = y := by
  have k1 : y / 1000 ≤ 9 := by omega
  have k2 : y / 100 % 10 ≤ 9 := by omega
  have k3 : y / 10 % 10 ≤ 9 := by omega
  have k4 : y % 10 ≤ 9 := by omega
  simp only [yearOf, formatMonthDate, List.getD_cons_zero, List.getD_cons_succ,
    digitVal_digitChar _ k1, digitVal_digitChar _ k2, digitVal_digitChar _ k3,
    digitVal_digitChar _ k4]
  omega

theorem monthOf_formatMonthDate (m y : Nat) (hm : m ≤ 99) :
    monthOf (formatMonthDate m y) = m := by
  have k1 : m / 10 ≤ 9 := by omega
  have k2 : m % 10 ≤ 9 := by omega
  simp only [monthOf, formatMonthDate, List.getD_cons_zero, List.getD_cons_succ,
    digitVal_digitChar _ k1, digitVal_digitChar _ k2]
  omega

theorem validateDateFormat_eq_none_iff (Y : Int) (s : String) :
    validateDateFormat Y s = none ↔
      ∃ m y : Nat, 1 ≤ m ∧ m ≤ 12 ∧ 2000 ≤ y ∧ y ≤ 9999 ∧ (y : Int) ≤ Y + 10 ∧
        s = formatMonthDate m y := by
  constructor
  · intro h
    by_cases hs : DateShape s.data
    · rw [validateDateFormat_of_shape Y s hs] at h
      obtain ⟨a, b, c, d, e, f, hd0, ha, hb, hc, hd, he, hf, hm1, hm2⟩ := dateShape_bounds hs
      have hy : ¬ ((yearOf s : Int) < 2000 ∨ (yearOf s : Int) > Y + 10) := by
        intro hc0
        rw [if_pos hc0] at h
        exact absurd h (by simp)
      have hyv : yearOf s
          = 1000 * digitVal c + 100 * digitVal d + 10 * digitVal e + digitVal f := by
        simp [yearOf, hd0]
      refine ⟨10 * digitVal a + digitVal b, yearOf s, hm1, hm2, by omega, ?_, by omega, ?_⟩
      · rw [hyv]; unfold digitVal; omega
      · rw [hyv, formatMonthDate_digits a b c d e f ha hb hc hd he hf, ← hd0]
    · rw [validateDateFormat_of_not_shape Y s hs] at h
      exact absurd h (by simp)
  · rintro ⟨m, y, h1, h2, h3, h4, h5, rfl⟩
    rw [validateDateFormat_of_shape Y _ (dateShape_formatMonthDate m y h1 h2 h4),
      yearOf_formatMonthDate m y h4]
    have : ¬ ((y : Int) < 2000 ∨ (y : Int) > Y + 10) := by omega
    rw [if_neg this]

theorem validateDateFormat_cases (Y : Int) (s : String) :
    validateDateFormat Y s = none ∨ validateDateFormat Y s = some Err.ErrInvalidDateFormat := by
  by_cases hs : DateShape s.data
  · rw [validateDateFormat_of_shape Y s hs]
    split_ifs
    · exact Or.inr rfl
    · exact Or.inl rfl
  · exact Or.inr (validateDateFormat_of_not_shape Y s hs)

/-! ## Lemmas on `time.Date` -/

theorem daysSinceEpoch_lt (y1 y2 : Int) (h : y1 < y2) :
    daysSinceEpoch y1 + 335 < daysSinceEpoch y2 := by
  unfold daysSinceEpoch
  simp only
  omega

theorem monthOffset_bounds (L : Bool) (m : Int) (h0 : 0 ≤ m) (h1 : m ≤ 11) :
    0 ≤ daysBefore m + (if L && decide (2 ≤ m) then 1 else 0) ∧
      daysBefore m + (if L && decide (2 ≤ m) then 1 else 0) ≤ 335 := by
  interval_cases m <;> cases L <;> simp [daysBefore]

theorem monthOffset_lt (L : Bool) (m1 m2 : Int) (h0 : 0 ≤ m1) (h12 : m1 < m2) (h2 : m2 ≤ 11) :
    daysBefore m1 + (if L && decide (2 ≤ m1) then 1 else 0) <
      daysBefore m2 + (if L && decide (2 ≤ m2) then 1 else 0) := by
  have h3 : m1 ≤ 10 := by omega
  interval_cases m1 <;> interval_cases m2 <;> cases L <;> simp [daysBefore]

/-- The first day of a month, as `time.Date` computes it for a month in 1..12. -/
theorem date_sec (y m : Int) (h1 : 1 ≤ m) (h2 : m ≤ 12) :
    time.Date y m 1 0 0 0 0 =
      { sec := (daysSinceEpoch y + (daysBefore (m - 1)
          + (if isLeap y && decide (2 ≤ m - 1) then 1 else 0))) * 86400,
        nsec := 0 } := by
  have e1 : (m - 1) % 12 = m - 1 := by omega
  have e2 : (m - 1) / 12 = 0 := by omega
  simp only [time.Date, e1, e2]
  simp
  ring

theorem date_after_iff (y1 m1 y2 m2 : Int) (h1 : 1 ≤ m1) (h2 : m1 ≤ 12) (h3 : 1 ≤ m2)
    (h4 : m2 ≤ 12) :
    (time.Date y1 m1 1 0 0 0 0).After (time.Date y2 m2 1 0 0 0 0) = true ↔
      (y1 > y2 ∨ (y1 = y2 ∧ m1 > m2)) := by
  rw [date_sec y1 m1 h1 h2, date_sec y2 m2 h3 h4]
  have b1 := monthOffset_bounds (isLeap y1) (m1 - 1) (by omega) (by omega)
  have b2 := monthOffset_bounds (isLeap y2) (m2 - 1) (by omega) (by omega)
  simp only [Time.After]
  simp only [gt_iff_lt, lt_self_iff_false, decide_False, Bool.and_false, Bool.or_false,
    decide_eq_true_eq]
  rcases lt_trichotomy y1 y2 with hy | hy | hy
  · have := daysSinceEpoch_lt y1 y2 hy
    constructor
    · intro h; omega
    · intro h; omega
  · subst hy
    rcases lt_trichotomy m1 m2 with hm | hm | hm
    · have := monthOffset_lt (isLeap y1) (m1 - 1) (m2 - 1) (by omega) (by omega) (by omega)
      constructor
      · intro h; omega
      · intro h; omega
    · subst hm
      constructor
      · intro h; omega
      · intro h; omega
    · have := monthOffset_lt (isLeap y1) (m2 - 1) (m1 - 1) (by omega) (by omega) (by omega)
      constructor
      · intro h; omega
      · intro h; omega
  · have := daysSinceEpoch_lt y2 y1 hy
    constructor
    · intro h; omega
    · intro h; omega

/-! ## Lemmas on `validateDateRange` -/

theorem dateShape_of_valid {Y : Int} {s : String} (h : validateDateFormat Y s = none) :
    DateShape s.data := by
  by_contra hs
  rw [validateDateFormat_of_not_shape Y s hs] at h
  exact absurd h (by simp)

theorem validateDateRange_of_valid (Y : Int) (a b : String)
    (ha : validateDateFormat Y a = none) (hb : validateDateFormat Y b = none) :
    validateDateRange Y a b =
      if monthDateAfter a b = true then some Err.ErrInvalidDateRange else none := by
  obtain ⟨a0, a1, a3, a4, a5, a6, hda, h0, h1, h3, h4, h5, h6, hm1, hm2⟩ :=
    dateShape_bounds (dateShape_of_valid ha)
  obtain ⟨b0, b1, b3, b4, b5, b6, hdb, g0, g1, g3, g4, g5, g6, gm1, gm2⟩ :=
    dateShape_bounds (dateShape_of_valid hb)
  have key := date_after_iff
    ((1000 * digitVal a3 + 100 * digitVal a4 + 10 * digitVal a5 + digitVal a6 : Nat) : Int)
    ((10 * digitVal a0 + digitVal a1 : Nat) : Int)
    ((1000 * digitVal b3 + 100 * digitVal b4 + 10 * digitVal b5 + digitVal b6 : Nat) : Int)
    ((10 * digitVal b0 + digitVal b1 : Nat) : Int)
    (by omega) (by omega) (by omega) (by omega)
  have hspec : monthDateAfter a b = true ↔
      (((1000 * digitVal a3 + 100 * digitVal a4 + 10 * digitVal a5 + digitVal a6 : Nat) : Int)
        > ((1000 * digitVal b3 + 100 * digitVal b4 + 10 * digitVal b5 + digitVal b6 : Nat) : Int)
      ∨ (((1000 * digitVal a3 + 100 * digitVal a4 + 10 * digitVal a5 + digitVal a6 : Nat) : Int)
        = ((1000 * digitVal b3 + 100 * digitVal b4 + 10 * digitVal b5 + digitVal b6 : Nat) : Int)
        ∧ ((10 * digitVal a0 + digitVal a1 : Nat) : Int)
          > ((10 * digitVal b0 + digitVal b1 : Nat) : Int))) := by
    simp only [monthDateAfter, yearOf, monthOf, hda, hdb, List.getD_cons_zero,
      List.getD_cons_succ, decide_eq_true_eq]
    omega
  simp only [validateDateRange, ha, hb, hda, hdb,
    split_dateShape a0 a1 a3 a4 a5 a6 h0.1 h1.1 h3.1 h4.1 h5.1 h6.1,
    split_dateShape b0 b1 b3 b4 b5 b6 g0.1 g1.1 g3.1 g4.1 g5.1 g6.1,
    atoi_two a0 a1 h0 h1, atoi_four a3 a4 a5 a6 h3 h4 h5 h6,
    atoi_two b0 b1 g0 g1, atoi_four b3 b4 b5 b6 g3 g4 g5 g6]
  by_cases hx : monthDateAfter a b = true
  · rw [if_pos hx, if_pos (key.2 (hspec.1 hx))]
  · rw [if_neg hx, if_neg (fun h => hx (hspec.2 (key.1 h)))]

/-! ## Lemmas on the cost query -/

theorem bindOk_two (a b : SqlArg) : bindOk [1, 2] [a, b] = true := by rfl

theorem bindOk_three (a b c : SqlArg) : bindOk [1, 2, 3] [a, b, c] = true := by rfl

theorem bindOk_four (a b c d : SqlArg) : bindOk [1, 2, 3, 4] [a, b, c, d] = true := by rfl

theorem selectRows_eq_filter (le : DateOrder) (args : List SqlArg) (conds : List Cond)
    (p : Subscription → Bool) (h : ∀ row, whereClause le args row conds = some (p row))
    (rows : List Subscription) : selectRows le args conds rows = some (rows.filter p) := by
  induction rows with
  | nil => rfl
  | cons r rs ih =>
    simp only [selectRows, h r, ih, List.filter_cons]

theorem scan_coalesce_sum (l : List Int) : scanInt (coalesce (sqlSum l) 0) = Except.ok l.sum := by
  cases l with
  | nil => rfl
  | cons x xs => simp [sqlSum, coalesce, scanInt]

/-- What the cost query computes on a database without a failure: the sum of the prices of
the rows that satisfy its `WHERE` clause. -/
theorem calculateCost_eq_sum (le : DateOrder) (req : CostCalculationRequest) (db : DB)
    (hf : db.fault = none) :
    postgres.CalculateCost le req db =
      (Except.ok (((db.rows.filter (costCondition le req)).map (fun r => r.Price)).sum), db) := by
  rcases req with ⟨u, n, s, e⟩
  rcases u with _ | u <;> rcases n with _ | n
  · have h : ∀ row, whereClause le [SqlArg.text e, SqlArg.text s] row
        [Cond.oneEqOne, Cond.startDateLe 1, Cond.endDateNullOrGe 2]
        = some (costCondition le { UserID := none, ServiceName := none, StartDate := s, EndDate := e } row) := by
      intro row
      cases hr : row.EndDate <;> simp [whereClause, Cond.eval, param, costCondition, hr]
    simp [postgres.CalculateCost, DB.getTotalCost, hf, bindOk_two, Cond.placeholder,
      selectRows_eq_filter le _ _ _ h, scan_coalesce_sum]
  · have h : ∀ row, whereClause le
        [SqlArg.text ("%" ++ n ++ "%"), SqlArg.text e, SqlArg.text s] row
        [Cond.oneEqOne, Cond.serviceNameILike 1, Cond.startDateLe 2, Cond.endDateNullOrGe 3]
        = some (costCondition le { UserID := none, ServiceName := some n, StartDate := s, EndDate := e } row) := by
      intro row
      cases hr : row.EndDate <;> simp [whereClause, Cond.eval, param, costCondition, hr]
    simp [postgres.CalculateCost, DB.getTotalCost, hf, bindOk_three, Cond.placeholder,
      selectRows_eq_filter le _ _ _ h, scan_coalesce_sum]
  · have h : ∀ row, whereClause le [SqlArg.text u, SqlArg.text e, SqlArg.text s] row
        [Cond.oneEqOne, Cond.userIdEq 1, Cond.startDateLe 2, Cond.endDateNullOrGe 3]
        = some (costCondition le { UserID := some u, ServiceName := none, StartDate := s, EndDate := e } row) := by
      intro row
      cases hr : row.EndDate <;> simp [whereClause, Cond.eval, param, costCondition, hr]
    simp [postgres.CalculateCost, DB.getTotalCost, hf, bindOk_three, Cond.placeholder,
      selectRows_eq_filter le _ _ _ h, scan_coalesce_sum]
  · have h : ∀ row, whereClause le
        [SqlArg.text u, SqlArg.text ("%" ++ n ++ "%"), SqlArg.text e, SqlArg.text s] row
        [Cond.oneEqOne, Cond.userIdEq 1, Cond.serviceNameILike 2, Cond.startDateLe 3,
          Cond.endDateNullOrGe 4]
        = some (costCondition le { UserID := some u, ServiceName := some n, StartDate := s, EndDate := e } row) := by
      intro row
      cases hr : row.EndDate <;> simp [whereClause, Cond.eval, param, costCondition, hr]
    simp [postgres.CalculateCost, DB.getTotalCost, hf, bindOk_four, Cond.placeholder,
      selectRows_eq_filter le _ _ _ h, scan_coalesce_sum]

theorem textLe_jan2023 (q : String) (hs : DateShape q.data)
    (h : monthDateLe "01-2023" q = true) : textLe "01-2023" q = true := by
  obtain ⟨a, b, c, d, e, f, hq, hab, hc, hd, he, hf⟩ := hs
  have hy : yearOf "01-2023" = 2023 := by decide
  have hm : monthOf "01-2023" = 1 := by decide
  simp only [monthDateLe, hy, hm, yearOf, monthOf, hq, List.getD_cons_zero,
    List.getD_cons_succ, decide_eq_true_eq, digitVal] at h
  have hd0 : ("01-2023" : String).data = ['0', '1', '-', '2', '0', '2', '3'] := rfl
  simp only [textLe, hd0, hq, textLeChars]
  rcases hab with ⟨rfl, h1, h2⟩ | ⟨rfl, h1, h2⟩
  · simp at h
    simp
    omega
  · simp

/-! ## Lemmas on the service -/

theorem validateDateFormat_ne_none {Y : Int} {s : String} (h : validateDateFormat Y s ≠ none) :
    validateDateFormat Y s = some Err.ErrInvalidDateFormat := by
  rcases validateDateFormat_cases Y s with h1 | h1
  · exact absurd h1 h
  · exact h1

/-- The three outcomes of `validateDateRange`, in the order the code checks them. -/
theorem validateDateRange_eq (Y : Int) (a b : String) :
    validateDateRange Y a b =
      if validateDateFormat Y a ≠ none ∨ validateDateFormat Y b ≠ none
      then some Err.ErrInvalidDateFormat
      else if monthDateAfter a b = true then some Err.ErrInvalidDateRange else none := by
  by_cases ha : validateDateFormat Y a = none
  · by_cases hb : validateDateFormat Y b = none
    · rw [validateDateRange_of_valid Y a b ha hb]
      simp [ha, hb]
    · have hb1 := validateDateFormat_ne_none hb
      simp [validateDateRange, ha, hb1]
  · have ha1 := validateDateFormat_ne_none ha
    simp [validateDateRange, ha1]

theorem validateDateRange_none_iff (Y : Int) (a b : String) :
    validateDateRange Y a b = none ↔
      validateDateFormat Y a = none ∧ validateDateFormat Y b = none ∧
        monthDateAfter a b = false := by
  rw [validateDateRange_eq]
  by_cases ha : validateDateFormat Y a = none <;> by_cases hb : validateDateFormat Y b = none <;>
    by_cases hx : monthDateAfter a b = true <;> simp [ha, hb, hx]

theorem validateDateRange_error (Y : Int) (a b : String) (e : Err)
    (h : validateDateRange Y a b = some e) :
    e = Err.ErrInvalidDateFormat ∨ e = Err.ErrInvalidDateRange := by
  rw [validateDateRange_eq] at h
  split_ifs at h with h1 h2
  · left; exact (Option.some.inj h).symm
  · right; exact (Option.some.inj h).symm

/-! ## Lemmas on `strings.TrimSpace` -/

theorem head_dropWhile_isSpace (l : List Char) (c : Char)
    (h : (l.dropWhile isSpace).head? = some c) : isSpace c = false := by
  have := List.head?_dropWhile_not isSpace l
  rw [h] at this
  exact this

theorem trimSpace_last (s : String) (c : Char)
    (h : (strings.TrimSpace s).data.getLast? = some c) : isSpace c = false := by
  simp only [strings.TrimSpace, List.getLast?_reverse] at h
  exact head_dropWhile_isSpace _ c h

theorem trimSpace_first (s : String) (c : Char)
    (h : (strings.TrimSpace s).data.head? = some c) : isSpace c = false := by
  simp only [strings.TrimSpace] at h
  have hsuf : ((s.data.dropWhile isSpace).reverse.dropWhile isSpace)
      <:+ (s.data.dropWhile isSpace).reverse := List.dropWhile_suffix isSpace
  have hpre : ((s.data.dropWhile isSpace).reverse.dropWhile isSpace).reverse
      <+: s.data.dropWhile isSpace := by
    have := List.reverse_prefix.2 hsuf
    simpa using this
  obtain ⟨t, ht⟩ := hpre
  apply head_dropWhile_isSpace s.data c
  rw [← ht]
  cases hr : ((s.data.dropWhile isSpace).reverse.dropWhile isSpace).reverse with
  | nil => rw [hr] at h; simp at h
  | cons x xs =>
    rw [hr] at h
    simp only [List.head?_cons, Option.some.injEq] at h
    simp [h]

/-! ## Lemmas on the handlers -/

theorem handler_createSubscription_calls {σ : Type} (env : Env) (repo : Repository σ)
    (req : CreateSubscriptionRequest) (st : σ) :
    (handler.CreateSubscription env repo (some req) st).calls = [] ∨
      (handler.CreateSubscription env repo (some req) st).calls =
        (subscription.CreateSubscription env repo req st).calls := by
  unfold handler.CreateSubscription
  simp only
  split_ifs with h1 h2 h3 h4
  · exact Or.inl rfl
  · exact Or.inl rfl
  · exact Or.inl rfl
  · exact Or.inl rfl
  · right
    cases hr : (subscription.CreateSubscription env repo req st).result with
    | error e =>
      simp only
      split_ifs <;> rfl
    | ok v => rfl

theorem handler_createSubscription_accepts {σ : Type} (env : Env) (repo : Repository σ)
    (req : CreateSubscriptionRequest) (st : σ) (h1 : req.ServiceName ≠ "")
    (h2 : req.UserID ≠ "") (h3 : req.StartDate ≠ "") (h4 : 0 < req.Price) :
    (handler.CreateSubscription env repo (some req) st).calls =
      (subscription.CreateSubscription env repo req st).calls := by
  have h5 : ¬ req.Price ≤ 0 := by omega
  unfold handler.CreateSubscription
  simp only [h1, h2, h3, h5, if_false]
  cases hr : (subscription.CreateSubscription env repo req st).result with
  | error e =>
    simp only
    split_ifs <;> rfl
  | ok v => rfl

theorem service_createSubscription_calls {σ : Type} (env : Env) (repo : Repository σ)
    (req : CreateSubscriptionRequest) (st : σ) :
    (subscription.CreateSubscription env repo req st).calls = [] ∨
      (subscription.CreateSubscription env repo req st).calls =
        [Call.CreateSubscription (draftOf req)] := by
  cases hu : validateUUID env req.UserID with
  | some e0 => simp [subscription.CreateSubscription, hu]
  | none =>
    cases hs : validateDateFormat env.currentYear req.StartDate with
    | some e0 => simp [subscription.CreateSubscription, hu, hs]
    | none =>
      cases hr : (match req.EndDate with
        | some endDate => validateDateRange env.currentYear req.StartDate endDate
        | none => none) with
      | some e0 => simp [subscription.CreateSubscription, hu, hs, hr]
      | none =>
        by_cases hp : req.Price ≤ 0
        · simp [subscription.CreateSubscription, hu, hs, hr, hp]
        · simp [subscription.CreateSubscription, hu, hs, hr, hp, draftOf]

/-- The three assignments of `GetSubscriptions` to limit and offset give the clamped
filters. -/
theorem service_getSubscriptions_filters (filters : SubscriptionFilters) :
    (if (if (if filters.Limit ≤ 0 then { filters with Limit := 10 } else filters).Limit > 100
          then { (if filters.Limit ≤ 0 then { filters with Limit := 10 } else filters) with
                  Limit := 100 }
          else (if filters.Limit ≤ 0 then { filters with Limit := 10 } else filters)).Offset < 0
      then { (if (if filters.Limit ≤ 0 then { filters with Limit := 10 } else filters).Limit > 100
          then { (if filters.Limit ≤ 0 then { filters with Limit := 10 } else filters) with
                  Limit := 100 }
          else (if filters.Limit ≤ 0 then { filters with Limit := 10 } else filters)) with
              Offset := 0 }
      else (if (if filters.Limit ≤ 0 then { filters with Limit := 10 } else filters).Limit > 100
          then { (if filters.Limit ≤ 0 then { filters with Limit := 10 } else filters) with
                  Limit := 100 }
          else (if filters.Limit ≤ 0 then { filters with Limit := 10 } else filters)))
      = clampFilters filters := by
  rcases filters with ⟨u, n, l, o⟩
  unfold clampFilters clampLimit clampOffset
  by_cases h1 : l ≤ 0 <;> by_cases h2 : l > 100 <;> by_cases h3 : o < 0 <;>
    simp [h1, h2, h3]

theorem service_getSubscriptions_calls {σ : Type} (env : Env) (repo : Repository σ)
    (filters : SubscriptionFilters) (st : σ) :
    (subscription.GetSubscriptions env repo filters st).calls = [] ∨
      (subscription.GetSubscriptions env repo filters st).calls =
        [Call.GetSubscriptions (clampFilters filters)] := by
  unfold subscription.GetSubscriptions
  simp only [service_getSubscriptions_filters]
  cases hu : (match (clampFilters filters).UserID with
      | some userID => validateUUID env userID
      | none => none) with
  | some e0 => exact Or.inl rfl
  | none =>
    right
    cases hr : (repo.GetSubscriptions (clampFilters filters) st).1 <;> rfl

theorem service_getSubscriptions_ok {σ : Type} (env : Env) (repo : Repository σ)
    (filters : SubscriptionFilters) (st : σ) (resp : SubscriptionListResponse)
    (h : (subscription.GetSubscriptions env repo filters st).result = Except.ok resp) :
    resp.Limit = clampLimit filters.Limit ∧ resp.Offset = clampOffset filters.Offset ∧
      (repo.GetSubscriptions (clampFilters filters) st).1 = Except.ok resp.Subscriptions ∧
      resp.Total = resp.Subscriptions.length ∧
      (subscription.GetSubscriptions env repo filters st).calls =
        [Call.GetSubscriptions (clampFilters filters)] := by
  unfold subscription.GetSubscriptions at h ⊢
  simp only [service_getSubscriptions_filters] at h ⊢
  cases hu : (match (clampFilters filters).UserID with
      | some userID => validateUUID env userID
      | none => none) with
  | some e0 =>
    rw [hu] at h
    simp at h
  | none =>
    rw [hu] at h
    simp only at h ⊢
    cases hr : (repo.GetSubscriptions (clampFilters filters) st).1 with
    | error e0 =>
      rw [hr] at h
      simp at h
    | ok rows =>
      rw [hr] at h
      simp only [Except.ok.injEq] at h
      subst h
      exact ⟨rfl, rfl, rfl, rfl, rfl⟩

theorem handler_getSubscriptions_calls {σ : Type} (env : Env) (repo : Repository σ)
    (query : ListQuery) (st : σ) :
    (handler.GetSubscriptions env repo query st).calls =
      (subscription.GetSubscriptions env repo (handler.parseFilters query) st).calls := by
  unfold handler.GetSubscriptions
  simp only
  cases hr : (subscription.GetSubscriptions env repo (handler.parseFilters query) st).result with
  | error e =>
    simp only
    split_ifs <;> rfl
  | ok v => rfl

/-! ## Lemmas on the writes of the store -/

theorem dateOrderHolds_iff (row : Subscription) :
    dateOrderHolds row = true ↔
      ∀ e, row.EndDate = some e → monthDateAfter row.StartDate e = false := by
  unfold dateOrderHolds
  cases row.EndDate with
  | none => simp
  | some e0 => simp

theorem bindOk_five (a b c d e : SqlArg) : bindOk [1, 2, 3, 4, 5] [a, b, c, d, e] = true := by
  rfl

/-- The update statement leaves the table as it is, or replaces the rows of the id by the
first of them with the patched fields; the start date is never assigned. -/
theorem postgres_update_state (id : Int) (req : UpdateSubscriptionRequest) (db : DB) :
    (postgres.UpdateSubscription id req db).2 = db ∨
      ∃ old row1, db.rows.find? (fun r => r.ID == id) = some old ∧
        row1.StartDate = old.StartDate ∧
        (row1.EndDate = old.EndDate ∨ (∃ e, req.EndDate = some e ∧ row1.EndDate = some e)) ∧
        (postgres.UpdateSubscription id req db).2 =
          { db with rows := db.rows.map (fun r => if r.ID == id then row1 else r) } := by
  rcases req with ⟨n, p, e⟩
  cases hf : db.fault with
  | some cause =>
    left
    rcases n with _ | n <;> rcases p with _ | p <;> rcases e with _ | e <;>
      simp [postgres.UpdateSubscription, postgres.buildUpdate, DB.runUpdate, hf]
  | none =>
    cases hfind : db.rows.find? (fun r => r.ID == id) with
    | none =>
      left
      rcases n with _ | n <;> rcases p with _ | p <;> rcases e with _ | e <;>
        simp [postgres.UpdateSubscription, postgres.buildUpdate, DB.runUpdate, hf, hfind,
          bindOk_two, bindOk_three, bindOk_four, bindOk_five, param]
    | some old =>
      rcases n with _ | n <;> rcases p with _ | p <;> rcases e with _ | e
      · left
        simp [postgres.UpdateSubscription, postgres.buildUpdate]
      all_goals
        right
        simp [postgres.UpdateSubscription, postgres.buildUpdate, DB.runUpdate, hf, hfind,
          bindOk_two, bindOk_three, bindOk_four, bindOk_five, param, applySets, applySet]
        refine ⟨_, ?_, ?_, fun a _ => rfl⟩ <;> simp

theorem postgres_get_ok (id : Int) (db : DB) (existing : Subscription)
    (h : (postgres.GetSubscriptionByID id db).1 = Except.ok existing) :
    db.rows.find? (fun r => r.ID == id) = some existing := by
  unfold postgres.GetSubscriptionByID at h
  cases hf : db.fault with
  | some cause => simp [hf] at h
  | none =>
    cases hfind : db.rows.find? (fun r => r.ID == id) with
    | none => simp [hf, hfind] at h
    | some row =>
      simp [hf, hfind] at h
      rw [h]

theorem postgres_get_state (id : Int) (db : DB) : (postgres.GetSubscriptionByID id db).2 = db := by
  unfold postgres.GetSubscriptionByID
  cases db.fault <;> cases db.rows.find? (fun r => r.ID == id) <;> rfl

theorem postgres_create_state (d : Subscription) (db : DB) :
    (postgres.CreateSubscription d db).2 = db ∨
      ∃ row, row.StartDate = d.StartDate ∧ row.EndDate = d.EndDate ∧
        (postgres.CreateSubscription d db).2 =
          { db with rows := db.rows ++ [row], nextID := db.nextID + 1 } := by
  rcases db with ⟨rows, nextID, now, fault⟩
  cases fault with
  | some cause => exact Or.inl rfl
  | none =>
    right
    exact ⟨{ ID := nextID, ServiceName := d.ServiceName, Price := d.Price, UserID := d.UserID,
             StartDate := d.StartDate, EndDate := d.EndDate, CreatedAt := now,
             UpdatedAt := now }, rfl, rfl, rfl⟩

theorem service_createSubscription_state {σ : Type} (env : Env) (repo : Repository σ)
    (req : CreateSubscriptionRequest) (st : σ) :
    (subscription.CreateSubscription env repo req st).state = st ∨
      ((∀ e, req.EndDate = some e → monthDateAfter req.StartDate e = false) ∧
        (subscription.CreateSubscription env repo req st).state =
          (repo.CreateSubscription (draftOf req) st).2) := by
  cases hu : validateUUID env req.UserID with
  | some e0 => simp [subscription.CreateSubscription, hu]
  | none =>
    cases hs : validateDateFormat env.currentYear req.StartDate with
    | some e0 => simp [subscription.CreateSubscription, hu, hs]
    | none =>
      cases hr : (match req.EndDate with
        | some endDate => validateDateRange env.currentYear req.StartDate endDate
        | none => none) with
      | some e0 => simp [subscription.CreateSubscription, hu, hs, hr]
      | none =>
        by_cases hp : req.Price ≤ 0
        · simp [subscription.CreateSubscription, hu, hs, hr, hp]
        · right
          constructor
          · intro e he
            rw [he] at hr
            exact ((validateDateRange_none_iff _ _ _).1 hr).2.2
          · simp [subscription.CreateSubscription, hu, hs, hr, hp, draftOf]

theorem service_updateSubscription_state {σ : Type} (env : Env) (repo : Repository σ)
    (id : Int) (req : UpdateSubscriptionRequest) (st : σ) :
    (subscription.UpdateSubscription env repo id req st).state = st ∨
      (subscription.UpdateSubscription env repo id req st).state
        = (repo.GetSubscriptionByID id st).2 ∨
      ∃ existing req1, (repo.GetSubscriptionByID id st).1 = Except.ok existing ∧
        req1.EndDate = req.EndDate ∧
        (∀ e, req.EndDate = some e → monthDateAfter existing.StartDate e = false) ∧
        (subscription.UpdateSubscription env repo id req st).state =
          (repo.UpdateSubscription id req1 (repo.GetSubscriptionByID id st).2).2 := by
  by_cases hid : id ≤ 0
  · simp [subscription.UpdateSubscription, hid]
  · cases hex : (repo.GetSubscriptionByID id st).1 with
    | error e0 => simp [subscription.UpdateSubscription, hid, hex]
    | ok existing =>
      cases hr : (match req.EndDate with
        | some endDate => validateDateRange env.currentYear existing.StartDate endDate
        | none => none) with
      | some e0 => simp [subscription.UpdateSubscription, hid, hex, hr]
      | none =>
        cases hp : (match req.Price with
          | some price => decide (price ≤ 0)
          | none => false) with
        | true => simp [subscription.UpdateSubscription, hid, hex, hr, hp]
        | false =>
          right
          right
          refine ⟨existing,
            (match req.ServiceName with
              | some name => { req with ServiceName := some (strings.TrimSpace name) }
              | none => req), rfl, ?_, ?_, ?_⟩
          · cases req.ServiceName <;> rfl
          · intro e he
            rw [he] at hr
            exact ((validateDateRange_none_iff _ _ _).1 hr).2.2
          · simp only [subscription.UpdateSubscription, hid, hex, hr, hp, if_false,
              Bool.false_eq_true]

/-! ## Further lemmas on the date model -/

theorem eq_formatMonthDate_of_valid {Y : Int} {s : String}
    (h : validateDateFormat Y s = none) : s = formatMonthDate (monthOf s) (yearOf s) := by
  obtain ⟨a, b, c, d, e, f, hd0, ha, hb, hc, hd, he, hf, -, -⟩ :=
    dateShape_bounds (dateShape_of_valid h)
  have hm : monthOf s = 10 * digitVal a + digitVal b := by simp [monthOf, hd0]
  have hy : yearOf s = 1000 * digitVal c + 100 * digitVal d + 10 * digitVal e + digitVal f := by
    simp [yearOf, hd0]
  rw [hm, hy, formatMonthDate_digits a b c d e f ha hb hc hd he hf, ← hd0]

theorem validateDateRange_ne_panic (Y : Int) (a b : String) :
    validateDateRange Y a b ≠ some Err.indexOutOfRange := by
  rw [validateDateRange_eq]
  split_ifs <;> simp

theorem validateDateFormat_ne_panic (Y : Int) (s : String) :
    validateDateFormat Y s ≠ some Err.indexOutOfRange := by
  rcases validateDateFormat_cases Y s with h | h <;> rw [h] <;> simp

/-! ## Further lemmas on the service -/

theorem trimmedPatch_eq (req : UpdateSubscriptionRequest) :
    (match req.ServiceName with
      | some name => { req with ServiceName := some (strings.TrimSpace name) }
      | none => req) = trimmedPatch req := by
  rcases req with ⟨n, p, e⟩
  cases n <;> rfl

/-- The outcome of `UpdateSubscription` of the service once the lookup has returned a
record: the range check against the stored start date, then the price check, then the
update of the store with the trimmed patch. -/
theorem service_updateSubscription_found {σ : Type} (env : Env) (repo : Repository σ)
    (id : Int) (req : UpdateSubscriptionRequest) (st : σ) (existing : Subscription)
    (hid : 0 < id) (hex : (repo.GetSubscriptionByID id st).1 = Except.ok existing) :
    (∀ err, (match req.EndDate with
        | some endDate => validateDateRange env.currentYear existing.StartDate endDate
        | none => none) = some err →
      (subscription.UpdateSubscription env repo id req st).result = Except.error err ∧
        (subscription.UpdateSubscription env repo id req st).state
          = (repo.GetSubscriptionByID id st).2 ∧
        (subscription.UpdateSubscription env repo id req st).calls
          = [Call.GetSubscriptionByID id]) ∧
    ((match req.EndDate with
        | some endDate => validateDateRange env.currentYear existing.StartDate endDate
        | none => none) = none →
      (match req.Price with
        | some price => decide (price ≤ 0)
        | none => false) = true →
      (subscription.UpdateSubscription env repo id req st).result
          = Except.error Err.ErrInvalidPrice ∧
        (subscription.UpdateSubscription env repo id req st).state
          = (repo.GetSubscriptionByID id st).2 ∧
        (subscription.UpdateSubscription env repo id req st).calls
          = [Call.GetSubscriptionByID id]) ∧
    ((match req.EndDate with
        | some endDate => validateDateRange env.currentYear existing.StartDate endDate
        | none => none) = none →
      (match req.Price with
        | some price => decide (price ≤ 0)
        | none => false) = false →
      (subscription.UpdateSubscription env repo id req st).result
          = (repo.UpdateSubscription id (trimmedPatch req) (repo.GetSubscriptionByID id st).2).1 ∧
        (subscription.UpdateSubscription env repo id req st).state
          = (repo.UpdateSubscription id (trimmedPatch req) (repo.GetSubscriptionByID id st).2).2 ∧
        (subscription.UpdateSubscription env repo id req st).calls
          = [Call.GetSubscriptionByID id, Call.UpdateSubscription id (trimmedPatch req)]) := by
  have hid1 : ¬ id ≤ 0 := by omega
  refine ⟨?_, ?_, ?_⟩
  · intro err hr
    simp [subscription.UpdateSubscription, hid1, hex, hr]
  · intro hr hp
    simp [subscription.UpdateSubscription, hid1, hex, hr, hp]
  · intro hr hp
    simp only [subscription.UpdateSubscription, hid1, hex, hr, hp, if_false,
      Bool.false_eq_true, trimmedPatch_eq, and_self]

theorem service_updateSubscription_lookup_failed {σ : Type} (env : Env) (repo : Repository σ)
    (id : Int) (req : UpdateSubscriptionRequest) (st : σ) (err : Err)
    (hid : 0 < id) (hex : (repo.GetSubscriptionByID id st).1 = Except.error err) :
    (subscription.UpdateSubscription env repo id req st).result = Except.error err ∧
      (subscription.UpdateSubscription env repo id req st).state
        = (repo.GetSubscriptionByID id st).2 ∧
      (subscription.UpdateSubscription env repo id req st).calls
        = [Call.GetSubscriptionByID id] := by
  have hid1 : ¬ id ≤ 0 := by omega
  simp [subscription.UpdateSubscription, hid1, hex]

theorem service_updateSubscription_bad_id {σ : Type} (env : Env) (repo : Repository σ)
    (id : Int) (req : UpdateSubscriptionRequest) (st : σ) (hid : id ≤ 0) :
    (subscription.UpdateSubscription env repo id req st).result
        = Except.error Err.ErrInvalidData ∧
      (subscription.UpdateSubscription env repo id req st).state = st ∧
      (subscription.UpdateSubscription env repo id req st).calls = [] := by
  simp [subscription.UpdateSubscription, hid]

theorem postgres_get_absent (id : Int) (db : DB) (hf : db.fault = none)
    (h : ∀ r ∈ db.rows, r.ID ≠ id) :
    postgres.GetSubscriptionByID id db = (Except.error Err.ErrNotFound, db) := by
  have hfind : db.rows.find? (fun r => r.ID == id) = none := by
    rw [List.find?_eq_none]
    intro r hr
    simpa using h r hr
  simp [postgres.GetSubscriptionByID, hf, hfind]

theorem postgres_delete_absent (id : Int) (db : DB) (hf : db.fault = none)
    (h : ∀ r ∈ db.rows, r.ID ≠ id) :
    postgres.DeleteSubscription id db = (some Err.ErrNotFound, db) := by
  have hfil : db.rows.filter (fun r => r.ID == id) = [] := by
    rw [List.filter_eq_nil_iff]
    intro r hr
    simpa using h r hr
  have hkeep : db.rows.filter (fun r => !(r.ID == id)) = db.rows := by
    rw [List.filter_eq_self]
    intro r hr
    simpa using h r hr
  rcases db with ⟨rows, nextID, now, fault⟩
  simp only at hf hfil hkeep
  subst hf
  simp [postgres.DeleteSubscription, hfil, hkeep]

/-! ## Lemmas on the update statement -/

theorem buildUpdate_nonempty (id : Int) (req : UpdateSubscriptionRequest) (now : Time)
    (hne : ¬ (req.ServiceName = none ∧ req.Price = none ∧ req.EndDate = none)) :
    ∃ stmt, postgres.buildUpdate id req now = Except.ok (stmt, patchArgs id req now) ∧
      stmt.setParts.map (fun p => p.1) = patchColumns req ∧
      stmt.setParts.map (fun p => p.2) ++ [stmt.whereId]
        = List.range' 1 (patchArgs id req now).length ∧
      param (patchArgs id req now) stmt.whereId = some (SqlArg.int id) ∧
      (∀ k, (Column.service_name, k) ∈ stmt.setParts →
        ∃ v, req.ServiceName = some v ∧ param (patchArgs id req now) k = some (SqlArg.text v)) ∧
      (∀ k, (Column.price, k) ∈ stmt.setParts →
        ∃ v, req.Price = some v ∧ param (patchArgs id req now) k = some (SqlArg.int v)) ∧
      (∀ k, (Column.end_date, k) ∈ stmt.setParts →
        ∃ v, req.EndDate = some v ∧ param (patchArgs id req now) k = some (SqlArg.text v)) ∧
      (∀ k, (Column.updated_at, k) ∈ stmt.setParts →
        param (patchArgs id req now) k = some (SqlArg.timestamp now)) := by
  rcases req with ⟨n, p, e⟩
  rcases n with _ | n <;> rcases p with _ | p <;> rcases e with _ | e
  · simp at hne
  all_goals
    simp [postgres.buildUpdate, patchArgs, patchColumns, param, List.range']

theorem postgres_update_found (id : Int) (req : UpdateSubscriptionRequest) (db : DB)
    (old : Subscription) (hf : db.fault = none)
    (hfind : db.rows.find? (fun r => r.ID == id) = some old)
    (hne : ¬ (req.ServiceName = none ∧ req.Price = none ∧ req.EndDate = none)) :
    postgres.UpdateSubscription id req db =
      (Except.ok (patchRow req db.now old),
        { db with rows := patchRows id (patchRow req db.now old) db.rows }) := by
  rcases req with ⟨n, p, e⟩
  rcases n with _ | n <;> rcases p with _ | p <;> rcases e with _ | e
  · simp at hne
  all_goals
    simp [postgres.UpdateSubscription, postgres.buildUpdate, DB.runUpdate, hf, hfind,
      bindOk_two, bindOk_three, bindOk_four, bindOk_five, param, applySets, applySet,
      patchRow, patchRows]

/-! ## Lemmas on the errors of the service -/

theorem validateUUID_error {env : Env} {u : String} {e : Err}
    (h : validateUUID env u = some e) : e = Err.ErrInvalidUUID := by
  unfold validateUUID at h
  split_ifs at h
  exact (Option.some.inj h).symm

theorem optional_uuid_error {env : Env} {o : Option String} {e : Err}
    (h : (match o with
      | some userID => validateUUID env userID
      | none => none) = some e) : e = Err.ErrInvalidUUID := by
  cases o with
  | none => simp at h
  | some u => exact validateUUID_error h

theorem validateDateFormat_error {Y : Int} {s : String} {e : Err}
    (h : validateDateFormat Y s = some e) : e = Err.ErrInvalidDateFormat := by
  rcases validateDateFormat_cases Y s with h1 | h1
  · rw [h1] at h
    simp at h
  · rw [h1] at h
    exact (Option.some.inj h).symm

theorem optional_range_error {Y : Int} {s : String} {o : Option String} {e : Err}
    (h : (match o with
      | some endDate => validateDateRange Y s endDate
      | none => none) = some e) :
    e = Err.ErrInvalidDateFormat ∨ e = Err.ErrInvalidDateRange := by
  cases o with
  | none => simp at h
  | some d => exact validateDateRange_error Y s d e h

/-- An error of `CreateSubscription` is a validation error returned without a store call,
or the error of the insert. -/
theorem service_createSubscription_error {σ : Type} (env : Env) (repo : Repository σ)
    (req : CreateSubscriptionRequest) (st : σ) (e : Err)
    (h : (subscription.CreateSubscription env repo req st).result = Except.error e) :
    ((subscription.CreateSubscription env repo req st).calls = [] ∧
        isValidationErr e = true) ∨
      ((subscription.CreateSubscription env repo req st).calls
          = [Call.CreateSubscription (draftOf req)] ∧
        (repo.CreateSubscription (draftOf req) st).1 = Except.error e) := by
  cases hu : validateUUID env req.UserID with
  | some e0 =>
    have := validateUUID_error hu
    subst this
    simp [subscription.CreateSubscription, hu] at h ⊢
    subst h
    rfl
  | none =>
    cases hs : validateDateFormat env.currentYear req.StartDate with
    | some e0 =>
      have := validateDateFormat_error hs
      subst this
      simp [subscription.CreateSubscription, hu, hs] at h ⊢
      subst h
      rfl
    | none =>
      cases hr : (match req.EndDate with
        | some endDate => validateDateRange env.currentYear req.StartDate endDate
        | none => none) with
      | some e0 =>
        have he0 := optional_range_error hr
        simp [subscription.CreateSubscription, hu, hs, hr] at h ⊢
        subst h
        rcases he0 with rfl | rfl <;> rfl
      | none =>
        by_cases hp : req.Price ≤ 0
        · simp [subscription.CreateSubscription, hu, hs, hr, hp] at h ⊢
          subst h
          rfl
        · right
          simp only [subscription.CreateSubscription, hu, hs, hr, hp, if_false] at h ⊢
          exact ⟨rfl, h⟩

/-- An error of `GetSubscriptions` is `ErrInvalidUUID` returned without a store call, or
the error of the list query. -/
theorem service_getSubscriptions_error {σ : Type} (env : Env) (repo : Repository σ)
    (filters : SubscriptionFilters) (st : σ) (e : Err)
    (h : (subscription.GetSubscriptions env repo filters st).result = Except.error e) :
    ((subscription.GetSubscriptions env repo filters st).calls = [] ∧
        isValidationErr e = true) ∨
      ((subscription.GetSubscriptions env repo filters st).calls
          = [Call.GetSubscriptions (clampFilters filters)] ∧
        (repo.GetSubscriptions (clampFilters filters) st).1 = Except.error e) := by
  unfold subscription.GetSubscriptions at h ⊢
  simp only [service_getSubscriptions_filters] at h ⊢
  cases hu : (match (clampFilters filters).UserID with
      | some userID => validateUUID env userID
      | none => none) with
  | some e0 =>
    have he0 := optional_uuid_error hu
    rw [hu] at h
    simp only [Except.error.injEq] at h
    left
    subst h
    subst he0
    exact ⟨rfl, rfl⟩
  | none =>
    rw [hu] at h
    simp only at h ⊢
    right
    cases hr : (repo.GetSubscriptions (clampFilters filters) st).1 with
    | error e0 =>
      rw [hr] at h
      simp only [Except.error.injEq] at h
      subst h
      exact ⟨rfl, rfl⟩
    | ok rows =>
      rw [hr] at h
      simp at h

/-- An error of `CalculateCost` is a validation error returned without a store call, or
the error of the aggregate query. -/
theorem service_calculateCost_error {σ : Type} (env : Env) (repo : Repository σ)
    (req : CostCalculationRequest) (st : σ) (e : Err)
    (h : (subscription.CalculateCost env repo req st).result = Except.error e) :
    ((subscription.CalculateCost env repo req st).calls = [] ∧ isValidationErr e = true) ∨
      ((subscription.CalculateCost env repo req st).calls = [Call.CalculateCost req] ∧
        (repo.CalculateCost req st).1 = Except.error e) := by
  unfold subscription.CalculateCost at h ⊢
  cases hr : validateDateRange env.currentYear req.StartDate req.EndDate with
  | some e0 =>
    have he0 := validateDateRange_error _ _ _ _ hr
    rw [hr] at h
    simp only [Except.error.injEq] at h
    left
    subst h
    rcases he0 with rfl | rfl <;> exact ⟨rfl, rfl⟩
  | none =>
    rw [hr] at h
    simp only at h ⊢
    cases hu : (match req.UserID with
        | some userID => validateUUID env userID
        | none => none) with
    | some e0 =>
      have he0 := optional_uuid_error hu
      rw [hu] at h
      simp only [Except.error.injEq] at h
      left
      subst h
      subst he0
      exact ⟨rfl, rfl⟩
    | none =>
      rw [hu] at h
      simp only at h ⊢
      right
      cases hc : (repo.CalculateCost req st).1 with
      | error e0 =>
        rw [hc] at h
        simp only [Except.error.injEq] at h
        subst h
        exact ⟨rfl, rfl⟩
      | ok t =>
        rw [hc] at h
        simp at h

/-- An error of `UpdateSubscription` of the service: `ErrInvalidData` for a bad id before
any store call; after the lookup alone, the error of the lookup or a validation error of
the patch; or, after lookup and update, the error of the update. -/
theorem service_updateSubscription_error {σ : Type} (env : Env) (repo : Repository σ)
    (id : Int) (req : UpdateSubscriptionRequest) (st : σ) (e : Err)
    (h : (subscription.UpdateSubscription env repo id req st).result = Except.error e) :
    ((subscription.UpdateSubscription env repo id req st).calls = [] ∧ id ≤ 0 ∧
        e = Err.ErrInvalidData) ∨
      ((subscription.UpdateSubscription env repo id req st).calls
          = [Call.GetSubscriptionByID id] ∧
        ((repo.GetSubscriptionByID id st).1 = Except.error e ∨
          e = Err.ErrInvalidDateFormat ∨ e = Err.ErrInvalidDateRange ∨
          e = Err.ErrInvalidPrice)) ∨
      ((subscription.UpdateSubscription env repo id req st).calls
          = [Call.GetSubscriptionByID id, Call.UpdateSubscription id (trimmedPatch req)] ∧
        (repo.UpdateSubscription id (trimmedPatch req) (repo.GetSubscriptionByID id st).2).1
          = Except.error e) := by
  by_cases hid : id ≤ 0
  · obtain ⟨g1, -, g3⟩ := service_updateSubscription_bad_id env repo id req st hid
    rw [g1] at h
    exact Or.inl ⟨g3, hid, (Except.error.inj h).symm⟩
  · have hid1 : 0 < id := by omega
    right
    cases hex : (repo.GetSubscriptionByID id st).1 with
    | error e0 =>
      obtain ⟨g1, -, g3⟩ :=
        service_updateSubscription_lookup_failed env repo id req st e0 hid1 hex
      rw [g1] at h
      rw [← Except.error.inj h]
      exact Or.inl ⟨g3, Or.inl rfl⟩
    | ok existing =>
      obtain ⟨f1, f2, f3⟩ :=
        service_updateSubscription_found env repo id req st existing hid1 hex
      cases hr : (match req.EndDate with
          | some endDate => validateDateRange env.currentYear existing.StartDate endDate
          | none => none) with
      | some e0 =>
        obtain ⟨g1, -, g3⟩ := f1 e0 hr
        rw [g1] at h
        rw [← Except.error.inj h]
        rcases optional_range_error hr with he | he
        · exact Or.inl ⟨g3, Or.inr (Or.inl he)⟩
        · exact Or.inl ⟨g3, Or.inr (Or.inr (Or.inl he))⟩
      | none =>
        cases hp : (match req.Price with
            | some price => decide (price ≤ 0)
            | none => false) with
        | true =>
          obtain ⟨g1, -, g3⟩ := f2 hr hp
          rw [g1] at h
          rw [← Except.error.inj h]
          exact Or.inl ⟨g3, Or.inr (Or.inr (Or.inr rfl))⟩
        | false =>
          obtain ⟨g1, -, g3⟩ := f3 hr hp
          rw [g1] at h
          exact Or.inr ⟨g3, h⟩

theorem postgres_update_empty (id : Int) (db : DB) :
    postgres.UpdateSubscription id emptyPatch db = (Except.error Err.ErrInvalidData, db) := by
  rfl

/-! ## Lemmas on the outcome of `GetSubscriptions` -/

/-- With an owner filter that is absent or valid, `GetSubscriptions` calls the store once
with the clamped filters and wraps what the store returns. -/
theorem service_getSubscriptions_valid {σ : Type} (env : Env) (repo : Repository σ)
    (filters : SubscriptionFilters) (st : σ)
    (hu : ∀ u, filters.UserID = some u → env.uuidParse u = true) :
    (subscription.GetSubscriptions env repo filters st).calls
        = [Call.GetSubscriptions (clampFilters filters)] ∧
      (subscription.GetSubscriptions env repo filters st).state
        = (repo.GetSubscriptions (clampFilters filters) st).2 ∧
      (∀ rows, (repo.GetSubscriptions (clampFilters filters) st).1 = Except.ok rows →
        (subscription.GetSubscriptions env repo filters st).result =
          Except.ok { Subscriptions := rows, Total := rows.length,
                      Limit := clampLimit filters.Limit,
                      Offset := clampOffset filters.Offset }) ∧
      (∀ e, (repo.GetSubscriptions (clampFilters filters) st).1 = Except.error e →
        (subscription.GetSubscriptions env repo filters st).result = Except.error e) := by
  have hnone : (match (clampFilters filters).UserID with
      | some userID => validateUUID env userID
      | none => none) = none := by
    cases h : filters.UserID with
    | none => simp [clampFilters, h]
    | some u => simp [clampFilters, h, validateUUID, hu u h]
  unfold subscription.GetSubscriptions
  simp only [service_getSubscriptions_filters, hnone]
  cases hr : (repo.GetSubscriptions (clampFilters filters) st).1 with
  | error e0 => simp [clampFilters]
  | ok rows0 => simp [clampFilters]

/-- With an owner filter that is not a valid UUID, `GetSubscriptions` returns
`ErrInvalidUUID` and does not call the store. -/
theorem service_getSubscriptions_invalid {σ : Type} (env : Env) (repo : Repository σ)
    (filters : SubscriptionFilters) (st : σ) (u : String) (h : filters.UserID = some u)
    (hbad : env.uuidParse u = false) :
    (subscription.GetSubscriptions env repo filters st).result
        = Except.error Err.ErrInvalidUUID ∧
      (subscription.GetSubscriptions env repo filters st).calls = [] ∧
      (subscription.GetSubscriptions env repo filters st).state = st := by
  have hsome : (match (clampFilters filters).UserID with
      | some userID => validateUUID env userID
      | none => none) = some Err.ErrInvalidUUID := by
    simp [clampFilters, h, validateUUID, hbad]
  unfold subscription.GetSubscriptions
  simp only [service_getSubscriptions_filters, hsome, and_self]

/-! ## Properties of the date model -/

/-- C1: for every string and every current year, `validateDateFormat` returns nil exactly
when the string is the text `MM-YYYY` of a month 1..12, zero-padded to two digits, and a
year of four decimal digits between 2000 and the current year plus ten; on every other
string it returns `ErrInvalidDateFormat`: an unpadded month, a wrong length, month 00 or
13, a leading or trailing character such as a newline, a year out of range. -/
theorem validateDateFormat_spec (Y : Int) (s : String) :
    (validateDateFormat Y s = none ↔
      ∃ m y : Nat, 1 ≤ m ∧ m ≤ 12 ∧ 2000 ≤ y ∧ y ≤ 9999 ∧ (y : Int) ≤ Y + 10 ∧
        s = formatMonthDate m y) ∧
    (validateDateFormat Y s = none ∨ validateDateFormat Y s = some Err.ErrInvalidDateFormat) ∧
    validateDateFormat Y "1-2024" = some Err.ErrInvalidDateFormat ∧
    validateDateFormat Y "001-2024" = some Err.ErrInvalidDateFormat ∧
    validateDateFormat Y "01-02024" = some Err.ErrInvalidDateFormat ∧
    validateDateFormat Y "00-2024" = some Err.ErrInvalidDateFormat ∧
    validateDateFormat Y "13-2024" = some Err.ErrInvalidDateFormat ∧
    validateDateFormat Y " 01-2024" = some Err.ErrInvalidDateFormat ∧
    validateDateFormat Y "01-2024 " = some Err.ErrInvalidDateFormat ∧
    validateDateFormat Y "01-2024\n" = some Err.ErrInvalidDateFormat ∧
    validateDateFormat Y "01-1999" = some Err.ErrInvalidDateFormat ∧
    validateDateFormat 2025 "01-2036" = some Err.ErrInvalidDateFormat ∧
    validateDateFormat 2025 "12-2035" = none ∧
    validateDateFormat 2025 "01-2000" = none := by
  refine ⟨validateDateFormat_eq_none_iff Y s, validateDateFormat_cases Y s,
    rfl, rfl, rfl, rfl, rfl, rfl, rfl, rfl, ?_, by decide, by decide, by decide⟩
  rfl

/-- C2: for two strings that both pass `validateDateFormat`, `validateDateRange` returns
`ErrInvalidDateRange` exactly when the start is after the end in the order by year, then
month, and nil otherwise.  In particular the range from `01-2025` to `12-2024` is rejected
(in any year from 2015 on, when both dates are valid), although `01-2025` comes first in
the order of texts. -/
theorem validateDateRange_spec (Y : Int) (startDate endDate : String)
    (hs : validateDateFormat Y startDate = none)
    (he : validateDateFormat Y endDate = none) :
    (validateDateRange Y startDate endDate = some Err.ErrInvalidDateRange ↔
      monthDateAfter startDate endDate = true) ∧
    (monthDateAfter startDate endDate = false →
      validateDateRange Y startDate endDate = none) ∧
    (2015 ≤ Y → validateDateRange Y "01-2025" "12-2024" = some Err.ErrInvalidDateRange) ∧
    monthDateAfter "01-2025" "12-2024" = true ∧
    textLe "01-2025" "12-2024" = true := by
  refine ⟨?_, ?_, ?_, by decide, by decide⟩
  · rw [validateDateRange_of_valid Y startDate endDate hs he]
    by_cases h : monthDateAfter startDate endDate = true
    · simp [h]
    · simp [h]
  · intro h
    rw [validateDateRange_of_valid Y startDate endDate hs he]
    simp [h]
  · intro hY
    have h1 : validateDateFormat Y "01-2025" = none :=
      (validateDateFormat_eq_none_iff Y "01-2025").2
        ⟨1, 2025, by omega, by omega, by omega, by omega, by omega, by decide⟩
    have h2 : validateDateFormat Y "12-2024" = none :=
      (validateDateFormat_eq_none_iff Y "12-2024").2
        ⟨12, 2024, by omega, by omega, by omega, by omega, by omega, by decide⟩
    rw [validateDateRange_of_valid Y "01-2025" "12-2024" h1 h2]
    have h3 : monthDateAfter "01-2025" "12-2024" = true := by decide
    simp [h3]

/-- The range from March 2024 to January 2024 is rejected and the reverse range
accepted. -/
theorem validateDateRange_spec_witness :
    validateDateFormat 2025 "03-2024" = none ∧ validateDateFormat 2025 "01-2024" = none ∧
      validateDateRange 2025 "03-2024" "01-2024" = some Err.ErrInvalidDateRange ∧
      validateDateRange 2025 "01-2024" "03-2024" = none :=
  ⟨by decide, by decide,
    (validateDateRange_spec 2025 "03-2024" "01-2024" (by decide) (by decide)).1.2 (by decide),
    (validateDateRange_spec 2025 "01-2024" "03-2024" (by decide) (by decide)).2.1 (by decide)⟩

/-! ## Properties of the cost query -/

/-- C3: the cost query does not sum over the rows that overlap the period in the order by
year, then month.  A subscription that started in February 2024 and has no end date
overlaps January 2025 and costs 500, yet the query, which compares the texts `02-2024` and
`01-2025`, leaves it out and returns 0, through the service as well; with date columns
ordered by year and month the same statement returns 500.  In the other direction a
subscription that starts in January 2025 is counted for February 2024.  Besides, the
service-name filter is a pattern: `n_t` selects `Netflix`, which does not contain it. -/
theorem calculateCost_text_order :
    validateDateFormat 2025 "02-2024" = none ∧
    validateDateRange 2025 "01-2025" "01-2025" = none ∧
    overlapsPeriod (exampleRow 500 "02-2024" none) "01-2025" "01-2025" = true ∧
    (postgres.CalculateCost textLe (periodQuery "01-2025" "01-2025")
      (tableOf [exampleRow 500 "02-2024" none])).1 = Except.ok 0 ∧
    (subscription.CalculateCost exampleEnv (postgres.NewRepository textLe)
      (periodQuery "01-2025" "01-2025") (tableOf [exampleRow 500 "02-2024" none])).result =
      Except.ok { TotalCost := 0, StartDate := "01-2025", EndDate := "01-2025",
                  UserID := none, ServiceName := none } ∧
    (postgres.CalculateCost monthDateLe (periodQuery "01-2025" "01-2025")
      (tableOf [exampleRow 500 "02-2024" none])).1 = Except.ok 500 ∧
    overlapsPeriod (exampleRow 500 "01-2025" none) "02-2024" "02-2024" = false ∧
    (postgres.CalculateCost textLe (periodQuery "02-2024" "02-2024")
      (tableOf [exampleRow 500 "01-2025" none])).1 = Except.ok 500 ∧
    (postgres.CalculateCost textLe
      { UserID := none, ServiceName := some "n_t", StartDate := "01-2024",
        EndDate := "12-2024" }
      (tableOf [exampleRow 500 "01-2024" none])).1 = Except.ok 500 := by
  refine ⟨by decide, by decide, by decide, by decide, by decide, by decide, by decide,
    by decide, by decide⟩

/-- C4: the overlap condition of the cost query includes the boundary months on the
examples, in the text order of the date columns and in the order by year and month alike.
A subscription from `03-2023` to `06-2023` is counted for the period `06-2023` to `07-2023`
and not for `07-2023` to `08-2023`; a subscription from `01-2023` without end date is
counted for every period whose end date is a valid month date at or after `01-2023`; and a
subscription of price 999 created through the service with start `01-2024` and no end date
gives total cost 999 for the period `02-2024` to `03-2024` of its owner. -/
theorem calculateCost_boundaries (le : DateOrder) (hle : le = textLe ∨ le = monthDateLe)
    (Y : Int) (qStart qEnd : String) (hq : validateDateFormat Y qEnd = none)
    (hge : monthDateLe "01-2023" qEnd = true) :
    (postgres.CalculateCost le (periodQuery "06-2023" "07-2023")
      (tableOf [exampleRow 100 "03-2023" (some "06-2023")])).1 = Except.ok 100 ∧
    (postgres.CalculateCost le (periodQuery "07-2023" "08-2023")
      (tableOf [exampleRow 100 "03-2023" (some "06-2023")])).1 = Except.ok 0 ∧
    (postgres.CalculateCost le (periodQuery qStart qEnd)
      (tableOf [exampleRow 100 "01-2023" none])).1 = Except.ok 100 ∧
    (postgres.CalculateCost le (periodQuery "02-2024" "03-2024")
      (tableOf [exampleRow 999 "01-2024" none])).1 = Except.ok 999 ∧
    (subscription.CalculateCost exampleEnv (postgres.NewRepository le)
      { UserID := some exampleUser, ServiceName := none, StartDate := "02-2024",
        EndDate := "03-2024" }
      (subscription.CreateSubscription exampleEnv (postgres.NewRepository le)
        { ServiceName := "Netflix", Price := 999, UserID := exampleUser,
          StartDate := "01-2024", EndDate := none }
        (tableOf [])).state).result =
      Except.ok { TotalCost := 999, StartDate := "02-2024", EndDate := "03-2024",
                  UserID := some exampleUser, ServiceName := none } := by
  have hshape := dateShape_of_valid hq
  rcases hle with rfl | rfl
  · refine ⟨by decide, by decide, ?_, by decide, by decide⟩
    rw [calculateCost_eq_sum textLe _ _ rfl]
    simp [tableOf, costCondition, periodQuery, exampleRow, textLe_jan2023 qEnd hshape hge]
  · refine ⟨by decide, by decide, ?_, by decide, by decide⟩
    rw [calculateCost_eq_sum monthDateLe _ _ rfl]
    simp [tableOf, costCondition, periodQuery, exampleRow, hge]

/-- The open-ended subscription from `01-2023` is counted for the period `11-2024` to
`10-2025`. -/
theorem calculateCost_boundaries_witness :
    validateDateFormat 2025 "10-2025" = none ∧ monthDateLe "01-2023" "10-2025" = true ∧
      (postgres.CalculateCost textLe (periodQuery "11-2024" "10-2025")
        (tableOf [exampleRow 100 "01-2023" none])).1 = Except.ok 100 :=
  ⟨by decide, by decide,
    (calculateCost_boundaries textLe (Or.inl rfl) 2025 "11-2024" "10-2025" (by decide)
      (by decide)).2.2.1⟩

/-- The sum over no rows: for a valid cost query, on a database without a failure in which
no row satisfies the `WHERE` clause of the statement, in whatever order the date columns
have, and on an empty table in particular, `CalculateCost` succeeds with a total cost of
0: the sum over no rows is NULL and `COALESCE` turns it into 0. -/
theorem calculateCost_no_rows (le : DateOrder) (env : Env) (db : DB)
    (req : CostCalculationRequest)
    (hrange : validateDateRange env.currentYear req.StartDate req.EndDate = none)
    (huuid : ∀ u, req.UserID = some u → env.uuidParse u = true)
    (hfault : db.fault = none)
    (hnone : ∀ row ∈ db.rows, costCondition le req row = false) :
    (postgres.CalculateCost le req db).1 = Except.ok 0 ∧
    (subscription.CalculateCost env (postgres.NewRepository le) req db).result =
      Except.ok { TotalCost := 0, StartDate := req.StartDate, EndDate := req.EndDate,
                  UserID := req.UserID, ServiceName := req.ServiceName } ∧
    (subscription.CalculateCost env (postgres.NewRepository le) req
      { db with rows := [] }).result =
      Except.ok { TotalCost := 0, StartDate := req.StartDate, EndDate := req.EndDate,
                  UserID := req.UserID, ServiceName := req.ServiceName } := by
  have hu : (match req.UserID with
      | some userID => validateUUID env userID
      | none => none) = none := by
    cases h : req.UserID with
    | none => rfl
    | some u => simp [validateUUID, huuid u h]
  have hfilter : db.rows.filter (costCondition le req) = [] := by
    rw [List.filter_eq_nil_iff]
    intro row hrow
    simp [hnone row hrow]
  have h1 := calculateCost_eq_sum le req db hfault
  have h2 := calculateCost_eq_sum le req { db with rows := [] } hfault
  rw [hfilter] at h1
  refine ⟨by rw [h1]; rfl, ?_, ?_⟩
  · simp only [subscription.CalculateCost, hrange, hu, postgres.NewRepository, h1]
    rfl
  · simp only [subscription.CalculateCost, hrange, hu, postgres.NewRepository, h2]
    rfl

/-- A query of one owner on a table that holds only a subscription of another owner. -/
theorem calculateCost_no_rows_witness :
    (subscription.CalculateCost exampleEnv (postgres.NewRepository textLe)
      { UserID := some "11111111-2222-3333-4444-555555555555", ServiceName := none,
        StartDate := "01-2024", EndDate := "12-2024" }
      (tableOf [exampleRow 999 "01-2024" none])).result =
      Except.ok { TotalCost := 0, StartDate := "01-2024", EndDate := "12-2024",
                  UserID := some "11111111-2222-3333-4444-555555555555",
                  ServiceName := none } :=
  (calculateCost_no_rows textLe exampleEnv (tableOf [exampleRow 999 "01-2024" none])
    { UserID := some "11111111-2222-3333-4444-555555555555", ServiceName := none,
      StartDate := "01-2024", EndDate := "12-2024" }
    (by decide) (by intro u hu; cases hu; decide) rfl (by decide)).2.1

/-! ## Properties of the domain service -/

/-- C6: for every cost query the service calls the overlap aggregate of the store, once
and with the request itself, exactly when `validateDateRange` accepts the period and the
owner id, if present, is a valid UUID, and otherwise calls nothing.  When the range check
fails its error, `ErrInvalidDateFormat` or `ErrInvalidDateRange`, is returned; otherwise,
when the owner id is present and malformed, `ErrInvalidUUID`; and when the store returns
the sum `t`, the response has `TotalCost = t` and the dates, owner id and service name of
the request. -/
theorem service_calculateCost_spec {σ : Type} (env : Env) (repo : Repository σ)
    (req : CostCalculationRequest) (st : σ) :
    ((subscription.CalculateCost env repo req st).calls = [Call.CalculateCost req] ↔
      (validateDateRange env.currentYear req.StartDate req.EndDate = none ∧
        ∀ u, req.UserID = some u → env.uuidParse u = true)) ∧
    ((subscription.CalculateCost env repo req st).calls = [] ∨
      (subscription.CalculateCost env repo req st).calls = [Call.CalculateCost req]) ∧
    (∀ e, validateDateRange env.currentYear req.StartDate req.EndDate = some e →
      (subscription.CalculateCost env repo req st).result = Except.error e ∧
        (e = Err.ErrInvalidDateFormat ∨ e = Err.ErrInvalidDateRange)) ∧
    (validateDateRange env.currentYear req.StartDate req.EndDate = none →
      ∀ u, req.UserID = some u → env.uuidParse u = false →
        (subscription.CalculateCost env repo req st).result = Except.error Err.ErrInvalidUUID) ∧
    (validateDateRange env.currentYear req.StartDate req.EndDate = none →
      (∀ u, req.UserID = some u → env.uuidParse u = true) →
      ∀ t, (repo.CalculateCost req st).1 = Except.ok t →
        (subscription.CalculateCost env repo req st).result =
          Except.ok { TotalCost := t, StartDate := req.StartDate, EndDate := req.EndDate,
                      UserID := req.UserID, ServiceName := req.ServiceName }) := by
  cases hr : validateDateRange env.currentYear req.StartDate req.EndDate with
  | some e0 =>
    have he0 := validateDateRange_error _ _ _ _ hr
    simp [subscription.CalculateCost, hr, he0]
  | none =>
    cases hu : req.UserID with
    | none =>
      cases hc : (repo.CalculateCost req st).1 <;>
        simp [subscription.CalculateCost, hr, hu, hc]
    | some u =>
      cases hp : env.uuidParse u <;> cases hc : (repo.CalculateCost req st).1 <;>
        simp [subscription.CalculateCost, hr, hu, hc, validateUUID, hp]

/-- C7: `CreateSubscription` fails with `ErrInvalidUUID` when the owner id is not a valid
UUID; otherwise with `ErrInvalidDateFormat` when the start date is malformed; otherwise,
when an end date is supplied, with `ErrInvalidDateFormat` if it is malformed and with
`ErrInvalidDateRange` if the start is after the end; otherwise with `ErrInvalidPrice` when
the price is zero or negative.  In each of these cases the store is not called.  When none
applies the insert of the store is called exactly once, with the draft of the request, and
its result is returned. -/
theorem service_createSubscription_spec {σ : Type} (env : Env) (repo : Repository σ)
    (req : CreateSubscriptionRequest) (st : σ) :
    (env.uuidParse req.UserID = false →
      (subscription.CreateSubscription env repo req st).result
          = Except.error Err.ErrInvalidUUID ∧
        (subscription.CreateSubscription env repo req st).calls = []) ∧
    (env.uuidParse req.UserID = true →
      validateDateFormat env.currentYear req.StartDate ≠ none →
      (subscription.CreateSubscription env repo req st).result
          = Except.error Err.ErrInvalidDateFormat ∧
        (subscription.CreateSubscription env repo req st).calls = []) ∧
    (env.uuidParse req.UserID = true →
      validateDateFormat env.currentYear req.StartDate = none →
      ∀ e, req.EndDate = some e → validateDateFormat env.currentYear e ≠ none →
      (subscription.CreateSubscription env repo req st).result
          = Except.error Err.ErrInvalidDateFormat ∧
        (subscription.CreateSubscription env repo req st).calls = []) ∧
    (env.uuidParse req.UserID = true →
      validateDateFormat env.currentYear req.StartDate = none →
      ∀ e, req.EndDate = some e → validateDateFormat env.currentYear e = none →
      monthDateAfter req.StartDate e = true →
      (subscription.CreateSubscription env repo req st).result
          = Except.error Err.ErrInvalidDateRange ∧
        (subscription.CreateSubscription env repo req st).calls = []) ∧
    (env.uuidParse req.UserID = true →
      validateDateFormat env.currentYear req.StartDate = none →
      (∀ e, req.EndDate = some e →
        validateDateFormat env.currentYear e = none ∧ monthDateAfter req.StartDate e = false) →
      req.Price ≤ 0 →
      (subscription.CreateSubscription env repo req st).result
          = Except.error Err.ErrInvalidPrice ∧
        (subscription.CreateSubscription env repo req st).calls = []) ∧
    (env.uuidParse req.UserID = true →
      validateDateFormat env.currentYear req.StartDate = none →
      (∀ e, req.EndDate = some e →
        validateDateFormat env.currentYear e = none ∧ monthDateAfter req.StartDate e = false) →
      0 < req.Price →
      (subscription.CreateSubscription env repo req st).calls
          = [Call.CreateSubscription (draftOf req)] ∧
        (subscription.CreateSubscription env repo req st).result
          = (repo.CreateSubscription (draftOf req) st).1 ∧
        (subscription.CreateSubscription env repo req st).state
          = (repo.CreateSubscription (draftOf req) st).2) := by
  refine ⟨?_, ?_, ?_, ?_, ?_, ?_⟩
  · intro hu
    simp [subscription.CreateSubscription, validateUUID, hu]
  · intro hu hs
    have hs1 := validateDateFormat_ne_none hs
    simp [subscription.CreateSubscription, validateUUID, hu, hs1]
  · intro hu hs e he hbad
    have hr : validateDateRange env.currentYear req.StartDate e
        = some Err.ErrInvalidDateFormat := by
      rw [validateDateRange_eq]
      simp [hs, hbad]
    simp [subscription.CreateSubscription, validateUUID, hu, hs, he, hr]
  · intro hu hs e he hok hafter
    have hr : validateDateRange env.currentYear req.StartDate e
        = some Err.ErrInvalidDateRange := by
      rw [validateDateRange_eq]
      simp [hs, hok, hafter]
    simp [subscription.CreateSubscription, validateUUID, hu, hs, he, hr]
  · intro hu hs hend hp
    have hr : (match req.EndDate with
        | some endDate => validateDateRange env.currentYear req.StartDate endDate
        | none => none) = none := by
      cases he : req.EndDate with
      | none => rfl
      | some e =>
        obtain ⟨h1, h2⟩ := hend e he
        exact (validateDateRange_none_iff _ _ _).2 ⟨hs, h1, h2⟩
    simp [subscription.CreateSubscription, validateUUID, hu, hs, hr, hp]
  · intro hu hs hend hp
    have hr : (match req.EndDate with
        | some endDate => validateDateRange env.currentYear req.StartDate endDate
        | none => none) = none := by
      cases he : req.EndDate with
      | none => rfl
      | some e =>
        obtain ⟨h1, h2⟩ := hend e he
        exact (validateDateRange_none_iff _ _ _).2 ⟨hs, h1, h2⟩
    have hp1 : ¬ req.Price ≤ 0 := by omega
    simp [subscription.CreateSubscription, validateUUID, hu, hs, hr, hp1, draftOf]

/-- C8: what `CreateSubscription` and `UpdateSubscription` write to the store keeps the
start date at or before the end date in the order by year, then month.  The only draft
`CreateSubscription` inserts is the draft of the request, and when it has an end date its
start and end dates pass `validateDateRange`; `UpdateSubscription` only sends an update for
the id it was called with, with the end date of the patch, and when that end date is
present it passes `validateDateRange` against the start date of the record that the store
returned for this id.  On the Postgres store, whatever order its date columns have, a
table in which every row keeps this order still does so after either operation. -/
theorem store_writes_keep_date_order {σ : Type} (env : Env) (repo : Repository σ)
    (creq : CreateSubscriptionRequest) (id : Int) (ureq : UpdateSubscriptionRequest)
    (st : σ) (le : DateOrder) (db : DB) :
    (∀ c ∈ (subscription.CreateSubscription env repo creq st).calls,
      c = Call.CreateSubscription (draftOf creq) ∧
        (draftOf creq).StartDate = creq.StartDate ∧ (draftOf creq).EndDate = creq.EndDate ∧
        ∀ e, creq.EndDate = some e →
          validateDateRange env.currentYear creq.StartDate e = none ∧
            monthDateAfter creq.StartDate e = false) ∧
    (∀ c ∈ (subscription.UpdateSubscription env repo id ureq st).calls,
      c = Call.GetSubscriptionByID id ∨
        ∃ p existing, c = Call.UpdateSubscription id p ∧ p.EndDate = ureq.EndDate ∧
          (repo.GetSubscriptionByID id st).1 = Except.ok existing ∧
          ∀ e, ureq.EndDate = some e →
            validateDateRange env.currentYear existing.StartDate e = none ∧
              monthDateAfter existing.StartDate e = false) ∧
    ((∀ row ∈ db.rows, dateOrderHolds row = true) →
      (∀ row ∈ (subscription.CreateSubscription env (postgres.NewRepository le) creq
          db).state.rows, dateOrderHolds row = true) ∧
      (∀ row ∈ (subscription.UpdateSubscription env (postgres.NewRepository le) id ureq
          db).state.rows, dateOrderHolds row = true)) := by
  refine ⟨?_, ?_, ?_⟩
  rotate_left 2
  · intro hinv
    constructor
    · intro row hrow
      rcases service_createSubscription_state env (postgres.NewRepository le) creq db with
        h | ⟨hv, h⟩
      · rw [h] at hrow
        exact hinv row hrow
      · rw [h] at hrow
        change row ∈ (postgres.CreateSubscription (draftOf creq) db).2.rows at hrow
        rcases postgres_create_state (draftOf creq) db with h2 | ⟨new, hs, he, h2⟩
        · rw [h2] at hrow
          exact hinv row hrow
        · rw [h2] at hrow
          simp only [List.mem_append, List.mem_singleton] at hrow
          rcases hrow with hrow | hrow
          · exact hinv row hrow
          · rw [dateOrderHolds_iff]
            intro e hre
            rw [hrow, he] at hre
            rw [hrow, hs]
            exact hv e hre
    · intro row hrow
      rcases service_updateSubscription_state env (postgres.NewRepository le) id ureq db with
        h | h | ⟨existing, req1, hex, hend, hv, h⟩
      · rw [h] at hrow
        exact hinv row hrow
      · rw [h] at hrow
        change row ∈ (postgres.GetSubscriptionByID id db).2.rows at hrow
        rw [postgres_get_state] at hrow
        exact hinv row hrow
      · rw [h] at hrow
        change row ∈ (postgres.UpdateSubscription id req1
          (postgres.GetSubscriptionByID id db).2).2.rows at hrow
        rw [postgres_get_state] at hrow
        have hfound := postgres_get_ok id db existing hex
        rcases postgres_update_state id req1 db with h2 | ⟨old, row1, hfind, hs1, he1, h2⟩
        · rw [h2] at hrow
          exact hinv row hrow
        · rw [h2] at hrow
          simp only [List.mem_map] at hrow
          obtain ⟨a, ha, hrow⟩ := hrow
          by_cases hid : (a.ID == id) = true
          · rw [if_pos hid] at hrow
            subst hrow
            have hold : old ∈ db.rows := List.mem_of_find?_eq_some hfind
            have hsame : old = existing := by
              rw [hfind] at hfound
              exact Option.some.inj hfound
            rw [dateOrderHolds_iff]
            intro e hre
            rw [hs1]
            rcases he1 with he1 | ⟨e1, hreq, he1⟩
            · rw [he1] at hre
              exact (dateOrderHolds_iff old).1 (hinv old hold) e hre
            · rw [he1] at hre
              have hee : e1 = e := Option.some.inj hre
              rw [hsame, ← hee]
              exact hv e1 (hend ▸ hreq)
          · rw [if_neg hid] at hrow
            subst hrow
            exact hinv a ha
  · intro c hc
    cases hu : validateUUID env creq.UserID with
    | some e0 => simp [subscription.CreateSubscription, hu] at hc
    | none =>
      cases hs : validateDateFormat env.currentYear creq.StartDate with
      | some e0 => simp [subscription.CreateSubscription, hu, hs] at hc
      | none =>
        cases hr : (match creq.EndDate with
          | some endDate => validateDateRange env.currentYear creq.StartDate endDate
          | none => none) with
        | some e0 => simp [subscription.CreateSubscription, hu, hs, hr] at hc
        | none =>
          by_cases hp : creq.Price ≤ 0
          · simp [subscription.CreateSubscription, hu, hs, hr, hp] at hc
          · simp only [subscription.CreateSubscription, hu, hs, hr, hp, if_false,
              List.mem_singleton] at hc
            refine ⟨hc, rfl, rfl, ?_⟩
            intro e he
            rw [he] at hr
            exact ⟨hr, ((validateDateRange_none_iff _ _ _).1 hr).2.2⟩
  · intro c hc
    by_cases hid : id ≤ 0
    · simp [subscription.UpdateSubscription, hid] at hc
    · cases hex : (repo.GetSubscriptionByID id st).1 with
      | error e0 =>
        simp only [subscription.UpdateSubscription, hid, hex, if_false,
          List.mem_singleton] at hc
        exact Or.inl hc
      | ok existing =>
        cases hr : (match ureq.EndDate with
          | some endDate => validateDateRange env.currentYear existing.StartDate endDate
          | none => none) with
        | some e0 =>
          simp only [subscription.UpdateSubscription, hid, hex, hr, if_false,
            List.mem_singleton] at hc
          exact Or.inl hc
        | none =>
          cases hp : (match ureq.Price with
            | some price => decide (price ≤ 0)
            | none => false) with
          | true =>
            simp only [subscription.UpdateSubscription, hid, hex, hr, hp, if_false, if_true,
              List.mem_singleton] at hc
            exact Or.inl hc
          | false =>
            simp only [subscription.UpdateSubscription, hid, hex, hr, hp, if_false,
              Bool.false_eq_true, List.mem_cons, List.mem_singleton, List.mem_nil_iff,
              or_false] at hc
            rcases hc with hc | hc
            · exact Or.inl hc
            · refine Or.inr ⟨_, existing, hc, ?_, rfl, ?_⟩
              · cases ureq.ServiceName <;> rfl
              · intro e he
                rw [he] at hr
                exact ⟨hr, ((validateDateRange_none_iff _ _ _).1 hr).2.2⟩

/-- C9: a create request whose service name consists of blanks passes the check of the
handler, which compares the untrimmed name with the empty string, and the service then
hands the store a draft whose service name is empty: with any store the handler makes the
one call `CreateSubscription` with service name `""`, and with the Postgres store on an
empty table it answers 201 with a stored subscription whose service name is empty.  The
other half of the property holds for every request: the name handed to the store is the
trimmed name, which neither begins nor ends with white space. -/
theorem createSubscription_blank_service_name {σ : Type} (repo : Repository σ) (st : σ)
    (env : Env) (req : CreateSubscriptionRequest) :
    (handler.CreateSubscription exampleEnv repo (some blankNameRequest) st).calls =
      [Call.CreateSubscription
        { ID := 0, ServiceName := "", Price := 100, UserID := exampleUser,
          StartDate := "01-2024", EndDate := none, CreatedAt := { sec := 0, nsec := 0 },
          UpdatedAt := { sec := 0, nsec := 0 } }] ∧
    (handler.CreateSubscription exampleEnv (postgres.NewRepository textLe)
        (some blankNameRequest) (tableOf [])).result =
      { status := 201,
        body := Body.subscription
          { ID := 1, ServiceName := "", Price := 100, UserID := exampleUser,
            StartDate := "01-2024", EndDate := none, CreatedAt := { sec := 0, nsec := 0 },
            UpdatedAt := { sec := 0, nsec := 0 } } } ∧
    (∀ c ∈ (handler.CreateSubscription env repo (some req) st).calls,
      ∃ d, c = Call.CreateSubscription d ∧ d.ServiceName = strings.TrimSpace req.ServiceName ∧
        (∀ x, d.ServiceName.data.head? = some x → isSpace x = false) ∧
        (∀ x, d.ServiceName.data.getLast? = some x → isSpace x = false)) := by
  refine ⟨?_, by decide, ?_⟩
  · rw [handler_createSubscription_accepts exampleEnv repo blankNameRequest st (by decide)
      (by decide) (by decide) (by decide)]
    rfl
  · intro c hc
    have hsvc : c ∈ (subscription.CreateSubscription env repo req st).calls := by
      rcases handler_createSubscription_calls env repo req st with h | h
      · rw [h] at hc
        simp at hc
      · rw [h] at hc
        exact hc
    rcases service_createSubscription_calls env repo req st with h | h
    · rw [h] at hsvc
      simp at hsvc
    · rw [h] at hsvc
      simp only [List.mem_singleton] at hsvc
      exact ⟨draftOf req, hsvc, rfl, trimSpace_first _, trimSpace_last _⟩

/-- C10: for every filter with limit `L` and offset `O` whose owner filter is absent or a
valid UUID, `GetSubscriptions` calls the store exactly once, with limit 10 if `L <= 0`,
100 if `L > 100` and `L` otherwise, so a limit between 1 and 100, with offset 0 if `O < 0`
and `O` otherwise, and with the other filters unchanged; when the store returns rows the
response holds these rows, their number as total, and the same limit and offset, and when
the store fails its error is returned.  With an owner filter that is not a valid UUID the
result is `ErrInvalidUUID` and the store is not called.  In particular limit 0 gives 10,
limit 500 gives 100 and offset -5 gives 0, at the service and for a request that comes
through the handler with these query parameters. -/
theorem service_getSubscriptions_spec {σ : Type} (env : Env) (repo : Repository σ)
    (filters : SubscriptionFilters) (st : σ) :
    (1 ≤ clampLimit filters.Limit ∧ clampLimit filters.Limit ≤ 100 ∧
      0 ≤ clampOffset filters.Offset) ∧
    ((∀ u, filters.UserID = some u → env.uuidParse u = true) →
      (subscription.GetSubscriptions env repo filters st).calls =
        [Call.GetSubscriptions
          { UserID := filters.UserID, ServiceName := filters.ServiceName,
            Limit := clampLimit filters.Limit, Offset := clampOffset filters.Offset }] ∧
      (subscription.GetSubscriptions env repo filters st).state =
        (repo.GetSubscriptions
          { UserID := filters.UserID, ServiceName := filters.ServiceName,
            Limit := clampLimit filters.Limit, Offset := clampOffset filters.Offset } st).2 ∧
      (∀ rows,
        (repo.GetSubscriptions
          { UserID := filters.UserID, ServiceName := filters.ServiceName,
            Limit := clampLimit filters.Limit, Offset := clampOffset filters.Offset } st).1
          = Except.ok rows →
        (subscription.GetSubscriptions env repo filters st).result =
          Except.ok { Subscriptions := rows, Total := rows.length,
                      Limit := clampLimit filters.Limit,
                      Offset := clampOffset filters.Offset }) ∧
      (∀ e,
        (repo.GetSubscriptions
          { UserID := filters.UserID, ServiceName := filters.ServiceName,
            Limit := clampLimit filters.Limit, Offset := clampOffset filters.Offset } st).1
          = Except.error e →
        (subscription.GetSubscriptions env repo filters st).result = Except.error e)) ∧
    (∀ u, filters.UserID = some u → env.uuidParse u = false →
      (subscription.GetSubscriptions env repo filters st).result
          = Except.error Err.ErrInvalidUUID ∧
        (subscription.GetSubscriptions env repo filters st).calls = []) ∧
    (subscription.GetSubscriptions env repo
        { UserID := none, ServiceName := none, Limit := 0, Offset := -5 } st).calls =
      [Call.GetSubscriptions { UserID := none, ServiceName := none, Limit := 10, Offset := 0 }] ∧
    (subscription.GetSubscriptions env repo
        { UserID := none, ServiceName := none, Limit := 500, Offset := 7 } st).calls =
      [Call.GetSubscriptions { UserID := none, ServiceName := none, Limit := 100, Offset := 7 }] ∧
    (∀ rows,
      (repo.GetSubscriptions { UserID := none, ServiceName := none, Limit := 10, Offset := 0 }
        st).1 = Except.ok rows →
      (subscription.GetSubscriptions env repo
        { UserID := none, ServiceName := none, Limit := 0, Offset := -5 } st).result =
        Except.ok { Subscriptions := rows, Total := rows.length, Limit := 10, Offset := 0 }) ∧
    (∀ rows,
      (repo.GetSubscriptions { UserID := none, ServiceName := none, Limit := 100, Offset := 7 }
        st).1 = Except.ok rows →
      (subscription.GetSubscriptions env repo
        { UserID := none, ServiceName := none, Limit := 500, Offset := 7 } st).result =
        Except.ok { Subscriptions := rows, Total := rows.length, Limit := 100, Offset := 7 }) ∧
    (handler.GetSubscriptions env repo
        { user_id := "", service_name := "", limit := "500", offset := "-5" } st).calls =
      [Call.GetSubscriptions { UserID := none, ServiceName := none, Limit := 100, Offset := 0 }] ∧
    (handler.GetSubscriptions env repo
        { user_id := "", service_name := "", limit := "0", offset := "" } st).calls =
      [Call.GetSubscriptions { UserID := none, ServiceName := none, Limit := 10, Offset := 0 }] ∧
    clampLimit 0 = 10 ∧ clampLimit 500 = 100 ∧ clampOffset (-5) = 0 := by
  have e0 := service_getSubscriptions_valid env repo
    { UserID := none, ServiceName := none, Limit := 0, Offset := -5 } st
    (by intro u h; cases h)
  have e500 := service_getSubscriptions_valid env repo
    { UserID := none, ServiceName := none, Limit := 500, Offset := 7 } st
    (by intro u h; cases h)
  have c0 : clampFilters { UserID := none, ServiceName := none, Limit := 0, Offset := -5 }
      = { UserID := none, ServiceName := none, Limit := 10, Offset := 0 } := by decide
  have c500 : clampFilters { UserID := none, ServiceName := none, Limit := 500, Offset := 7 }
      = { UserID := none, ServiceName := none, Limit := 100, Offset := 7 } := by decide
  rw [c0] at e0
  rw [c500] at e500
  have p1 : handler.parseFilters
      { user_id := "", service_name := "", limit := "500", offset := "-5" }
      = { UserID := none, ServiceName := none, Limit := 500, Offset := 0 } := by decide
  have p2 : handler.parseFilters
      { user_id := "", service_name := "", limit := "0", offset := "" }
      = { UserID := none, ServiceName := none, Limit := 10, Offset := 0 } := by decide
  have h1 := service_getSubscriptions_valid env repo
    { UserID := none, ServiceName := none, Limit := 500, Offset := 0 } st
    (by intro u h; cases h)
  have h2 := service_getSubscriptions_valid env repo
    { UserID := none, ServiceName := none, Limit := 10, Offset := 0 } st
    (by intro u h; cases h)
  have d1 : clampFilters { UserID := none, ServiceName := none, Limit := 500, Offset := 0 }
      = { UserID := none, ServiceName := none, Limit := 100, Offset := 0 } := by decide
  have d2 : clampFilters { UserID := none, ServiceName := none, Limit := 10, Offset := 0 }
      = { UserID := none, ServiceName := none, Limit := 10, Offset := 0 } := by decide
  rw [d1] at h1
  rw [d2] at h2
  refine ⟨?_, ?_, ?_, e0.1, e500.1, ?_, ?_, ?_, ?_, by decide, by decide, by decide⟩
  · unfold clampLimit clampOffset
    split_ifs <;> omega
  · intro hu
    exact service_getSubscriptions_valid env repo filters st hu
  · intro u h hbad
    obtain ⟨g1, g2, -⟩ := service_getSubscriptions_invalid env repo filters st u h hbad
    exact ⟨g1, g2⟩
  · intro rows hrows
    exact e0.2.2.1 rows hrows
  · intro rows hrows
    exact e500.2.2.1 rows hrows
  · rw [handler_getSubscriptions_calls, p1]
    exact h1.1
  · rw [handler_getSubscriptions_calls, p2]
    exact h2.1

/-! ## The properties of the service at concrete requests -/

/-- A valid cost query of the owner of a stored subscription reaches the store and its sum
comes back with the request echoed. -/
theorem service_calculateCost_spec_witness :
    (subscription.CalculateCost exampleEnv (postgres.NewRepository textLe)
      { UserID := some exampleUser, ServiceName := some "net", StartDate := "02-2024",
        EndDate := "03-2024" }
      (tableOf [exampleRow 999 "01-2024" none])).result =
      Except.ok { TotalCost := 999, StartDate := "02-2024", EndDate := "03-2024",
                  UserID := some exampleUser, ServiceName := some "net" } :=
  (service_calculateCost_spec exampleEnv (postgres.NewRepository textLe)
    { UserID := some exampleUser, ServiceName := some "net", StartDate := "02-2024",
      EndDate := "03-2024" }
    (tableOf [exampleRow 999 "01-2024" none])).2.2.2.2 (by decide)
    (by intro u hu; cases hu; decide) 999 (by decide)

/-- A request with price 0 is refused with `ErrInvalidPrice` without a store call, and
the same request with price 999 reaches the insert of the store. -/
theorem service_createSubscription_spec_witness :
    ((subscription.CreateSubscription exampleEnv (postgres.NewRepository textLe)
        { ServiceName := " Netflix ", Price := 0, UserID := exampleUser,
          StartDate := "01-2024", EndDate := some "06-2024" } (tableOf [])).result
        = Except.error Err.ErrInvalidPrice ∧
      (subscription.CreateSubscription exampleEnv (postgres.NewRepository textLe)
        { ServiceName := " Netflix ", Price := 0, UserID := exampleUser,
          StartDate := "01-2024", EndDate := some "06-2024" } (tableOf [])).calls = []) ∧
    (subscription.CreateSubscription exampleEnv (postgres.NewRepository textLe)
        { ServiceName := " Netflix ", Price := 999, UserID := exampleUser,
          StartDate := "01-2024", EndDate := some "06-2024" } (tableOf [])).calls =
      [Call.CreateSubscription
        { ID := 0, ServiceName := "Netflix", Price := 999, UserID := exampleUser,
          StartDate := "01-2024", EndDate := some "06-2024",
          CreatedAt := { sec := 0, nsec := 0 }, UpdatedAt := { sec := 0, nsec := 0 } }] :=
  ⟨(service_createSubscription_spec exampleEnv (postgres.NewRepository textLe)
      { ServiceName := " Netflix ", Price := 0, UserID := exampleUser,
        StartDate := "01-2024", EndDate := some "06-2024" } (tableOf [])).2.2.2.2.1
      (by decide) (by decide) (by intro e he; cases he; decide) (by decide),
    ((service_createSubscription_spec exampleEnv (postgres.NewRepository textLe)
      { ServiceName := " Netflix ", Price := 999, UserID := exampleUser,
        StartDate := "01-2024", EndDate := some "06-2024" } (tableOf [])).2.2.2.2.2
      (by decide) (by decide) (by intro e he; cases he; decide) (by decide)).1⟩

/-- A table with one subscription from `03-2023` to `06-2023` keeps the order of its dates
when a second subscription is created and when the end date of the first is moved to
`04-2023`; an end date `02-2023` before the start is refused and leaves the table as it
is. -/
theorem store_writes_keep_date_order_witness :
    ((∀ row ∈ (subscription.CreateSubscription exampleEnv (postgres.NewRepository textLe)
        { ServiceName := "Okko", Price := 300, UserID := exampleUser, StartDate := "05-2024",
          EndDate := some "05-2024" }
        (tableOf [exampleRow 100 "03-2023" (some "06-2023")])).state.rows,
        dateOrderHolds row = true) ∧
      (∀ row ∈ (subscription.UpdateSubscription exampleEnv (postgres.NewRepository textLe) 1
        { ServiceName := none, Price := none, EndDate := some "04-2023" }
        (tableOf [exampleRow 100 "03-2023" (some "06-2023")])).state.rows,
        dateOrderHolds row = true)) ∧
    (subscription.UpdateSubscription exampleEnv (postgres.NewRepository textLe) 1
        { ServiceName := none, Price := none, EndDate := some "04-2023" }
        (tableOf [exampleRow 100 "03-2023" (some "06-2023")])).state.rows =
      [exampleRow 100 "03-2023" (some "04-2023")] ∧
    (subscription.UpdateSubscription exampleEnv (postgres.NewRepository textLe) 1
        { ServiceName := none, Price := none, EndDate := some "02-2023" }
        (tableOf [exampleRow 100 "03-2023" (some "06-2023")])).result =
      Except.error Err.ErrInvalidDateRange :=
  ⟨(store_writes_keep_date_order exampleEnv (postgres.NewRepository textLe)
      { ServiceName := "Okko", Price := 300, UserID := exampleUser, StartDate := "05-2024",
        EndDate := some "05-2024" } 1
      { ServiceName := none, Price := none, EndDate := some "04-2023" }
      (tableOf [exampleRow 100 "03-2023" (some "06-2023")]) textLe
      (tableOf [exampleRow 100 "03-2023" (some "06-2023")])).2.2 (by decide),
    by decide, by decide⟩

/-- A list request with limit 500 and offset -5 on a table of one row: the store is asked
for limit 100 and offset 0, and the response echoes them and counts the one row of the
page. -/
theorem service_getSubscriptions_spec_witness :
    (subscription.GetSubscriptions exampleEnv (postgres.NewRepository textLe)
      { UserID := none, ServiceName := none, Limit := 500, Offset := -5 }
      (tableOf [exampleRow 100 "03-2023" none])).calls =
      [Call.GetSubscriptions
        { UserID := none, ServiceName := none, Limit := clampLimit 500,
          Offset := clampOffset (-5) }] ∧
    (subscription.GetSubscriptions exampleEnv (postgres.NewRepository textLe)
      { UserID := none, ServiceName := none, Limit := 500, Offset := -5 }
      (tableOf [exampleRow 100 "03-2023" none])).result =
      Except.ok { Subscriptions := [exampleRow 100 "03-2023" none], Total := 1, Limit := 100,
                  Offset := 0 } :=
  ⟨((service_getSubscriptions_spec exampleEnv (postgres.NewRepository textLe)
      { UserID := none, ServiceName := none, Limit := 500, Offset := -5 }
      (tableOf [exampleRow 100 "03-2023" none])).2.1 (by intro u h; cases h)).1,
    (((service_getSubscriptions_spec exampleEnv (postgres.NewRepository textLe)
      { UserID := none, ServiceName := none, Limit := 500, Offset := -5 }
      (tableOf [exampleRow 100 "03-2023" none])).2.1 (by intro u h; cases h)).2.2.1
      [exampleRow 100 "03-2023" none] (by decide)).trans (by decide)⟩

/-! ## Safety and order of the date model -/

/-- C17: every string that matches the date pattern splits on the hyphen into exactly two
parts, both parts parse as integers with a nil error, to the month and the year written in
the string, and the month lies between 1 and 12.  So the result of `validateDateFormat` on
such a string is decided by the year alone, the branch for a month out of range is never
taken, and neither `validateDateFormat` nor `validateDateRange` ever ends with an index out
of range, on any strings. -/
theorem datePattern_split_parse (s : String)
    (h : regexp.MatchString datePattern s = true) :
    (∃ p0 p1, strings.Split s.data '-' = [p0, p1] ∧
      (strconv.Atoi p0).2 = true ∧ (strconv.Atoi p1).2 = true ∧
      1 ≤ (strconv.Atoi p0).1 ∧ (strconv.Atoi p0).1 ≤ 12 ∧
      (strconv.Atoi p0).1 = (monthOf s : Int) ∧ (strconv.Atoi p1).1 = (yearOf s : Int)) ∧
    (∀ Y : Int, validateDateFormat Y s =
      if (yearOf s : Int) < 2000 ∨ (yearOf s : Int) > Y + 10
      then some Err.ErrInvalidDateFormat else none) ∧
    (∀ (Y : Int) (t : String), validateDateFormat Y t ≠ some Err.indexOutOfRange) ∧
    (∀ (Y : Int) (t u : String), validateDateRange Y t u ≠ some Err.indexOutOfRange) := by
  have hshape := (matchString_datePattern s).1 h
  refine ⟨?_, fun Y => validateDateFormat_of_shape Y s hshape,
    fun Y t => validateDateFormat_ne_panic Y t, fun Y t u => validateDateRange_ne_panic Y t u⟩
  obtain ⟨a, b, c, d, e, f, hd0, ha, hb, hc, hd, he, hf, hm1, hm2⟩ := dateShape_bounds hshape
  refine ⟨[a, b], [c, d, e, f], ?_, ?_, ?_, ?_, ?_, ?_, ?_⟩
  · rw [hd0, split_dateShape a b c d e f ha.1 hb.1 hc.1 hd.1 he.1 hf.1]
  · rw [atoi_two a b ha hb]
  · rw [atoi_four c d e f hc hd he hf]
  · rw [atoi_two a b ha hb]
    simp only
    omega
  · rw [atoi_two a b ha hb]
    simp only
    omega
  · rw [atoi_two a b ha hb]
    simp [monthOf, hd0]
  · rw [atoi_four c d e f hc hd he hf]
    simp [yearOf, hd0]

/-- The string `07-2024` splits into `07` and `2024`, which parse to 7 and 2024. -/
theorem datePattern_split_parse_witness :
    regexp.MatchString datePattern "07-2024" = true ∧
      ∃ p0 p1, strings.Split "07-2024".data '-' = [p0, p1] ∧
        (strconv.Atoi p0).2 = true ∧ (strconv.Atoi p1).2 = true ∧
        1 ≤ (strconv.Atoi p0).1 ∧ (strconv.Atoi p0).1 ≤ 12 ∧
        (strconv.Atoi p0).1 = (monthOf "07-2024" : Int) ∧
        (strconv.Atoi p1).1 = (yearOf "07-2024" : Int) :=
  ⟨by decide, (datePattern_split_parse "07-2024" (by decide)).1⟩

/-- C18: on the strings that pass `validateDateFormat`, the relation "`validateDateRange`
of `a` and `b` returns nil" is a total order: it holds of `a` and `a`; of `a` and `b` it
holds in at least one direction, and in both only when `a` and `b` are the same string;
and it is transitive. -/
theorem validateDateRange_total_order (Y : Int) (a b c : String)
    (ha : validateDateFormat Y a = none) (hb : validateDateFormat Y b = none)
    (hc : validateDateFormat Y c = none) :
    validateDateRange Y a a = none ∧
    (validateDateRange Y a b = none ∨ validateDateRange Y b a = none) ∧
    (validateDateRange Y a b = none → validateDateRange Y b a = none → a = b) ∧
    (validateDateRange Y a b = none → validateDateRange Y b c = none →
      validateDateRange Y a c = none) := by
  simp only [validateDateRange_none_iff, ha, hb, hc, true_and]
  simp only [monthDateAfter, decide_eq_false_iff_not]
  refine ⟨by omega, by omega, ?_, by omega⟩
  intro h1 h2
  have hy : yearOf a = yearOf b := by omega
  have hm : monthOf a = monthOf b := by omega
  rw [eq_formatMonthDate_of_valid ha, eq_formatMonthDate_of_valid hb, hy, hm]

/-- The dates `12-2024`, `01-2025` and `02-2025` are ordered as months, not as texts. -/
theorem validateDateRange_total_order_witness :
    validateDateFormat 2025 "12-2024" = none ∧ validateDateFormat 2025 "01-2025" = none ∧
      validateDateFormat 2025 "02-2025" = none ∧
      validateDateRange 2025 "12-2024" "12-2024" = none ∧
      (validateDateRange 2025 "12-2024" "01-2025" = none →
        validateDateRange 2025 "01-2025" "02-2025" = none →
        validateDateRange 2025 "12-2024" "02-2025" = none) :=
  ⟨by decide, by decide, by decide,
    (validateDateRange_total_order 2025 "12-2024" "01-2025" "02-2025" (by decide) (by decide)
      (by decide)).1,
    (validateDateRange_total_order 2025 "12-2024" "01-2025" "02-2025" (by decide) (by decide)
      (by decide)).2.2.2⟩

/-! ## Further properties of the domain service -/

/-- C14: for every id that is zero or negative, `GetSubscriptionByID`,
`UpdateSubscription` and `DeleteSubscription` fail with `ErrInvalidData` and make no store
call; for every positive id, `GetSubscriptionByID` and `DeleteSubscription` make the one
store call for this id and return exactly its result and state.  On the Postgres store
that is `ErrNotFound` when no row has the id. -/
theorem service_id_guard {σ : Type} (env : Env) (repo : Repository σ) (id : Int)
    (req : UpdateSubscriptionRequest) (st : σ) (le : DateOrder) (db : DB) :
    (id ≤ 0 →
      ((subscription.GetSubscriptionByID repo id st).result
          = Except.error Err.ErrInvalidData ∧
        (subscription.GetSubscriptionByID repo id st).calls = []) ∧
      ((subscription.UpdateSubscription env repo id req st).result
          = Except.error Err.ErrInvalidData ∧
        (subscription.UpdateSubscription env repo id req st).calls = []) ∧
      ((subscription.DeleteSubscription repo id st).result = some Err.ErrInvalidData ∧
        (subscription.DeleteSubscription repo id st).calls = [])) ∧
    (0 < id →
      ((subscription.GetSubscriptionByID repo id st).result
          = (repo.GetSubscriptionByID id st).1 ∧
        (subscription.GetSubscriptionByID repo id st).state
          = (repo.GetSubscriptionByID id st).2 ∧
        (subscription.GetSubscriptionByID repo id st).calls
          = [Call.GetSubscriptionByID id]) ∧
      ((subscription.DeleteSubscription repo id st).result
          = (repo.DeleteSubscription id st).1 ∧
        (subscription.DeleteSubscription repo id st).state
          = (repo.DeleteSubscription id st).2 ∧
        (subscription.DeleteSubscription repo id st).calls
          = [Call.DeleteSubscription id])) ∧
    (0 < id → db.fault = none → (∀ r ∈ db.rows, r.ID ≠ id) →
      (subscription.GetSubscriptionByID (postgres.NewRepository le) id db).result
          = Except.error Err.ErrNotFound ∧
        (subscription.DeleteSubscription (postgres.NewRepository le) id db).result
          = some Err.ErrNotFound) := by
  refine ⟨?_, ?_, ?_⟩
  · intro hid
    have hu := service_updateSubscription_bad_id env repo id req st hid
    simp [subscription.GetSubscriptionByID, subscription.DeleteSubscription, hid, hu.1,
      hu.2.2]
  · intro hid
    have hid1 : ¬ id ≤ 0 := by omega
    simp [subscription.GetSubscriptionByID, subscription.DeleteSubscription, hid1]
  · intro hid hf habsent
    have hid1 : ¬ id ≤ 0 := by omega
    simp [subscription.GetSubscriptionByID, subscription.DeleteSubscription, hid1,
      postgres.NewRepository, postgres_get_absent id db hf habsent,
      postgres_delete_absent id db hf habsent]

/-- The id 0 is refused without a store call; the id 7 is looked up in the store, which
holds no such row. -/
theorem service_id_guard_witness :
    (subscription.DeleteSubscription (postgres.NewRepository textLe) 0
        (tableOf [exampleRow 100 "03-2023" none])).calls = [] ∧
      (subscription.GetSubscriptionByID (postgres.NewRepository textLe) 7
        (tableOf [exampleRow 100 "03-2023" none])).result = Except.error Err.ErrNotFound :=
  ⟨((service_id_guard exampleEnv (postgres.NewRepository textLe) 0 emptyPatch
      (tableOf [exampleRow 100 "03-2023" none]) textLe
      (tableOf [exampleRow 100 "03-2023" none])).1 (by decide)).2.2.2,
    ((service_id_guard exampleEnv (postgres.NewRepository textLe) 7 emptyPatch
      (tableOf [exampleRow 100 "03-2023" none]) textLe
      (tableOf [exampleRow 100 "03-2023" none])).2.2 (by decide) rfl (by decide)).1⟩

/-- C15: for every positive id whose record the store returns, with a stored start date
`s` that is a valid month date, and every patch: when the patch supplies an end date that
is malformed, `UpdateSubscription` fails with `ErrInvalidDateFormat`, and when it supplies
one that is earlier than `s`, with `ErrInvalidDateRange`; otherwise, when the patch
supplies a price that is zero or negative, with `ErrInvalidPrice`; in these cases the only
store call is the lookup.  Otherwise the update of the store is called once, with the price
and end date of the patch and the trimmed service name, and its result is returned.  The
end date is checked against the stored start date; a patch has no start date.  When the
lookup returns `ErrNotFound` that is the result, whatever the patch contains. -/
theorem service_updateSubscription_spec {σ : Type} (env : Env) (repo : Repository σ)
    (id : Int) (req : UpdateSubscriptionRequest) (st : σ) (le : DateOrder) (db : DB)
    (hid : 0 < id) :
    (∀ existing, (repo.GetSubscriptionByID id st).1 = Except.ok existing →
      validateDateFormat env.currentYear existing.StartDate = none →
      (∀ e, req.EndDate = some e → validateDateFormat env.currentYear e ≠ none →
        (subscription.UpdateSubscription env repo id req st).result
            = Except.error Err.ErrInvalidDateFormat ∧
          (subscription.UpdateSubscription env repo id req st).calls
            = [Call.GetSubscriptionByID id]) ∧
      (∀ e, req.EndDate = some e → validateDateFormat env.currentYear e = none →
        monthDateAfter existing.StartDate e = true →
        (subscription.UpdateSubscription env repo id req st).result
            = Except.error Err.ErrInvalidDateRange ∧
          (subscription.UpdateSubscription env repo id req st).calls
            = [Call.GetSubscriptionByID id]) ∧
      ((∀ e, req.EndDate = some e → validateDateFormat env.currentYear e = none ∧
          monthDateAfter existing.StartDate e = false) →
        ∀ p, req.Price = some p → p ≤ 0 →
        (subscription.UpdateSubscription env repo id req st).result
            = Except.error Err.ErrInvalidPrice ∧
          (subscription.UpdateSubscription env repo id req st).calls
            = [Call.GetSubscriptionByID id]) ∧
      ((∀ e, req.EndDate = some e → validateDateFormat env.currentYear e = none ∧
          monthDateAfter existing.StartDate e = false) →
        (∀ p, req.Price = some p → 0 < p) →
        (subscription.UpdateSubscription env repo id req st).calls
            = [Call.GetSubscriptionByID id, Call.UpdateSubscription id (trimmedPatch req)] ∧
          (subscription.UpdateSubscription env repo id req st).result
            = (repo.UpdateSubscription id (trimmedPatch req)
                (repo.GetSubscriptionByID id st).2).1 ∧
          (subscription.UpdateSubscription env repo id req st).state
            = (repo.UpdateSubscription id (trimmedPatch req)
                (repo.GetSubscriptionByID id st).2).2 ∧
          (trimmedPatch req).Price = req.Price ∧ (trimmedPatch req).EndDate = req.EndDate ∧
          (trimmedPatch req).ServiceName = req.ServiceName.map strings.TrimSpace)) ∧
    ((repo.GetSubscriptionByID id st).1 = Except.error Err.ErrNotFound →
      (subscription.UpdateSubscription env repo id req st).result
          = Except.error Err.ErrNotFound ∧
        (subscription.UpdateSubscription env repo id req st).calls
          = [Call.GetSubscriptionByID id]) ∧
    (db.fault = none → (∀ r ∈ db.rows, r.ID ≠ id) →
      (subscription.UpdateSubscription env (postgres.NewRepository le) id req db).result
          = Except.error Err.ErrNotFound ∧
        (subscription.UpdateSubscription env (postgres.NewRepository le) id req db).state
          = db) := by
  refine ⟨?_, ?_, ?_⟩
  · intro existing hex hs
    obtain ⟨f1, f2, f3⟩ := service_updateSubscription_found env repo id req st existing hid hex
    have hrange : (∀ e, req.EndDate = some e → validateDateFormat env.currentYear e = none ∧
        monthDateAfter existing.StartDate e = false) →
        (match req.EndDate with
          | some endDate => validateDateRange env.currentYear existing.StartDate endDate
          | none => none) = none := by
      intro hok
      cases he : req.EndDate with
      | none => rfl
      | some e =>
        obtain ⟨h1, h2⟩ := hok e he
        exact (validateDateRange_none_iff _ _ _).2 ⟨hs, h1, h2⟩
    refine ⟨?_, ?_, ?_, ?_⟩
    · intro e he hbad
      have hr : (match req.EndDate with
          | some endDate => validateDateRange env.currentYear existing.StartDate endDate
          | none => none) = some Err.ErrInvalidDateFormat := by
        rw [he]
        simp only [validateDateRange_eq]
        simp [hs, hbad]
      exact ⟨(f1 _ hr).1, (f1 _ hr).2.2⟩
    · intro e he hok hafter
      have hr : (match req.EndDate with
          | some endDate => validateDateRange env.currentYear existing.StartDate endDate
          | none => none) = some Err.ErrInvalidDateRange := by
        rw [he]
        simp only [validateDateRange_eq]
        simp [hs, hok, hafter]
      exact ⟨(f1 _ hr).1, (f1 _ hr).2.2⟩
    · intro hok p hp hle
      have hbad : (match req.Price with
          | some price => decide (price ≤ 0)
          | none => false) = true := by
        rw [hp]
        simp [hle]
      exact ⟨(f2 (hrange hok) hbad).1, (f2 (hrange hok) hbad).2.2⟩
    · intro hok hpos
      have hgood : (match req.Price with
          | some price => decide (price ≤ 0)
          | none => false) = false := by
        cases hp : req.Price with
        | none => rfl
        | some p =>
          have := hpos p hp
          simp only [decide_eq_false_iff_not]
          omega
      obtain ⟨g1, g2, g3⟩ := f3 (hrange hok) hgood
      exact ⟨g3, g1, g2, rfl, rfl, rfl⟩
  · intro hex
    obtain ⟨g1, -, g3⟩ :=
      service_updateSubscription_lookup_failed env repo id req st Err.ErrNotFound hid hex
    exact ⟨g1, g3⟩
  · intro hf habsent
    have hget := postgres_get_absent id db hf habsent
    have hex : ((postgres.NewRepository le).GetSubscriptionByID id db).1
        = Except.error Err.ErrNotFound := by
      change (postgres.GetSubscriptionByID id db).1 = _
      rw [hget]
    obtain ⟨g1, g2, -⟩ := service_updateSubscription_lookup_failed env
      (postgres.NewRepository le) id req db Err.ErrNotFound hid hex
    refine ⟨g1, ?_⟩
    rw [g2]
    change (postgres.GetSubscriptionByID id db).2 = db
    rw [hget]

/-! ## Properties of the update statement -/

/-- C16: for every patch with at least one field, the `UPDATE` statement that the store
builds assigns the columns of the fields present in the patch, in the order
`service_name`, `price`, `end_date`, then `updated_at`, and no other column.  Its
placeholders, those of the assignments followed by the one of the `WHERE` clause, are
`$1 .. $n` in this order, where `n` is the number of arguments; every assignment is bound to
the value of its field, `updated_at` to the time of the update, and the last placeholder to
the id.  Run on a table that holds the row, the statement returns the row with the
present fields replaced and the update time set; a field that is absent from the patch, and
the id, owner, start date and creation time keep their values. -/
theorem update_statement_shape (id : Int) (req : UpdateSubscriptionRequest) (now : Time)
    (db : DB) (old : Subscription)
    (hne : ¬ (req.ServiceName = none ∧ req.Price = none ∧ req.EndDate = none)) :
    (∃ stmt, postgres.buildUpdate id req now = Except.ok (stmt, patchArgs id req now) ∧
      stmt.setParts.map (fun p => p.1) = patchColumns req ∧
      stmt.setParts.map (fun p => p.2) ++ [stmt.whereId]
        = List.range' 1 (patchArgs id req now).length ∧
      param (patchArgs id req now) stmt.whereId = some (SqlArg.int id) ∧
      (∀ k, (Column.service_name, k) ∈ stmt.setParts →
        ∃ v, req.ServiceName = some v ∧
          param (patchArgs id req now) k = some (SqlArg.text v)) ∧
      (∀ k, (Column.price, k) ∈ stmt.setParts →
        ∃ v, req.Price = some v ∧ param (patchArgs id req now) k = some (SqlArg.int v)) ∧
      (∀ k, (Column.end_date, k) ∈ stmt.setParts →
        ∃ v, req.EndDate = some v ∧ param (patchArgs id req now) k = some (SqlArg.text v)) ∧
      (∀ k, (Column.updated_at, k) ∈ stmt.setParts →
        param (patchArgs id req now) k = some (SqlArg.timestamp now))) ∧
    (db.fault = none → db.rows.find? (fun r => r.ID == id) = some old →
      postgres.UpdateSubscription id req db =
        (Except.ok (patchRow req db.now old),
          { db with rows := patchRows id (patchRow req db.now old) db.rows })) ∧
    ((req.ServiceName = none → (patchRow req now old).ServiceName = old.ServiceName) ∧
      (req.Price = none → (patchRow req now old).Price = old.Price) ∧
      (req.EndDate = none → (patchRow req now old).EndDate = old.EndDate) ∧
      (patchRow req now old).ID = old.ID ∧ (patchRow req now old).UserID = old.UserID ∧
      (patchRow req now old).StartDate = old.StartDate ∧
      (patchRow req now old).CreatedAt = old.CreatedAt) ∧
    (∀ r ∈ db.rows, r.ID ≠ id → r ∈ patchRows id (patchRow req db.now old) db.rows) := by
  refine ⟨buildUpdate_nonempty id req now hne,
    fun hf hfind => postgres_update_found id req db old hf hfind hne, ?_, ?_⟩
  · refine ⟨?_, ?_, ?_, rfl, rfl, rfl, rfl⟩
    · intro h
      simp [patchRow, h]
    · intro h
      simp [patchRow, h]
    · intro h
      simp [patchRow, h]
  · intro r hr hne1
    unfold patchRows
    rw [List.mem_map]
    refine ⟨r, hr, ?_⟩
    have : (r.ID == id) = false := by simpa using hne1
    simp [this]

/-- A patch of the price alone: the statement is `SET price = $1, updated_at = $2 WHERE
id = $3` with the price, the time and the id as arguments, and the row keeps its name and
dates. -/
theorem update_statement_shape_witness :
    postgres.buildUpdate 1 { ServiceName := none, Price := some 500, EndDate := none }
        { sec := 9, nsec := 0 } =
      Except.ok ({ setParts := [(Column.price, 1), (Column.updated_at, 2)], whereId := 3 },
        [SqlArg.int 500, SqlArg.timestamp { sec := 9, nsec := 0 }, SqlArg.int 1]) ∧
    postgres.UpdateSubscription 1 { ServiceName := none, Price := some 500, EndDate := none }
        (tableOf [exampleRow 100 "03-2023" (some "06-2023")]) =
      (Except.ok (exampleRow 500 "03-2023" (some "06-2023")),
        tableOf [exampleRow 500 "03-2023" (some "06-2023")]) :=
  ⟨by decide,
    ((update_statement_shape 1 { ServiceName := none, Price := some 500, EndDate := none }
      { sec := 0, nsec := 0 } (tableOf [exampleRow 100 "03-2023" (some "06-2023")])
      (exampleRow 100 "03-2023" (some "06-2023")) (by decide)).2.1 rfl (by decide)).trans
      (by rfl)⟩

/-! ## Validation and the store -/

/-- With no row in the table, `UpdateSubscription` with id 1 and the empty patch returns
`ErrNotFound`, not `ErrInvalidData`. -/
theorem updateSubscription_empty_patch_absent :
    (subscription.UpdateSubscription exampleEnv (postgres.NewRepository textLe) 1 emptyPatch
        (tableOf [])).result = Except.error Err.ErrNotFound ∧
      (subscription.UpdateSubscription exampleEnv (postgres.NewRepository textLe) 1 emptyPatch
        (tableOf [])).result ≠ Except.error Err.ErrInvalidData := by
  refine ⟨by decide, by decide⟩

/-- C11, amended: `UpdateSubscription` of the store fails with `ErrInvalidData` on the
empty patch for every id and builds no statement.  `UpdateSubscription` of the service,
called with the empty patch, fails with `ErrInvalidData` for every id that is zero or
negative and for every positive id whose record the lookup returns; for a positive id
whose lookup fails it returns the error of the lookup, `ErrNotFound` when the record is
absent.  In every case the table is left as it was. -/
theorem updateSubscription_empty_patch (env : Env) (le : DateOrder) (id : Int) (db : DB) :
    postgres.UpdateSubscription id emptyPatch db = (Except.error Err.ErrInvalidData, db) ∧
    (∀ now, postgres.buildUpdate id emptyPatch now = Except.error Err.ErrInvalidData) ∧
    (id ≤ 0 →
      (subscription.UpdateSubscription env (postgres.NewRepository le) id emptyPatch
          db).result = Except.error Err.ErrInvalidData ∧
        (subscription.UpdateSubscription env (postgres.NewRepository le) id emptyPatch
          db).calls = []) ∧
    (0 < id → ∀ existing, (postgres.GetSubscriptionByID id db).1 = Except.ok existing →
      (subscription.UpdateSubscription env (postgres.NewRepository le) id emptyPatch
          db).result = Except.error Err.ErrInvalidData ∧
        (subscription.UpdateSubscription env (postgres.NewRepository le) id emptyPatch
          db).calls = [Call.GetSubscriptionByID id, Call.UpdateSubscription id emptyPatch]) ∧
    (0 < id → ∀ e, (postgres.GetSubscriptionByID id db).1 = Except.error e →
      (subscription.UpdateSubscription env (postgres.NewRepository le) id emptyPatch
          db).result = Except.error e ∧
        (subscription.UpdateSubscription env (postgres.NewRepository le) id emptyPatch
          db).calls = [Call.GetSubscriptionByID id]) ∧
    (subscription.UpdateSubscription env (postgres.NewRepository le) id emptyPatch
      db).state = db := by
  have hstate : (subscription.UpdateSubscription env (postgres.NewRepository le) id emptyPatch
      db).state = db := by
    by_cases hid : id ≤ 0
    · exact (service_updateSubscription_bad_id env _ id emptyPatch db hid).2.1
    · have hid1 : 0 < id := by omega
      cases hex : (postgres.GetSubscriptionByID id db).1 with
      | error e0 =>
        rw [(service_updateSubscription_lookup_failed env (postgres.NewRepository le) id
          emptyPatch db e0 hid1 hex).2.1]
        exact postgres_get_state id db
      | ok existing =>
        rw [((service_updateSubscription_found env (postgres.NewRepository le) id emptyPatch
          db existing hid1 hex).2.2 rfl rfl).2.1]
        change (postgres.UpdateSubscription id emptyPatch
          (postgres.GetSubscriptionByID id db).2).2 = db
        rw [postgres_get_state, postgres_update_empty]
  refine ⟨postgres_update_empty id db, fun now => rfl, ?_, ?_, ?_, hstate⟩
  · intro hid
    obtain ⟨g1, -, g3⟩ := service_updateSubscription_bad_id env (postgres.NewRepository le) id
      emptyPatch db hid
    exact ⟨g1, g3⟩
  · intro hid existing hex
    obtain ⟨g1, -, g3⟩ := (service_updateSubscription_found env (postgres.NewRepository le) id
      emptyPatch db existing hid hex).2.2 rfl rfl
    refine ⟨?_, g3⟩
    rw [g1]
    change (postgres.UpdateSubscription id emptyPatch (postgres.GetSubscriptionByID id db).2).1
      = _
    rw [postgres_get_state, postgres_update_empty]
  · intro hid e hex
    obtain ⟨g1, -, g3⟩ := service_updateSubscription_lookup_failed env
      (postgres.NewRepository le) id emptyPatch db e hid hex
    exact ⟨g1, g3⟩

/-- The empty patch for the stored subscription 1 is refused with `ErrInvalidData`, and
the table is unchanged. -/
theorem updateSubscription_empty_patch_witness :
    (subscription.UpdateSubscription exampleEnv (postgres.NewRepository textLe) 1 emptyPatch
        (tableOf [exampleRow 100 "03-2023" none])).result
        = Except.error Err.ErrInvalidData ∧
      (subscription.UpdateSubscription exampleEnv (postgres.NewRepository textLe) 1 emptyPatch
        (tableOf [exampleRow 100 "03-2023" none])).state.rows
        = [exampleRow 100 "03-2023" none] :=
  ⟨((updateSubscription_empty_patch exampleEnv textLe 1
      (tableOf [exampleRow 100 "03-2023" none])).2.2.2.1 (by decide)
      (exampleRow 100 "03-2023" none) (by decide)).1,
    by rw [(updateSubscription_empty_patch exampleEnv textLe 1
      (tableOf [exampleRow 100 "03-2023" none])).2.2.2.2.2]; rfl⟩

/-- An update of the stored subscription 1, which starts in `03-2023`, to the end date
`02-2023` returns `ErrInvalidDateRange` after the store has been called for the lookup. -/
theorem updateSubscription_validates_after_lookup :
    (subscription.UpdateSubscription exampleEnv (postgres.NewRepository textLe) 1
        { ServiceName := none, Price := none, EndDate := some "02-2023" }
        (tableOf [exampleRow 100 "03-2023" none])).result
        = Except.error Err.ErrInvalidDateRange ∧
      (subscription.UpdateSubscription exampleEnv (postgres.NewRepository textLe) 1
        { ServiceName := none, Price := none, EndDate := some "02-2023" }
        (tableOf [exampleRow 100 "03-2023" none])).calls = [Call.GetSubscriptionByID 1] ∧
      (subscription.UpdateSubscription exampleEnv (postgres.NewRepository textLe) 1
        { ServiceName := none, Price := none, EndDate := some "02-2023" }
        (tableOf [exampleRow 100 "03-2023" none])).calls ≠ [] := by
  refine ⟨by decide, by decide, by decide⟩

/-- C12, amended: an error of `CreateSubscription`, `GetSubscriptionByID`,
`GetSubscriptions`, `DeleteSubscription` or `CalculateCost` is either a validation error
returned before any store call, or the error that the one store call of the operation
returned.  `UpdateSubscription` returns `ErrInvalidData` for a bad id before any store
call; its other validation errors, `ErrInvalidDateFormat`, `ErrInvalidDateRange` and
`ErrInvalidPrice`, come after exactly one store call, the lookup of the record, and before
any update; an error after the update is the error of the update. -/
theorem service_validation_and_store {σ : Type} (env : Env) (repo : Repository σ)
    (creq : CreateSubscriptionRequest) (id : Int) (filters : SubscriptionFilters)
    (ureq : UpdateSubscriptionRequest) (qreq : CostCalculationRequest) (st : σ) :
    (∀ e, (subscription.CreateSubscription env repo creq st).result = Except.error e →
      ((subscription.CreateSubscription env repo creq st).calls = [] ∧
          isValidationErr e = true) ∨
        ((subscription.CreateSubscription env repo creq st).calls
            = [Call.CreateSubscription (draftOf creq)] ∧
          (repo.CreateSubscription (draftOf creq) st).1 = Except.error e)) ∧
    (∀ e, (subscription.GetSubscriptionByID repo id st).result = Except.error e →
      ((subscription.GetSubscriptionByID repo id st).calls = [] ∧ e = Err.ErrInvalidData) ∨
        ((subscription.GetSubscriptionByID repo id st).calls = [Call.GetSubscriptionByID id] ∧
          (repo.GetSubscriptionByID id st).1 = Except.error e)) ∧
    (∀ e, (subscription.GetSubscriptions env repo filters st).result = Except.error e →
      ((subscription.GetSubscriptions env repo filters st).calls = [] ∧
          isValidationErr e = true) ∨
        ((subscription.GetSubscriptions env repo filters st).calls
            = [Call.GetSubscriptions (clampFilters filters)] ∧
          (repo.GetSubscriptions (clampFilters filters) st).1 = Except.error e)) ∧
    (∀ e, (subscription.DeleteSubscription repo id st).result = some e →
      ((subscription.DeleteSubscription repo id st).calls = [] ∧ e = Err.ErrInvalidData) ∨
        ((subscription.DeleteSubscription repo id st).calls = [Call.DeleteSubscription id] ∧
          (repo.DeleteSubscription id st).1 = some e)) ∧
    (∀ e, (subscription.CalculateCost env repo qreq st).result = Except.error e →
      ((subscription.CalculateCost env repo qreq st).calls = [] ∧
          isValidationErr e = true) ∨
        ((subscription.CalculateCost env repo qreq st).calls = [Call.CalculateCost qreq] ∧
          (repo.CalculateCost qreq st).1 = Except.error e)) ∧
    (∀ e, (subscription.UpdateSubscription env repo id ureq st).result = Except.error e →
      ((subscription.UpdateSubscription env repo id ureq st).calls = [] ∧ id ≤ 0 ∧
          e = Err.ErrInvalidData) ∨
        ((subscription.UpdateSubscription env repo id ureq st).calls
            = [Call.GetSubscriptionByID id] ∧
          ((repo.GetSubscriptionByID id st).1 = Except.error e ∨
            e = Err.ErrInvalidDateFormat ∨ e = Err.ErrInvalidDateRange ∨
            e = Err.ErrInvalidPrice)) ∨
        ((subscription.UpdateSubscription env repo id ureq st).calls
            = [Call.GetSubscriptionByID id, Call.UpdateSubscription id (trimmedPatch ureq)] ∧
          (repo.UpdateSubscription id (trimmedPatch ureq)
            (repo.GetSubscriptionByID id st).2).1 = Except.error e)) := by
  refine ⟨fun e h => service_createSubscription_error env repo creq st e h, ?_,
    fun e h => service_getSubscriptions_error env repo filters st e h, ?_,
    fun e h => service_calculateCost_error env repo qreq st e h,
    fun e h => service_updateSubscription_error env repo id ureq st e h⟩
  · intro e h
    by_cases hid : id ≤ 0
    · simp [subscription.GetSubscriptionByID, hid] at h ⊢
      exact h.symm
    · simp only [subscription.GetSubscriptionByID, hid, if_false] at h ⊢
      exact Or.inr ⟨trivial, h⟩
  · intro e h
    by_cases hid : id ≤ 0
    · simp [subscription.DeleteSubscription, hid] at h ⊢
      exact h.symm
    · simp only [subscription.DeleteSubscription, hid, if_false] at h ⊢
      exact Or.inr ⟨trivial, h⟩

/-- A patch of name, price and end date for the stored subscription 1: the store is called
for the lookup and then for the update, with the name trimmed. -/
theorem service_updateSubscription_spec_witness :
    (subscription.UpdateSubscription exampleEnv (postgres.NewRepository textLe) 1
        { ServiceName := some " Okko ", Price := some 300, EndDate := some "06-2023" }
        (tableOf [exampleRow 100 "03-2023" none])).calls =
      [Call.GetSubscriptionByID 1,
        Call.UpdateSubscription 1
          { ServiceName := some "Okko", Price := some 300, EndDate := some "06-2023" }] :=
  ((((service_updateSubscription_spec exampleEnv (postgres.NewRepository textLe) 1
      { ServiceName := some " Okko ", Price := some 300, EndDate := some "06-2023" }
      (tableOf [exampleRow 100 "03-2023" none]) textLe
      (tableOf [exampleRow 100 "03-2023" none]) (by decide)).1
      (exampleRow 100 "03-2023" none) (by decide) (by decide)).2.2.2
      (by intro e he; cases he; decide) (by intro p hp; cases hp; decide)).1).trans
    (by decide)

/-! ## Errors at the HTTP boundary -/

/-- C13: the handlers of `GET` and `DELETE` do not map `ErrInvalidData` to 400.  For the
id 0, and for every id that is zero or negative, the service returns `ErrInvalidData`
without a store call and the handlers of `GET` and `DELETE` answer 500 with
`internal server error`, while the handler of `PUT` answers 400 for the same error.  The
rest of the mapping holds: `ErrNotFound` gives 404 in the handlers of `GET`, `PUT` and
`DELETE`, and the validation errors that the other handlers name give 400. -/
theorem handler_error_status {σ : Type} (env : Env) (repo : Repository σ) (st : σ)
    (idStr : String) (creq : CreateSubscriptionRequest) (ureq : UpdateSubscriptionRequest)
    (qreq : CostCalculationRequest) (query : ListQuery) :
    ((subscription.GetSubscriptionByID repo 0 st).result = Except.error Err.ErrInvalidData ∧
      (handler.GetSubscription repo "0" st).result
        = ResponseWithError "internal server error" 500) ∧
    ((subscription.DeleteSubscription repo 0 st).result = some Err.ErrInvalidData ∧
      (handler.DeleteSubscription repo "0" st).result
        = ResponseWithError "internal server error" 500) ∧
    ((strconv.Atoi idStr.data).2 = true → (strconv.Atoi idStr.data).1 ≤ 0 →
      (handler.GetSubscription repo idStr st).result.status = 500 ∧
        (handler.DeleteSubscription repo idStr st).result.status = 500 ∧
        (handler.GetSubscription repo idStr st).calls = [] ∧
        (handler.DeleteSubscription repo idStr st).calls = []) ∧
    (handler.UpdateSubscription env repo "0"
        (some { ServiceName := some "Okko", Price := none, EndDate := none }) st).result
      = ResponseWithError "invalid data provided" 400 ∧
    ((strconv.Atoi idStr.data).2 = true →
      (subscription.GetSubscriptionByID repo (strconv.Atoi idStr.data).1 st).result
        = Except.error Err.ErrNotFound →
      (handler.GetSubscription repo idStr st).result.status = 404) ∧
    ((strconv.Atoi idStr.data).2 = true →
      (subscription.DeleteSubscription repo (strconv.Atoi idStr.data).1 st).result
        = some Err.ErrNotFound →
      (handler.DeleteSubscription repo idStr st).result.status = 404) ∧
    ((strconv.Atoi idStr.data).2 = true →
      ¬ (ureq.ServiceName = none ∧ ureq.Price = none ∧ ureq.EndDate = none) →
      (∀ p, ureq.Price = some p → 0 < p) →
      ∀ e, (subscription.UpdateSubscription env repo (strconv.Atoi idStr.data).1 ureq
          st).result = Except.error e →
        (e = Err.ErrNotFound →
          (handler.UpdateSubscription env repo idStr (some ureq) st).result.status = 404) ∧
        (e = Err.ErrInvalidDateFormat ∨ e = Err.ErrInvalidDateRange ∨
            e = Err.ErrInvalidPrice ∨ e = Err.ErrInvalidData →
          (handler.UpdateSubscription env repo idStr (some ureq) st).result.status = 400)) ∧
    (creq.ServiceName ≠ "" → creq.UserID ≠ "" → creq.StartDate ≠ "" → 0 < creq.Price →
      ∀ e, (subscription.CreateSubscription env repo creq st).result = Except.error e →
        e = Err.ErrInvalidUUID ∨ e = Err.ErrInvalidDateFormat ∨
            e = Err.ErrInvalidDateRange ∨ e = Err.ErrInvalidPrice →
        (handler.CreateSubscription env repo (some creq) st).result.status = 400) ∧
    ((subscription.GetSubscriptions env repo (handler.parseFilters query) st).result
        = Except.error Err.ErrInvalidUUID →
      (handler.GetSubscriptions env repo query st).result.status = 400) ∧
    (qreq.StartDate ≠ "" → qreq.EndDate ≠ "" →
      ∀ e, (subscription.CalculateCost env repo qreq st).result = Except.error e →
        e = Err.ErrInvalidUUID ∨ e = Err.ErrInvalidDateFormat ∨
            e = Err.ErrInvalidDateRange →
        (handler.CalculateCost env repo (some qreq) st).result.status = 400) := by
  refine ⟨⟨rfl, rfl⟩, ⟨rfl, rfl⟩, ?_, rfl, ?_, ?_, ?_, ?_, ?_, ?_⟩
  · intro hok hle
    simp [handler.GetSubscription, handler.DeleteSubscription, hok,
      subscription.GetSubscriptionByID, subscription.DeleteSubscription, hle,
      ResponseWithError]
  · intro hok hres
    simp [handler.GetSubscription, hok, hres, ResponseWithError]
  · intro hok hres
    simp [handler.DeleteSubscription, hok, hres, ResponseWithError]
  · intro hok hne hprice e hres
    have hbad : (match ureq.Price with
        | some price => decide (price ≤ 0)
        | none => false) = false := by
      cases hp : ureq.Price with
      | none => rfl
      | some p =>
        have := hprice p hp
        simp only [decide_eq_false_iff_not]
        omega
    constructor
    · intro he
      subst he
      simp [handler.UpdateSubscription, hok, hne, hbad, hres, ResponseWithError]
    · intro he
      rcases he with he | he | he | he <;> subst he <;>
        simp [handler.UpdateSubscription, hok, hne, hbad, hres, ResponseWithError]
  · intro h1 h2 h3 h4 e hres he
    have h5 : ¬ creq.Price ≤ 0 := by omega
    rcases he with he | he | he | he <;> subst he <;>
      simp [handler.CreateSubscription, h1, h2, h3, h5, hres, ResponseWithError]
  · intro hres
    simp [handler.GetSubscriptions, hres, ResponseWithError]
  · intro h1 h2 e hres he
    rcases he with he | he | he <;> subst he <;>
      simp [handler.CalculateCost, h1, h2, hres, ResponseWithError]

/-! ## Cost queries that match no row -/

/-- C5: a valid cost query that no stored row matches does not always give total cost 0.
For the period `02-2024` to `02-2024` the only stored row, a subscription of price 500
that starts in `01-2025`, does not overlap the period, yet the statement compares the
texts `01-2025` and `02-2024`, counts the row, and the service answers 500.  For the
service-name filter `n_t` the only stored row, `Netflix`, does not contain the filter, yet
the pattern `%n_t%` selects it and the service answers 500, in either order of the date
columns.  What holds for every valid query on a database without a failure: the service
returns a total and no error, and on the empty table the total is 0. -/
theorem calculateCost_unmatched_rows (le : DateOrder) (env : Env)
    (req : CostCalculationRequest) (db : DB) :
    (validateDateRange 2025 "02-2024" "02-2024" = none ∧
      validateDateFormat 2025 "01-2025" = none ∧
      (∀ row ∈ (tableOf [exampleRow 500 "01-2025" none]).rows,
        matchesQuery (periodQuery "02-2024" "02-2024") row = false) ∧
      (subscription.CalculateCost exampleEnv (postgres.NewRepository textLe)
        (periodQuery "02-2024" "02-2024") (tableOf [exampleRow 500 "01-2025" none])).result =
        Except.ok { TotalCost := 500, StartDate := "02-2024", EndDate := "02-2024",
                    UserID := none, ServiceName := none }) ∧
    ((∀ row ∈ (tableOf [exampleRow 500 "01-2024" none]).rows,
        matchesQuery
          { UserID := none, ServiceName := some "n_t", StartDate := "01-2024",
            EndDate := "12-2024" } row = false) ∧
      (subscription.CalculateCost exampleEnv (postgres.NewRepository textLe)
        { UserID := none, ServiceName := some "n_t", StartDate := "01-2024",
          EndDate := "12-2024" } (tableOf [exampleRow 500 "01-2024" none])).result =
        Except.ok { TotalCost := 500, StartDate := "01-2024", EndDate := "12-2024",
                    UserID := none, ServiceName := some "n_t" } ∧
      (subscription.CalculateCost exampleEnv (postgres.NewRepository monthDateLe)
        { UserID := none, ServiceName := some "n_t", StartDate := "01-2024",
          EndDate := "12-2024" } (tableOf [exampleRow 500 "01-2024" none])).result =
        Except.ok { TotalCost := 500, StartDate := "01-2024", EndDate := "12-2024",
                    UserID := none, ServiceName := some "n_t" }) ∧
    (validateDateRange env.currentYear req.StartDate req.EndDate = none →
      (∀ u, req.UserID = some u → env.uuidParse u = true) →
      ((subscription.CalculateCost env (postgres.NewRepository le) req (tableOf [])).result =
          Except.ok { TotalCost := 0, StartDate := req.StartDate, EndDate := req.EndDate,
                      UserID := req.UserID, ServiceName := req.ServiceName }) ∧
        (db.fault = none →
          ∃ t, (subscription.CalculateCost env (postgres.NewRepository le) req db).result =
            Except.ok { TotalCost := t, StartDate := req.StartDate, EndDate := req.EndDate,
                        UserID := req.UserID, ServiceName := req.ServiceName })) := by
  refine ⟨⟨by decide, by decide, by decide, by decide⟩, ⟨by decide, by decide, by decide⟩, ?_⟩
  intro hrange huuid
  have hu : (match req.UserID with
      | some userID => validateUUID env userID
      | none => none) = none := by
    cases h : req.UserID with
    | none => rfl
    | some u => simp [validateUUID, huuid u h]
  constructor
  · have h1 := calculateCost_eq_sum le req (tableOf []) rfl
    simp only [subscription.CalculateCost, hrange, hu, postgres.NewRepository, h1]
    rfl
  · intro hf
    have h1 := calculateCost_eq_sum le req db hf
    refine ⟨((db.rows.filter (costCondition le req)).map (fun r => r.Price)).sum, ?_⟩
    simp only [subscription.CalculateCost, hrange, hu, postgres.NewRepository, h1]

end Market
